import Mathlib

/-!
AD7792/AD7793 sigma-delta ADC driver: embedding and verification.

Shallow embedding of `ad779x_single/ad779x.h`, `ad779x_single/ad779x.c` and
`ad779x_multiple/ad779x.c`.

Modelling conventions.

* The four transport handles of `tAD779X_Device` (`CSControl`, `TxByte`, `RxByte`,
  `RDYState`) are external. A call to one of them appends an event to the bus trace
  of the `World`; `RxByte` and `RDYState` take their result from an input stream
  supplied by the environment.
* Machine integers are natural numbers. Conversions to `unsigned char`,
  `unsigned short` and `unsigned long` are written as `% 256`, `% 65536` and
  `% 4294967296` where the C code converts. `int` is taken to be at least 32 bits
  wide, so the promoted shifts of received bytes do not overflow.
* A bit-field register is the structure of its fields, each field of the declared
  width; the `DATA` member of the union is the value of the storage unit under
  least-significant-first allocation, the layout the header masks document.
* The single-device file works on the global `ADCDevice`, the multi-device file on
  `*pDevice`; both are the `dev` component of the `World`.
-/

namespace AD779X

/-! ## ad779x.h: register addresses, command bytes, masks -/

def AD779X_REG_COMM : Nat := 0 <<< 3
def AD779X_REG_STATUS : Nat := 0 <<< 3
def AD779X_REG_ID : Nat := 4 <<< 3
def AD779X_REG_IO : Nat := 5 <<< 3
def AD779X_REG_MODE : Nat := 1 <<< 3
def AD779X_REG_CONFIG : Nat := 2 <<< 3
def AD779X_REG_DATA : Nat := 3 <<< 3
def AD779X_REG_OFFSET : Nat := 6 <<< 3
def AD779X_REG_FSCALE : Nat := 7 <<< 3

def AD779X_RDV_MODE : Nat := 0x000A
def AD779X_RDV_CONFIG : Nat := 0x0710
def AD779X_RDV_IO : Nat := 0x0000

def AD779X_COMM_WMODE : Nat := 0x00
def AD779X_COMM_RMODE : Nat := 0x40
def AD779X_COMM_CREED : Nat := 0x04
def AD779X_COMM_CMACK : Nat := 0x7C

def AD779X_WRR_COMM : Nat := (AD779X_REG_COMM ||| AD779X_COMM_WMODE) &&& AD779X_COMM_CMACK
def AD779X_WRR_IO : Nat := ( AD779X_REG_IO ||| AD779X_COMM_WMODE) &&& AD779X_COMM_CMACK
def AD779X_WRR_MODE : Nat := (AD779X_REG_MODE ||| AD779X_COMM_WMODE) &&& AD779X_COMM_CMACK
def AD779X_WRR_CONFIG : Nat := (AD779X_REG_CONFIG ||| AD779X_COMM_WMODE) &&& AD779X_COMM_CMACK
def AD779X_WRR_OFFSET : Nat := (AD779X_REG_OFFSET ||| AD779X_COMM_WMODE) &&& AD779X_COMM_CMACK
def AD779X_WRR_FSCLAE : Nat := (AD779X_REG_FSCALE ||| AD779X_COMM_WMODE) &&& AD779X_COMM_CMACK

def AD779X_RDR_STATUS : Nat := (AD779X_REG_STATUS ||| AD779X_COMM_RMODE) &&& AD779X_COMM_CMACK
def AD779X_RDR_ID : Nat := (AD779X_REG_ID ||| AD779X_COMM_RMODE) &&& AD779X_COMM_CMACK
def AD779X_RDR_IO : Nat := ( AD779X_REG_IO ||| AD779X_COMM_RMODE) &&& AD779X_COMM_CMACK
def AD779X_RDR_MODE : Nat := (AD779X_REG_MODE ||| AD779X_COMM_RMODE) &&& AD779X_COMM_CMACK
def AD779X_RDR_DATA : Nat := (AD779X_REG_DATA ||| AD779X_COMM_RMODE) &&& AD779X_COMM_CMACK
def AD779X_RDR_CONFIG : Nat := (AD779X_REG_CONFIG ||| AD779X_COMM_RMODE) &&& AD779X_COMM_CMACK
def AD779X_RDR_OFFSET : Nat := (AD779X_REG_OFFSET ||| AD779X_COMM_RMODE) &&& AD779X_COMM_CMACK
def AD779X_RDR_FSCLAE : Nat := (AD779X_REG_FSCALE ||| AD779X_COMM_RMODE) &&& AD779X_COMM_CMACK

def AD7792_PARTID : Nat := 0x0A
def AD7793_PARTID : Nat := 0x0B

def AD779X_SR_RDY : Nat := 0x80
def AD779X_SR_ERR : Nat := 0x40
def AD779X_SR_CLR : Nat := 0x30
def AD779X_SR_PID : Nat := 0x08
def AD779X_SR_CHC : Nat := 0x07

def AD779X_MODE_MD : Nat := 0xE000
def AD779X_MODE_CLK : Nat := 0x00C0
def AD779X_MODE_FS : Nat := 0x000F
def AD779X_MODE_COM : Nat := 0xE0CF

def AD779X_IO_IEXCDIR : Nat := 0x0C
def AD779X_IO_IEXCEN : Nat := 0x03
def AD779X_IO_COM : Nat := 0x0F

def AD779X_OFFSET_RESET_24 : Nat := 0x800000
def AD779X_OFFSET_RESET_16 : Nat := 0x8000
def AD779X_FULLSCALE_RESET_24 : Nat := 0x500000
def AD779X_FULLSCALE_RESET_16 : Nat := 0x5000

/-! ## ad779x.h: enumerations

The enumerations whose values are stored into bit-fields or passed to the transport
are natural numbers, as in C; an argument outside the enumeration is truncated by the
bit-field store. -/

/-- Values of `tAD779X_ModeSelect`. -/
abbrev tAD779X_ModeSelect := Nat
def mdsContinuous : tAD779X_ModeSelect := 0
def mdsSingle : tAD779X_ModeSelect := 1
def mdsIdle : tAD779X_ModeSelect := 2
def mdsPowerDown : tAD779X_ModeSelect := 3
def mdsIntZeroCal : tAD779X_ModeSelect := 4
def mdsIntFullCal : tAD779X_ModeSelect := 5
def mdsSysZeroCal : tAD779X_ModeSelect := 6
def mdsSysFullCal : tAD779X_ModeSelect := 7

/-- Values of `tAD779X_ClkSourceSelect`. -/
abbrev tAD779X_ClkSourceSelect := Nat
def cssInt : tAD779X_ClkSourceSelect := 0
def cssIntOut : tAD779X_ClkSourceSelect := 1
def cssExt : tAD779X_ClkSourceSelect := 2
def cssExtDiv2 : tAD779X_ClkSourceSelect := 3

/-- Values of `tAD779X_FilterSelect`. -/
abbrev tAD779X_FilterSelect := Nat
def fsNone : tAD779X_FilterSelect := 0
def fs500 : tAD779X_FilterSelect := 1
def fs250 : tAD779X_FilterSelect := 2
def fs152 : tAD779X_FilterSelect := 3
def fs62_5 : tAD779X_FilterSelect := 4
def fs50 : tAD779X_FilterSelect := 5
def fs39_2 : tAD779X_FilterSelect := 6
def fs33_3 : tAD779X_FilterSelect := 7
def fs19_6_90dB : tAD779X_FilterSelect := 8
def fs16_7_80dB : tAD779X_FilterSelect := 9
def fs16_7_65dB : tAD779X_FilterSelect := 10
def fs12_5_66dB : tAD779X_FilterSelect := 11
def fs10_69dB : tAD779X_FilterSelect := 12
def fs8_33_70dB : tAD779X_FilterSelect := 13
def fs6_25_72dB : tAD779X_FilterSelect := 14
def fs4_17_74dB : tAD779X_FilterSelect := 15

/-- Values of `tAD779X_IEXCDIRSelect`. -/
abbrev tAD779X_IEXCDIRSelect := Nat
def csdNormal : tAD779X_IEXCDIRSelect := 0
def csdInverse : tAD779X_IEXCDIRSelect := 1
def csdBcsOut1 : tAD779X_IEXCDIRSelect := 2
def csdBcsOut2 : tAD779X_IEXCDIRSelect := 3

/-- Values of `tAD779X_IEXCENSelect`. -/
abbrev tAD779X_IEXCENSelect := Nat
def csvDisable : tAD779X_IEXCENSelect := 0
def csv10uA : tAD779X_IEXCENSelect := 1
def csv210uA : tAD779X_IEXCENSelect := 2
def csv1mA : tAD779X_IEXCENSelect := 3

/-- Values of `tAD779X_CSState`, the argument of the chip-select handle. -/
abbrev tAD779X_CSState := Nat
def cssDisable : tAD779X_CSState := 0
def cssEnable : tAD779X_CSState := 1

/-- Values of `tAD779X_RDState`. -/
abbrev tAD779X_RDState := Nat
def rdsFree : tAD779X_RDState := 0
def rdsBusy : tAD779X_RDState := 1

/-- Detected part, `tAD779X_Model`. -/
inductive tAD779X_Model where
  | adNone
  | ad7792
  | ad7793
deriving DecidableEq

/-- Numeric value of a `tAD779X_Model` enumerator. -/
def tAD779X_Model.toNat : tAD779X_Model → Nat
  | .adNone => 0
  | .ad7792 => 1
  | .ad7793 => 2

/-- Start-up status, `tAD779X_StartUpState`. -/
inductive tAD779X_StartUpState where
  | susNone
  | susNoHW
  | susActivate
deriving DecidableEq

/-! ## ad779x.h: register unions -/

/-- Bit-field view of `tAD779X_ModeRegister`, fields in declaration order. -/
structure tAD779X_ModeRegister where
  FS : Fin 16
  UNUSED1 : Fin 4
  CLKS : Fin 4
  UNUSED0 : Fin 32
  MODE : Fin 8
deriving DecidableEq

/-- The `DATA` member of `tAD779X_ModeRegister`: the 16-bit storage unit holding the
bit-fields, first declared field in the least significant bits. -/
def tAD779X_ModeRegister.DATA (r : tAD779X_ModeRegister) : Nat :=
  r.FS.val ||| (r.UNUSED1.val <<< 4) ||| (r.CLKS.val <<< 6) ||| (r.UNUSED0.val <<< 8) |||
    (r.MODE.val <<< 13)

/-- The bit-fields read from a `tAD779X_ModeRegister` whose `DATA` member holds `raw`. -/
def tAD779X_ModeRegister.ofDATA (raw : Nat) : tAD779X_ModeRegister where
  FS := ⟨raw % 16, Nat.mod_lt _ (by decide)⟩
  UNUSED1 := ⟨(raw >>> 4) % 4, Nat.mod_lt _ (by decide)⟩
  CLKS := ⟨(raw >>> 6) % 4, Nat.mod_lt _ (by decide)⟩
  UNUSED0 := ⟨(raw >>> 8) % 32, Nat.mod_lt _ (by decide)⟩
  MODE := ⟨(raw >>> 13) % 8, Nat.mod_lt _ (by decide)⟩

/-- Store to the 3-bit field `MODE`: the value is truncated to the field width. -/
def tAD779X_ModeRegister.set_MODE (r : tAD779X_ModeRegister) (v : Nat) :
    tAD779X_ModeRegister :=
  { r with MODE := ⟨v % 8, Nat.mod_lt _ (by decide)⟩ }

/-- Store to the 2-bit field `CLKS`. -/
def tAD779X_ModeRegister.set_CLKS (r : tAD779X_ModeRegister) (v : Nat) :
    tAD779X_ModeRegister :=
  { r with CLKS := ⟨v % 4, Nat.mod_lt _ (by decide)⟩ }

/-- Store to the 4-bit field `FS`. -/
def tAD779X_ModeRegister.set_FS (r : tAD779X_ModeRegister) (v : Nat) :
    tAD779X_ModeRegister :=
  { r with FS := ⟨v % 16, Nat.mod_lt _ (by decide)⟩ }

/-- Bit-field view of `tAD779X_IORegister`, fields in declaration order. -/
structure tAD779X_IORegister where
  IEXCEN : Fin 4
  IEXCDIR : Fin 4
  UNUSED : Fin 16
deriving DecidableEq

/-- The `DATA` member of `tAD779X_IORegister`. -/
def tAD779X_IORegister.DATA (r : tAD779X_IORegister) : Nat :=
  r.IEXCEN.val ||| (r.IEXCDIR.val <<< 2) ||| (r.UNUSED.val <<< 4)

/-- The bit-fields read from a `tAD779X_IORegister` whose `DATA` member holds `raw`. -/
def tAD779X_IORegister.ofDATA (raw : Nat) : tAD779X_IORegister where
  IEXCEN := ⟨raw % 4, Nat.mod_lt _ (by decide)⟩
  IEXCDIR := ⟨(raw >>> 2) % 4, Nat.mod_lt _ (by decide)⟩
  UNUSED := ⟨(raw >>> 4) % 16, Nat.mod_lt _ (by decide)⟩

/-- Store to the 2-bit field `IEXCEN`: the value is truncated to the field width. -/
def tAD779X_IORegister.set_IEXCEN (r : tAD779X_IORegister) (v : Nat) : tAD779X_IORegister :=
  { r with IEXCEN := ⟨v % 4, Nat.mod_lt _ (by decide)⟩ }

/-- Store to the 2-bit field `IEXCDIR`. -/
def tAD779X_IORegister.set_IEXCDIR (r : tAD779X_IORegister) (v : Nat) : tAD779X_IORegister :=
  { r with IEXCDIR := ⟨v % 4, Nat.mod_lt _ (by decide)⟩ }

/-- The union `tAD779X_DataSample`, held as its 32-bit member. The 16-bit member
aliases the low half (little-endian storage). -/
structure tAD779X_DataSample where
  u32 : Nat
deriving DecidableEq

/-- Read of the `u16` member. -/
def tAD779X_DataSample.u16 (s : tAD779X_DataSample) : Nat := s.u32 % 65536

/-- Store to the `u16` member: the other bytes of the union keep their content. -/
def tAD779X_DataSample.set_u16 (s : tAD779X_DataSample) (v : Nat) : tAD779X_DataSample :=
  ⟨s.u32 / 65536 * 65536 + v % 65536⟩

/-- Store to the `u32` member. -/
def tAD779X_DataSample.set_u32 (_s : tAD779X_DataSample) (v : Nat) : tAD779X_DataSample :=
  ⟨v % 4294967296⟩

/-- The data members of `tAD779X_Device`. The function-pointer members are the bus of
the `World`. -/
structure tAD779X_Device where
  Model : tAD779X_Model
  SuState : tAD779X_StartUpState
  ModeReg : tAD779X_ModeRegister
  IOReg : tAD779X_IORegister
  OfReg : tAD779X_DataSample
  FsReg : tAD779X_DataSample
deriving DecidableEq

/-! ## Bus transport -/

/-- One call through a transport handle, with the value passed or returned. -/
inductive BusEvent where
  | CSControl (State : Nat)
  | TxByte (Data : Nat)
  | RxByte (Data : Nat)
  | RDYState (Level : Nat)
deriving DecidableEq

/-- Device, pending transport inputs and the trace of transport calls made so far.
`rx n` is what the `n`-th coming `RxByte` call returns, `rdy n` likewise for
`RDYState`. -/
structure World where
  dev : tAD779X_Device
  rx : Nat → Nat
  rdy : Nat → Nat
  trace : List BusEvent

/-- Call of the `CSControl` handle (`unsigned char` argument). -/
def CSControl (State : Nat) (w : World) : World :=
  { w with trace := w.trace ++ [BusEvent.CSControl (State % 256)] }

/-- Call of the `TxByte` handle (`unsigned char` argument). -/
def TxByte (Data : Nat) (w : World) : World :=
  { w with trace := w.trace ++ [BusEvent.TxByte (Data % 256)] }

/-- Call of the `RxByte` handle: returns the next input byte. -/
def RxByte (w : World) : Nat × World :=
  (w.rx 0 % 256,
    { w with rx := fun n => w.rx (n + 1), trace := w.trace ++ [BusEvent.RxByte (w.rx 0 % 256)] })

/-- Call of the `RDYState` handle: returns the next sampled level of the ready line. -/
def RDYState (w : World) : Nat × World :=
  (w.rdy 0 % 256,
    { w with rdy := fun n => w.rdy (n + 1),
             trace := w.trace ++ [BusEvent.RDYState (w.rdy 0 % 256)] })

/-! ## ad779x.c: reset values of the registers -/

/-- Reset state of IO register. -/
def gIOReg : tAD779X_IORegister where
  IEXCEN := ⟨csvDisable, by decide⟩
  IEXCDIR := ⟨csdNormal, by decide⟩
  UNUSED := 0

/-- Reset state of MODE register. -/
def gModeReg : tAD779X_ModeRegister where
  MODE := ⟨mdsIdle, by decide⟩
  CLKS := ⟨cssInt, by decide⟩
  FS := ⟨fs16_7_65dB, by decide⟩
  UNUSED0 := 0
  UNUSED1 := 0

/-! ## ad779x_single/ad779x.c -/

namespace Single

/-- Reset ADC. -/
def AD779X_Reset (w : World) : World :=
  let w := CSControl cssEnable w
  let w := TxByte 0xFF w
  let w := TxByte 0xFF w
  let w := TxByte 0xFF w
  let w := TxByte 0xFF w
  CSControl cssDisable w

/-- Write value in MODE register (`unsigned short Data`). -/
def AD779X_WriteModeRegister (Data : Nat) (w : World) : World :=
  let Data := Data % 65536
  let w := CSControl cssEnable w
  let w := TxByte AD779X_WRR_MODE w
  let w := TxByte (Data >>> 8) w
  let w := TxByte (Data &&& 0x00FF) w
  CSControl cssDisable w

/-- Write value in CONFIG register (`unsigned short Data`). -/
def AD779X_WriteConfigRegister (Data : Nat) (w : World) : World :=
  let Data := Data % 65536
  let w := CSControl cssEnable w
  let w := TxByte AD779X_WRR_CONFIG w
  let w := TxByte (Data >>> 8) w
  let w := TxByte (Data &&& 0x00FF) w
  CSControl cssDisable w

/-- Write value in IO register (`unsigned char Data`). -/
def AD779X_WriteIORegister (Data : Nat) (w : World) : World :=
  let Data := Data % 256
  let w := CSControl cssEnable w
  let w := TxByte AD779X_WRR_IO w
  let w := TxByte Data w
  CSControl cssDisable w

/-- Detect ADC type; returns the model as status of detecting (`unsigned short`). -/
def AD779X_HWDetect (w : World) : Nat × World :=
  let w := CSControl cssEnable w
  let w := TxByte AD779X_RDR_ID w
  let r := RxByte w
  let m_adc_model := r.1 % 65536
  let w := r.2
  let w := CSControl cssDisable w
  let w : World :=
    if m_adc_model &&& 0xF = AD7792_PARTID then
      { w with dev := { w.dev with Model := .ad7792 } }
    else if m_adc_model &&& 0xF = AD7793_PARTID then
      { w with dev := { w.dev with Model := .ad7793 } }
    else
      { w with dev := { w.dev with Model := .adNone } }
  (w.dev.Model.toNat % 65536, w)

/-- Init HW and reset ADC. -/
def AD779X_Init (w : World) : World :=
  let r := AD779X_HWDetect w
  let w := r.2
  if r.1 ≠ 0 then
    let w := AD779X_WriteModeRegister gModeReg.DATA w
    let w := AD779X_WriteIORegister gIOReg.DATA w
    let w : World :=
      match w.dev.Model with
      | .ad7792 =>
        let w : World :=
          { w with dev := { w.dev with OfReg := w.dev.OfReg.set_u16 AD779X_OFFSET_RESET_16 } }
        { w with dev := { w.dev with FsReg := w.dev.FsReg.set_u16 AD779X_FULLSCALE_RESET_16 } }
      | .ad7793 =>
        let w : World :=
          { w with dev := { w.dev with OfReg := w.dev.OfReg.set_u32 AD779X_OFFSET_RESET_24 } }
        { w with dev := { w.dev with FsReg := w.dev.FsReg.set_u32 AD779X_FULLSCALE_RESET_24 } }
      | .adNone => w
    { w with dev := { w.dev with SuState := .susActivate } }
  else
    { w with dev := { w.dev with SuState := .susNoHW } }

/-- Get ADC status (`unsigned char`). -/
def AD779X_GetStatus (w : World) : Nat × World :=
  let w := CSControl cssEnable w
  let w := TxByte AD779X_RDR_STATUS w
  let r := RxByte w
  let m_adc_status := r.1
  let w := r.2
  let w := CSControl cssDisable w
  (m_adc_status, w)

/-- Check ready status by STATUS_REG: `~status & AD779X_SR_RDY` on the promoted
`int`, returned as `unsigned char`. -/
def AD779X_CheckReadySW (w : World) : Nat × World :=
  let r := AD779X_GetStatus w
  (((r.1 ^^^ 0xFFFFFFFF) &&& AD779X_SR_RDY) % 256, r.2)

/-- Check ready state by RDY pin. -/
def AD779X_CheckReadyHW (w : World) : Nat × World :=
  let w := CSControl cssEnable w
  let r := RDYState w
  let w := r.2
  let m_rdy_state := if r.1 ≠ 0 then 0 else 1
  let w := CSControl cssDisable w
  (m_rdy_state, w)

/-- Set ADC mode: store into the 3-bit field, then write the whole register. -/
def AD779X_SetMode (Mode : tAD779X_ModeSelect) (w : World) : World :=
  let w : World :=
    { w with dev := { w.dev with ModeReg := w.dev.ModeReg.set_MODE Mode } }
  AD779X_WriteModeRegister w.dev.ModeReg.DATA w

/-- Set ADC clock source: store into the 2-bit field, then write the whole register. -/
def AD779X_SetClkSource (ClkSource : tAD779X_ClkSourceSelect) (w : World) : World :=
  let w : World :=
    { w with dev := { w.dev with ModeReg := w.dev.ModeReg.set_CLKS ClkSource } }
  AD779X_WriteModeRegister w.dev.ModeReg.DATA w

/-- Set ADC update rate: store into the 4-bit field, then write the whole register. -/
def AD779X_SetUpdateRate (UpdateRates : tAD779X_FilterSelect) (w : World) : World :=
  let w : World :=
    { w with dev := { w.dev with ModeReg := w.dev.ModeReg.set_FS UpdateRates } }
  AD779X_WriteModeRegister w.dev.ModeReg.DATA w

/-- Set ADC excitation currents value. -/
def AD779X_SetExCurrentValue (excValue : tAD779X_IEXCENSelect) (w : World) : World :=
  let w : World :=
    { w with dev := { w.dev with IOReg := w.dev.IOReg.set_IEXCEN excValue } }
  AD779X_WriteIORegister w.dev.IOReg.DATA w

/-- Set ADC excitation currents direction. -/
def AD779X_SetExCurrentDirection (excDirection : tAD779X_IEXCDIRSelect) (w : World) : World :=
  let w : World :=
    { w with dev := { w.dev with IOReg := w.dev.IOReg.set_IEXCDIR excDirection } }
  AD779X_WriteIORegister w.dev.IOReg.DATA w

/-- Set ADC excitation current: both fields, then one write. -/
def AD779X_SetExCurrent (excValue : tAD779X_IEXCENSelect) (excDirection : tAD779X_IEXCDIRSelect)
    (w : World) : World :=
  let w : World :=
    { w with dev := { w.dev with IOReg := w.dev.IOReg.set_IEXCEN excValue } }
  let w : World :=
    { w with dev := { w.dev with IOReg := w.dev.IOReg.set_IEXCDIR excDirection } }
  AD779X_WriteIORegister w.dev.IOReg.DATA w

/-- Start ADC Zero-Scale Calibration. -/
def AD779X_StartZSCalibration (w : World) : World :=
  AD779X_SetMode mdsIntZeroCal w

/-- Start ADC Full-Scale Calibration. -/
def AD779X_StartFSCalibration (w : World) : World :=
  AD779X_SetMode mdsIntFullCal w

/-- Read offset register value (16-bit). -/
def AD779X_ReadOffsetRegister16 (w : World) : Nat × World :=
  let w := CSControl cssEnable w
  let w := TxByte AD779X_RDR_OFFSET w
  let r1 := RxByte w
  let r0 := RxByte r1.2
  let w := CSControl cssDisable r0.2
  (((r1.1 <<< 8) ||| r0.1) % 65536, w)

/-- Read offset register value (24-bit). -/
def AD779X_ReadOffsetRegister24 (w : World) : Nat × World :=
  let w := CSControl cssEnable w
  let w := TxByte AD779X_RDR_OFFSET w
  let r2 := RxByte w
  let r1 := RxByte r2.2
  let r0 := RxByte r1.2
  let w := CSControl cssDisable r0.2
  ((((((r2.1 <<< 8) ||| r1.1) % 4294967296) <<< 8) ||| r0.1) % 4294967296, w)

/-- Read full-scale register value (16-bit). -/
def AD779X_ReadFScaleRegister16 (w : World) : Nat × World :=
  let w := CSControl cssEnable w
  let w := TxByte AD779X_RDR_FSCLAE w
  let r1 := RxByte w
  let r0 := RxByte r1.2
  let w := CSControl cssDisable r0.2
  (((r1.1 <<< 8) ||| r0.1) % 65536, w)

/-- Read full-scale register value (24-bit). -/
def AD779X_ReadFScaleRegister24 (w : World) : Nat × World :=
  let w := CSControl cssEnable w
  let w := TxByte AD779X_RDR_FSCLAE w
  let r2 := RxByte w
  let r1 := RxByte r2.2
  let r0 := RxByte r1.2
  let w := CSControl cssDisable r0.2
  ((((((r2.1 <<< 8) ||| r1.1) % 4294967296) <<< 8) ||| r0.1) % 4294967296, w)

/-- Read data from ADC (16-bit). -/
def AD779X_ReadDataRegister16 (w : World) : Nat × World :=
  let w := CSControl cssEnable w
  let w := TxByte AD779X_RDR_DATA w
  let r1 := RxByte w
  let r0 := RxByte r1.2
  let w := CSControl cssDisable r0.2
  (((r1.1 <<< 8) ||| r0.1) % 65536, w)

/-- Read data from ADC (24-bit). -/
def AD779X_ReadDataRegister24 (w : World) : Nat × World :=
  let w := CSControl cssEnable w
  let w := TxByte AD779X_RDR_DATA w
  let r2 := RxByte w
  let r1 := RxByte r2.2
  let r0 := RxByte r1.2
  let w := CSControl cssDisable r0.2
  ((((((r2.1 <<< 8) ||| r1.1) % 4294967296) <<< 8) ||| r0.1) % 4294967296, w)

/-- Read data from ADC (16-bit range). `m_data[2]` is received only for the ad7793
and is read only in that case. -/
def AD779X_ReadDataSample16 (w : World) : Nat × World :=
  let m_data_sample := 0
  let w := CSControl cssEnable w
  let w := TxByte AD779X_RDR_DATA w
  let r2 := if w.dev.Model = .ad7793 then RxByte w else (0, w)
  let r1 := RxByte r2.2
  let r0 := RxByte r1.2
  let w := CSControl cssDisable r0.2
  let m_data_sample :=
    match w.dev.Model with
    | .ad7792 => ((r1.1 <<< 8) ||| r0.1) % 65536
    | .ad7793 => ((r2.1 <<< 8) ||| r1.1) % 65536
    | .adNone => m_data_sample
  (m_data_sample, w)

/-- Read data from ADC (24-bit range). -/
def AD779X_ReadDataSample24 (w : World) : Nat × World :=
  let m_data_sample := 0
  let w := CSControl cssEnable w
  let w := TxByte AD779X_RDR_DATA w
  let r2 := if w.dev.Model = .ad7793 then RxByte w else (0, w)
  let r1 := RxByte r2.2
  let r0 := RxByte r1.2
  let w := CSControl cssDisable r0.2
  let m_data_sample :=
    match w.dev.Model with
    | .ad7792 => ((((r1.1 <<< 8) ||| r0.1) % 4294967296) <<< 8) % 4294967296
    | .ad7793 => (((((r2.1 <<< 8) ||| r1.1) % 4294967296) <<< 8) ||| r0.1) % 4294967296
    | .adNone => m_data_sample
  (m_data_sample, w)

end Single

/-! ## ad779x_multiple/ad779x.c

Every function takes the device as `tAD779X_Device *pDevice`. The reset values
`gIOReg` and `gModeReg` are defined identically in both files. -/

namespace Multiple

/-- Modelled from the spec: the header `ad779x.h` included by the multi-device file is
not among the sources. The spec describes the two files as parallel implementations of
one design, so the device type of the multi-device file, and with it the register
unions, enumerations and command-byte constants, are those of
`ad779x_single/ad779x.h`. -/
abbrev tAD779X_Device := AD779X.tAD779X_Device

/-- Reset ADC. -/
def AD779X_Reset (w : World) : World :=
  let w := CSControl cssEnable w
  let w := TxByte 0xFF w
  let w := TxByte 0xFF w
  let w := TxByte 0xFF w
  let w := TxByte 0xFF w
  CSControl cssDisable w

/-- Write value in MODE register (`unsigned short Data`). -/
def AD779X_WriteModeRegister (Data : Nat) (w : World) : World :=
  let Data := Data % 65536
  let w := CSControl cssEnable w
  let w := TxByte AD779X_WRR_MODE w
  let w := TxByte (Data >>> 8) w
  let w := TxByte (Data &&& 0x00FF) w
  CSControl cssDisable w

/-- Write value in CONFIG register (`unsigned short Data`). -/
def AD779X_WriteConfigRegister (Data : Nat) (w : World) : World :=
  let Data := Data % 65536
  let w := CSControl cssEnable w
  let w := TxByte AD779X_WRR_CONFIG w
  let w := TxByte (Data >>> 8) w
  let w := TxByte (Data &&& 0x00FF) w
  CSControl cssDisable w

/-- Write value in IO register (`unsigned char Data`). -/
def AD779X_WriteIORegister (Data : Nat) (w : World) : World :=
  let Data := Data % 256
  let w := CSControl cssEnable w
  let w := TxByte AD779X_WRR_IO w
  let w := TxByte Data w
  CSControl cssDisable w

/-- Detect ADC type; returns the model as status of detecting (`unsigned short`). -/
def AD779X_HWDetect (w : World) : Nat × World :=
  let w := CSControl cssEnable w
  let w := TxByte AD779X_RDR_ID w
  let r := RxByte w
  let m_adc_model := r.1 % 65536
  let w := r.2
  let w := CSControl cssDisable w
  let w : World :=
    if m_adc_model &&& 0xF = AD7792_PARTID then
      { w with dev := { w.dev with Model := .ad7792 } }
    else if m_adc_model &&& 0xF = AD7793_PARTID then
      { w with dev := { w.dev with Model := .ad7793 } }
    else
      { w with dev := { w.dev with Model := .adNone } }
  (w.dev.Model.toNat % 65536, w)

/-- Init HW and reset ADC. The reset call is commented out in the source, and the
offset and full-scale members are not assigned. -/
def AD779X_Init (w : World) : World :=
  let r := AD779X_HWDetect w
  let w := r.2
  if r.1 ≠ 0 then
    let w := AD779X_WriteModeRegister gModeReg.DATA w
    let w := AD779X_WriteIORegister gIOReg.DATA w
    { w with dev := { w.dev with SuState := .susActivate } }
  else
    { w with dev := { w.dev with SuState := .susNoHW } }

/-- Get ADC status (`unsigned char`). -/
def AD779X_GetStatus (w : World) : Nat × World :=
  let w := CSControl cssEnable w
  let w := TxByte AD779X_RDR_STATUS w
  let r := RxByte w
  let m_adc_status := r.1
  let w := r.2
  let w := CSControl cssDisable w
  (m_adc_status, w)

/-- Check ready status by STATUS_REG. -/
def AD779X_CheckReadySW (w : World) : Nat × World :=
  let r := AD779X_GetStatus w
  (((r.1 ^^^ 0xFFFFFFFF) &&& AD779X_SR_RDY) % 256, r.2)

/-- Check ready state by RDY pin. -/
def AD779X_CheckReadyHW (w : World) : Nat × World :=
  let w := CSControl cssEnable w
  let r := RDYState w
  let w := r.2
  let m_rdy_state := if r.1 ≠ 0 then 0 else 1
  let w := CSControl cssDisable w
  (m_rdy_state, w)

/-- Set ADC mode. -/
def AD779X_SetMode (Mode : tAD779X_ModeSelect) (w : World) : World :=
  let w : World :=
    { w with dev := { w.dev with ModeReg := w.dev.ModeReg.set_MODE Mode } }
  AD779X_WriteModeRegister w.dev.ModeReg.DATA w

/-- Set ADC clock source. -/
def AD779X_SetClkSource (ClkSource : tAD779X_ClkSourceSelect) (w : World) : World :=
  let w : World :=
    { w with dev := { w.dev with ModeReg := w.dev.ModeReg.set_CLKS ClkSource } }
  AD779X_WriteModeRegister w.dev.ModeReg.DATA w

/-- Set ADC update rate. -/
def AD779X_SetUpdateRate (UpdateRates : tAD779X_FilterSelect) (w : World) : World :=
  let w : World :=
    { w with dev := { w.dev with ModeReg := w.dev.ModeReg.set_FS UpdateRates } }
  AD779X_WriteModeRegister w.dev.ModeReg.DATA w

/-- Set ADC excitation currents value. -/
def AD779X_SetExCurrentValue (excValue : tAD779X_IEXCENSelect) (w : World) : World :=
  let w : World :=
    { w with dev := { w.dev with IOReg := w.dev.IOReg.set_IEXCEN excValue } }
  AD779X_WriteIORegister w.dev.IOReg.DATA w

/-- Set ADC excitation currents direction. -/
def AD779X_SetExCurrentDirection (excDirection : tAD779X_IEXCDIRSelect) (w : World) : World :=
  let w : World :=
    { w with dev := { w.dev with IOReg := w.dev.IOReg.set_IEXCDIR excDirection } }
  AD779X_WriteIORegister w.dev.IOReg.DATA w

/-- Start ADC Zero-Scale Calibration. -/
def AD779X_StartZSCalibration (w : World) : World :=
  AD779X_SetMode mdsIntZeroCal w

/-- Start ADC Full-Scale Calibration. -/
def AD779X_StartFSCalibration (w : World) : World :=
  AD779X_SetMode mdsIntFullCal w

/-- Read data from ADC (16-bit). -/
def AD779X_ReadDataRegister16 (w : World) : Nat × World :=
  let w := CSControl cssEnable w
  let w := TxByte AD779X_RDR_DATA w
  let r1 := RxByte w
  let r0 := RxByte r1.2
  let w := CSControl cssDisable r0.2
  (((r1.1 <<< 8) ||| r0.1) % 65536, w)

/-- Read data from ADC (24-bit). -/
def AD779X_ReadDataRegister24 (w : World) : Nat × World :=
  let w := CSControl cssEnable w
  let w := TxByte AD779X_RDR_DATA w
  let r2 := RxByte w
  let r1 := RxByte r2.2
  let r0 := RxByte r1.2
  let w := CSControl cssDisable r0.2
  ((((((r2.1 <<< 8) ||| r1.1) % 4294967296) <<< 8) ||| r0.1) % 4294967296, w)

/-- Read data from ADC (all 16-bit): dispatch on the model, no bus access when no
model is detected. -/
def AD779X_ReadDataSample (w : World) : Nat × World :=
  let m_data_sample := 0
  match w.dev.Model with
  | .ad7792 =>
    let r := AD779X_ReadDataRegister16 w
    (r.1 % 65536, r.2)
  | .ad7793 =>
    let r := AD779X_ReadDataRegister24 w
    ((r.1 >>> 8) % 65536, r.2)
  | .adNone => (m_data_sample, w)

/-- Read data from ADC (16-bit range), assembled in place. -/
def AD779X_ReadDataSample16 (w : World) : Nat × World :=
  let m_data_sample := 0
  let w := CSControl cssEnable w
  let w := TxByte AD779X_RDR_DATA w
  let r2 := if w.dev.Model = .ad7793 then RxByte w else (0, w)
  let r1 := RxByte r2.2
  let r0 := RxByte r1.2
  let w := CSControl cssDisable r0.2
  let m_data_sample :=
    match w.dev.Model with
    | .ad7792 => ((r1.1 <<< 8) ||| r0.1) % 65536
    | .ad7793 => ((r2.1 <<< 8) ||| r1.1) % 65536
    | .adNone => m_data_sample
  (m_data_sample, w)

end Multiple

/-! ## Concrete inputs used to instantiate the theorems -/

/-- A zero-initialised device: no model, not started, all register bits clear. -/
def zeroDevice : tAD779X_Device where
  Model := .adNone
  SuState := .susNone
  ModeReg := ⟨0, 0, 0, 0, 0⟩
  IOReg := ⟨0, 0, 0⟩
  OfReg := ⟨0⟩
  FsReg := ⟨0⟩

/-- The zero-initialised device with model `m` and start-up state `s` stored. -/
def deviceOf (m : tAD779X_Model) (s : tAD779X_StartUpState) : tAD779X_Device :=
  { zeroDevice with Model := m, SuState := s }

/-- A world with device `d`, an empty trace, a ready line that reads 0 and the bytes of
`bytes` pending on the bus (followed by zeros). -/
def worldOf (d : tAD779X_Device) (bytes : List Nat) : World where
  dev := d
  rx := fun n => bytes.getD n 0
  rdy := fun _ => 0
  trace := []

/-! ## Trace properties and operation lists used by the trace and frame theorems -/

/-- Chip-select bracketing of a sequence of bus events. `sel` tells whether chip-select
is asserted before the first event. An assert is allowed only while deasserted, a
deassert only while asserted, every transmit, receive and ready read only while
asserted, and the sequence must end deasserted. -/
def csBracketed : Bool → List BusEvent → Bool
  | sel, [] => !sel
  | false, BusEvent.CSControl s :: t => s == cssEnable && csBracketed true t
  | true, BusEvent.CSControl s :: t => s == cssDisable && csBracketed false t
  | true, BusEvent.TxByte _ :: t => csBracketed true t
  | true, BusEvent.RxByte _ :: t => csBracketed true t
  | true, BusEvent.RDYState _ :: t => csBracketed true t
  | false, BusEvent.TxByte _ :: _ => false
  | false, BusEvent.RxByte _ :: _ => false
  | false, BusEvent.RDYState _ :: _ => false

/-- Events appended to the bus trace by a step from `w` to `w2`. -/
def emitted (w w2 : World) : List BusEvent := w2.trace.drop w.trace.length

/-- Every function of the single-device file except `AD779X_Init` and
`AD779X_HWDetect`, as a state transformer, called with arguments `a` and `b`. -/
def Single.operations (a b : Nat) : List (World → World) :=
  [Single.AD779X_Reset,
   Single.AD779X_WriteModeRegister a,
   Single.AD779X_WriteConfigRegister a,
   Single.AD779X_WriteIORegister a,
   fun w => (Single.AD779X_GetStatus w).2,
   fun w => (Single.AD779X_CheckReadySW w).2,
   fun w => (Single.AD779X_CheckReadyHW w).2,
   Single.AD779X_SetMode a,
   Single.AD779X_SetClkSource a,
   Single.AD779X_SetUpdateRate a,
   Single.AD779X_SetExCurrentValue a,
   Single.AD779X_SetExCurrentDirection a,
   Single.AD779X_SetExCurrent a b,
   Single.AD779X_StartZSCalibration,
   Single.AD779X_StartFSCalibration,
   fun w => (Single.AD779X_ReadOffsetRegister16 w).2,
   fun w => (Single.AD779X_ReadOffsetRegister24 w).2,
   fun w => (Single.AD779X_ReadFScaleRegister16 w).2,
   fun w => (Single.AD779X_ReadFScaleRegister24 w).2,
   fun w => (Single.AD779X_ReadDataRegister16 w).2,
   fun w => (Single.AD779X_ReadDataRegister24 w).2,
   fun w => (Single.AD779X_ReadDataSample16 w).2,
   fun w => (Single.AD779X_ReadDataSample24 w).2]

/-- Every function of the single-device file (the prototypes of `ad779x.h`). -/
def Single.allOperations (a b : Nat) : List (World → World) :=
  Single.AD779X_Init :: (fun w => (Single.AD779X_HWDetect w).2) :: Single.operations a b

/-- Every function of the multi-device file except `AD779X_Init` and
`AD779X_HWDetect`, as a state transformer, called with argument `a`. -/
def Multiple.operations (a : Nat) : List (World → World) :=
  [Multiple.AD779X_Reset,
   Multiple.AD779X_WriteModeRegister a,
   Multiple.AD779X_WriteConfigRegister a,
   Multiple.AD779X_WriteIORegister a,
   fun w => (Multiple.AD779X_GetStatus w).2,
   fun w => (Multiple.AD779X_CheckReadySW w).2,
   fun w => (Multiple.AD779X_CheckReadyHW w).2,
   Multiple.AD779X_SetMode a,
   Multiple.AD779X_SetClkSource a,
   Multiple.AD779X_SetUpdateRate a,
   Multiple.AD779X_SetExCurrentValue a,
   Multiple.AD779X_SetExCurrentDirection a,
   Multiple.AD779X_StartZSCalibration,
   Multiple.AD779X_StartFSCalibration,
   fun w => (Multiple.AD779X_ReadDataRegister16 w).2,
   fun w => (Multiple.AD779X_ReadDataRegister24 w).2,
   fun w => (Multiple.AD779X_ReadDataSample w).2,
   fun w => (Multiple.AD779X_ReadDataSample16 w).2]

/-- Every function of the multi-device file. -/
def Multiple.allOperations (a : Nat) : List (World → World) :=
  Multiple.AD779X_Init :: (fun w => (Multiple.AD779X_HWDetect w).2) :: Multiple.operations a

/-- One call of a `Set*` function of the single-device file, with its arguments. -/
inductive SetCall where
  | SetMode (Mode : Nat)
  | SetClkSource (ClkSource : Nat)
  | SetUpdateRate (UpdateRates : Nat)
  | SetExCurrentValue (excValue : Nat)
  | SetExCurrentDirection (excDirection : Nat)
  | SetExCurrent (excValue excDirection : Nat)
deriving DecidableEq

/-- Effect of one `Set*` call. -/
def Single.call : SetCall → World → World
  | .SetMode a => Single.AD779X_SetMode a
  | .SetClkSource a => Single.AD779X_SetClkSource a
  | .SetUpdateRate a => Single.AD779X_SetUpdateRate a
  | .SetExCurrentValue a => Single.AD779X_SetExCurrentValue a
  | .SetExCurrentDirection a => Single.AD779X_SetExCurrentDirection a
  | .SetExCurrent a b => Single.AD779X_SetExCurrent a b

/-- Effect of a sequence of `Set*` calls, first call first. -/
def Single.run : List SetCall → World → World
  | [], w => w
  | c :: cs, w => Single.run cs (Single.call c w)

/-- A sequence of bus events consists of Mode-register writes (command 0x08, two payload
bytes) and IO-register writes (command 0x28, one payload byte) only, and every payload
has its reserved bits clear: no bit outside `AD779X_MODE_COM` in the 16-bit big-endian
Mode payload, no bit outside `AD779X_IO_COM` in the IO payload. -/
def reservedClear : List BusEvent → Bool
  | [] => true
  | BusEvent.CSControl 1 :: BusEvent.TxByte 0x08 :: BusEvent.TxByte hi :: BusEvent.TxByte lo
      :: BusEvent.CSControl 0 :: t =>
    ((hi * 256 + lo) &&& (0xFFFF ^^^ AD779X_MODE_COM) == 0) && reservedClear t
  | BusEvent.CSControl 1 :: BusEvent.TxByte 0x28 :: BusEvent.TxByte d
      :: BusEvent.CSControl 0 :: t =>
    (d &&& (0xFF ^^^ AD779X_IO_COM) == 0) && reservedClear t
  | _ => false

/-! ## Auxiliary facts -/

theorem RDR_ID_val : AD779X_RDR_ID = 0x60 := by decide
theorem RDR_DATA_val : AD779X_RDR_DATA = 0x58 := by decide
theorem WRR_MODE_val : AD779X_WRR_MODE = 0x08 := by decide
theorem WRR_CONFIG_val : AD779X_WRR_CONFIG = 0x10 := by decide
theorem WRR_IO_val : AD779X_WRR_IO = 0x28 := by decide

theorem and_15_eq_mod (x : Nat) : x &&& 0xF = x % 16 :=
  Nat.and_pow_two_sub_one_eq_mod x 4

theorem and_255_eq_mod (x : Nat) : x &&& 0xFF = x % 256 :=
  Nat.and_pow_two_sub_one_eq_mod x 8

theorem shr_8_eq_div (x : Nat) : x >>> 8 = x / 256 :=
  Nat.shiftRight_eq_div_pow x 8

/-- Shifting a value left by 8 and or-ing in a byte is positional concatenation. -/
theorem shl_8_or (a b : Nat) (hb : b < 256) : (a <<< 8) ||| b = a * 256 + b := by
  have h := Nat.mul_add_lt_is_or (i := 8) (b := b) (by simpa using hb) a
  rw [Nat.shiftLeft_eq, Nat.mul_comm a (2 ^ 8), ← h]

/-! ## C1 -/

/-- C1: every command-byte macro of the header equals
`((address << 3) | mode_bit) & 0x7C`, with mode bit 0x00 for a write and 0x40 for a
read, and has the documented constant value. -/
theorem command_byte_table :
    (AD779X_WRR_COMM = ((0 <<< 3) ||| 0x00) &&& 0x7C ∧ AD779X_WRR_COMM = 0x00) ∧
    (AD779X_WRR_MODE = ((1 <<< 3) ||| 0x00) &&& 0x7C ∧ AD779X_WRR_MODE = 0x08) ∧
    (AD779X_WRR_CONFIG = ((2 <<< 3) ||| 0x00) &&& 0x7C ∧ AD779X_WRR_CONFIG = 0x10) ∧
    ( AD779X_WRR_IO = ((5 <<< 3) ||| 0x00) &&& 0x7C ∧ AD779X_WRR_IO = 0x28) ∧
    (AD779X_WRR_OFFSET = ((6 <<< 3) ||| 0x00) &&& 0x7C ∧ AD779X_WRR_OFFSET = 0x30) ∧
    (AD779X_WRR_FSCLAE = ((7 <<< 3) ||| 0x00) &&& 0x7C ∧ AD779X_WRR_FSCLAE = 0x38) ∧
    (AD779X_RDR_STATUS = ((0 <<< 3) ||| 0x40) &&& 0x7C ∧ AD779X_RDR_STATUS = 0x40) ∧
    (AD779X_RDR_MODE = ((1 <<< 3) ||| 0x40) &&& 0x7C ∧ AD779X_RDR_MODE = 0x48) ∧
    (AD779X_RDR_CONFIG = ((2 <<< 3) ||| 0x40) &&& 0x7C ∧ AD779X_RDR_CONFIG = 0x50) ∧
    (AD779X_RDR_DATA = ((3 <<< 3) ||| 0x40) &&& 0x7C ∧ AD779X_RDR_DATA = 0x58) ∧
    (AD779X_RDR_ID = ((4 <<< 3) ||| 0x40) &&& 0x7C ∧ AD779X_RDR_ID = 0x60) ∧
    ( AD779X_RDR_IO = ((5 <<< 3) ||| 0x40) &&& 0x7C ∧ AD779X_RDR_IO = 0x68) ∧
    (AD779X_RDR_OFFSET = ((6 <<< 3) ||| 0x40) &&& 0x7C ∧ AD779X_RDR_OFFSET = 0x70) ∧
    (AD779X_RDR_FSCLAE = ((7 <<< 3) ||| 0x40) &&& 0x7C ∧ AD779X_RDR_FSCLAE = 0x78) := by
  decide

/-! ## C2 -/

/-- C2: in either implementation, for every identity byte `b` delivered by the bus,
`AD779X_HWDetect` emits exactly chip-select assert, transmit 0x60, receive `b`,
chip-select deassert; it stores and returns ad7792 when the low nibble of `b` is 0x0A,
ad7793 when it is 0x0B, and adNone (numeric 0) otherwise; any other identity byte with
the same low nibble gives the same model and return value. -/
theorem HWDetect_spec (detect : World → Nat × World)
    (himpl : detect = Single.AD779X_HWDetect ∨ detect = Multiple.AD779X_HWDetect)
    (w : World) (b : Nat) (hb : b < 256) (hrx : w.rx 0 = b) :
    (detect w).2.trace =
        w.trace ++ [BusEvent.CSControl cssEnable, BusEvent.TxByte 0x60, BusEvent.RxByte b,
          BusEvent.CSControl cssDisable] ∧
    (b &&& 0x0F = 0x0A →
      (detect w).2.dev = { w.dev with Model := tAD779X_Model.ad7792 } ∧
      (detect w).1 = tAD779X_Model.ad7792.toNat) ∧
    (b &&& 0x0F = 0x0B →
      (detect w).2.dev = { w.dev with Model := tAD779X_Model.ad7793 } ∧
      (detect w).1 = tAD779X_Model.ad7793.toNat) ∧
    (b &&& 0x0F ≠ 0x0A → b &&& 0x0F ≠ 0x0B →
      (detect w).2.dev = { w.dev with Model := tAD779X_Model.adNone } ∧
      (detect w).1 = 0) ∧
    (∀ w2 : World, w2.rx 0 % 16 = b % 16 →
      (detect w2).1 = (detect w).1 ∧ (detect w2).2.dev.Model = (detect w).2.dev.Model) := by
  have hd : detect = Single.AD779X_HWDetect := by
    rcases himpl with h | h
    · exact h
    · exact h
  subst hd
  subst hrx
  have h1 : w.rx 0 % 256 = w.rx 0 := Nat.mod_eq_of_lt hb
  have h2 : w.rx 0 % 65536 = w.rx 0 := Nat.mod_eq_of_lt (by omega)
  refine ⟨?_, ?_, ?_, ?_, ?_⟩
  · simp only [Single.AD779X_HWDetect, RxByte, TxByte, CSControl, RDR_ID_val, h1, h2,
      AD7792_PARTID, AD7793_PARTID, cssEnable, cssDisable]
    split <;> [skip; split] <;> simp
  · intro h
    simp [Single.AD779X_HWDetect, RxByte, TxByte, CSControl, h1, h2, AD7792_PARTID, h,
      tAD779X_Model.toNat]
  · intro h
    simp [Single.AD779X_HWDetect, RxByte, TxByte, CSControl, h1, h2, AD7792_PARTID,
      AD7793_PARTID, h, tAD779X_Model.toNat]
  · intro ha hb
    simp [Single.AD779X_HWDetect, RxByte, TxByte, CSControl, h1, h2, AD7792_PARTID,
      AD7793_PARTID, ha, hb, tAD779X_Model.toNat]
  · intro w2 hw2
    have e1 : (w2.rx 0 % 256 % 65536) &&& 0xF = w.rx 0 % 16 := by
      rw [and_15_eq_mod]; omega
    have e2 : (w.rx 0) &&& 0xF = w.rx 0 % 16 := and_15_eq_mod _
    simp only [Single.AD779X_HWDetect, RxByte, TxByte, CSControl, h1, h2, e1, e2]
    split <;> [skip; split] <;> simp

/-- Instance of C2: identity byte 0x4B (low nibble 0x0B) on a zero-initialised device
is detected as ad7793, return value 2. -/
theorem HWDetect_spec_witness :
    (Single.AD779X_HWDetect (worldOf zeroDevice [0x4B])).2.dev =
        { zeroDevice with Model := tAD779X_Model.ad7793 } ∧
    (Single.AD779X_HWDetect (worldOf zeroDevice [0x4B])).1 = 2 :=
  (HWDetect_spec Single.AD779X_HWDetect (Or.inl rfl) (worldOf zeroDevice [0x4B]) 0x4B
    (by decide) rfl).2.2.1 (by decide)

/-! ## C3, C4 -/

/-- C3: in either implementation, when the model is ad7792, `AD779X_ReadDataSample16`
emits chip-select assert, transmit 0x58, receive `b1`, receive `b0`, chip-select
deassert (exactly two bytes are taken from the bus), leaves the device unchanged and
returns `b1 * 256 + b0`; received bytes 0x12, 0x34 give 0x1234. -/
theorem ReadDataSample16_ad7792 (sample : World → Nat × World)
    (himpl : sample = Single.AD779X_ReadDataSample16 ∨
      sample = Multiple.AD779X_ReadDataSample16)
    (w : World) (b1 b0 : Nat) (hm : w.dev.Model = tAD779X_Model.ad7792)
    (h1 : w.rx 0 = b1) (h0 : w.rx 1 = b0) (hb1 : b1 < 256) (hb0 : b0 < 256) :
    (sample w).2.trace =
        w.trace ++ [BusEvent.CSControl cssEnable, BusEvent.TxByte 0x58, BusEvent.RxByte b1,
          BusEvent.RxByte b0, BusEvent.CSControl cssDisable] ∧
    (sample w).2.rx = (fun n => w.rx (n + 2)) ∧
    (sample w).2.dev = w.dev ∧
    (sample w).1 = b1 * 256 + b0 ∧
    (b1 = 0x12 → b0 = 0x34 → (sample w).1 = 0x1234) := by
  have hd : sample = Single.AD779X_ReadDataSample16 := by
    rcases himpl with h | h
    · exact h
    · exact h
  subst hd
  subst h1
  subst h0
  have e1 : w.rx 0 % 256 = w.rx 0 := Nat.mod_eq_of_lt hb1
  have e0 : w.rx 1 % 256 = w.rx 1 := Nat.mod_eq_of_lt hb0
  have hv : ((w.rx 0 <<< 8) ||| w.rx 1) % 65536 = w.rx 0 * 256 + w.rx 1 := by
    rw [shl_8_or _ _ hb0]; omega
  have key : (Single.AD779X_ReadDataSample16 w).1 = w.rx 0 * 256 + w.rx 1 := by
    simp [Single.AD779X_ReadDataSample16, RxByte, TxByte, CSControl, hm, e1, e0, hv]
  refine ⟨?_, ?_, ?_, key, ?_⟩
  · simp [Single.AD779X_ReadDataSample16, RxByte, TxByte, CSControl, hm, e1, e0,
      RDR_DATA_val, cssEnable, cssDisable]
  · simp [Single.AD779X_ReadDataSample16, RxByte, TxByte, CSControl, hm]
  · simp [Single.AD779X_ReadDataSample16, RxByte, TxByte, CSControl, hm]
  · intro ha hb
    rw [key, ha, hb]

/-- Instance of C3: an ad7792 delivering 0x12, 0x34 yields the sample 0x1234. -/
theorem ReadDataSample16_ad7792_witness :
    (Multiple.AD779X_ReadDataSample16
      (worldOf { zeroDevice with Model := tAD779X_Model.ad7792 } [0x12, 0x34])).1 = 0x1234 :=
  (ReadDataSample16_ad7792 Multiple.AD779X_ReadDataSample16 (Or.inr rfl)
    (worldOf { zeroDevice with Model := tAD779X_Model.ad7792 } [0x12, 0x34]) 0x12 0x34
    rfl rfl rfl (by decide) (by decide)).2.2.2.2 rfl rfl

/-- C4: when the model is ad7793, both sample accessors (and the multi-device
`AD779X_ReadDataSample16`) emit chip-select assert, transmit 0x58, receive `b2`,
receive `b1`, receive `b0`, chip-select deassert, taking exactly three bytes from the
bus; `AD779X_ReadDataSample16` returns `b2 * 256 + b1` and `AD779X_ReadDataSample24`
returns `b2 * 65536 + b1 * 256 + b0`, which is below `2 ^ 24`; received bytes
0x12, 0x34, 0x56 give 0x1234 and 0x123456. -/
theorem ReadDataSample_ad7793 (w : World) (b2 b1 b0 : Nat)
    (hm : w.dev.Model = tAD779X_Model.ad7793)
    (h2 : w.rx 0 = b2) (h1 : w.rx 1 = b1) (h0 : w.rx 2 = b0)
    (hb2 : b2 < 256) (hb1 : b1 < 256) (hb0 : b0 < 256) :
    (∀ acc : World → Nat × World,
      (acc = Single.AD779X_ReadDataSample16 ∨ acc = Single.AD779X_ReadDataSample24 ∨
        acc = Multiple.AD779X_ReadDataSample16) →
      (acc w).2.trace =
          w.trace ++ [BusEvent.CSControl cssEnable, BusEvent.TxByte 0x58, BusEvent.RxByte b2,
            BusEvent.RxByte b1, BusEvent.RxByte b0, BusEvent.CSControl cssDisable] ∧
      (acc w).2.rx = (fun n => w.rx (n + 3)) ∧
      (acc w).2.dev = w.dev) ∧
    (Single.AD779X_ReadDataSample16 w).1 = b2 * 256 + b1 ∧
    (Multiple.AD779X_ReadDataSample16 w).1 = b2 * 256 + b1 ∧
    (Single.AD779X_ReadDataSample24 w).1 = b2 * 65536 + b1 * 256 + b0 ∧
    (Single.AD779X_ReadDataSample24 w).1 < 2 ^ 24 ∧
    (b2 = 0x12 → b1 = 0x34 → b0 = 0x56 →
      (Single.AD779X_ReadDataSample16 w).1 = 0x1234 ∧
      (Single.AD779X_ReadDataSample24 w).1 = 0x123456) := by
  subst h2
  subst h1
  subst h0
  have e2 : w.rx 0 % 256 = w.rx 0 := Nat.mod_eq_of_lt hb2
  have e1 : w.rx 1 % 256 = w.rx 1 := Nat.mod_eq_of_lt hb1
  have e0 : w.rx 2 % 256 = w.rx 2 := Nat.mod_eq_of_lt hb0
  have hv : ((w.rx 0 <<< 8) ||| w.rx 1) % 65536 = w.rx 0 * 256 + w.rx 1 := by
    rw [shl_8_or _ _ hb1]; omega
  have hv32 : ((w.rx 0 <<< 8) ||| w.rx 1) % 4294967296 = w.rx 0 * 256 + w.rx 1 := by
    rw [shl_8_or _ _ hb1]; omega
  have hw : (((w.rx 0 * 256 + w.rx 1) <<< 8) ||| w.rx 2) % 4294967296 =
      w.rx 0 * 65536 + w.rx 1 * 256 + w.rx 2 := by
    rw [shl_8_or _ _ hb0]; omega
  have k16 : (Single.AD779X_ReadDataSample16 w).1 = w.rx 0 * 256 + w.rx 1 := by
    simp [Single.AD779X_ReadDataSample16, RxByte, TxByte, CSControl, hm, e2, e1, hv]
  have k24 : (Single.AD779X_ReadDataSample24 w).1 =
      w.rx 0 * 65536 + w.rx 1 * 256 + w.rx 2 := by
    simp [Single.AD779X_ReadDataSample24, RxByte, TxByte, CSControl, hm, e2, e1, e0, hv32, hw]
  refine ⟨?_, k16, k16, k24, ?_, ?_⟩
  · intro acc hacc
    rcases hacc with h | h | h
    · subst h
      simp [Single.AD779X_ReadDataSample16, RxByte, TxByte, CSControl, hm, e2, e1, e0,
        RDR_DATA_val, cssEnable, cssDisable]
    · subst h
      simp [Single.AD779X_ReadDataSample24, RxByte, TxByte, CSControl, hm, e2, e1, e0,
        RDR_DATA_val, cssEnable, cssDisable]
    · subst h
      simp [Multiple.AD779X_ReadDataSample16, RxByte, TxByte, CSControl, hm, e2, e1, e0,
        RDR_DATA_val, cssEnable, cssDisable]
  · rw [k24]; omega
  · intro ha hb hc
    rw [k16, k24, ha, hb, hc]
    exact ⟨rfl, rfl⟩

/-- Instance of C4: an ad7793 delivering 0x12, 0x34, 0x56 yields 0x1234 from the
16-bit accessor and 0x123456 from the 24-bit accessor. -/
theorem ReadDataSample_ad7793_witness :
    (Single.AD779X_ReadDataSample16
      (worldOf { zeroDevice with Model := tAD779X_Model.ad7793 } [0x12, 0x34, 0x56])).1
        = 0x1234 ∧
    (Single.AD779X_ReadDataSample24
      (worldOf { zeroDevice with Model := tAD779X_Model.ad7793 } [0x12, 0x34, 0x56])).1
        = 0x123456 :=
  (ReadDataSample_ad7793
    (worldOf { zeroDevice with Model := tAD779X_Model.ad7793 } [0x12, 0x34, 0x56])
    0x12 0x34 0x56 rfl rfl rfl rfl (by decide) (by decide) (by decide)).2.2.2.2.2 rfl rfl rfl

/-! ## C5, C6 -/

theorem gModeReg_DATA : gModeReg.DATA = 0x400A := by decide
theorem gIOReg_DATA : gIOReg.DATA = 0x00 := by decide

/-- C5: in either implementation, for every identity byte `b` whose low nibble is
neither 0x0A nor 0x0B and every prior state, `AD779X_Init` ends with start-up state
susNoHW and model adNone, emits only the identity probe (chip-select assert, transmit
0x60, receive `b`, chip-select deassert), so that 0x60 is the only byte it transmits,
and leaves the cached Mode, IO, Offset and Full-Scale registers unchanged. -/
theorem Init_no_hardware (init : World → World)
    (himpl : init = Single.AD779X_Init ∨ init = Multiple.AD779X_Init)
    (w : World) (b : Nat) (hb : b < 256) (hrx : w.rx 0 = b)
    (hA : b &&& 0x0F ≠ 0x0A) (hB : b &&& 0x0F ≠ 0x0B) :
    (init w).dev.SuState = tAD779X_StartUpState.susNoHW ∧
    (init w).dev.Model = tAD779X_Model.adNone ∧
    (init w).trace =
        w.trace ++ [BusEvent.CSControl cssEnable, BusEvent.TxByte 0x60, BusEvent.RxByte b,
          BusEvent.CSControl cssDisable] ∧
    (∀ d : Nat, BusEvent.TxByte d ∈ (init w).trace →
      BusEvent.TxByte d ∈ w.trace ∨ d = 0x60) ∧
    (init w).dev.ModeReg = w.dev.ModeReg ∧
    (init w).dev.IOReg = w.dev.IOReg ∧
    (init w).dev.OfReg = w.dev.OfReg ∧
    (init w).dev.FsReg = w.dev.FsReg := by
  subst hrx
  have h1 : w.rx 0 % 256 = w.rx 0 := Nat.mod_eq_of_lt hb
  have h2 : w.rx 0 % 65536 = w.rx 0 := Nat.mod_eq_of_lt (by omega)
  rcases himpl with h | h
  · subst h
    simp [Single.AD779X_Init, Single.AD779X_HWDetect, RxByte, TxByte, CSControl, h1, h2,
      AD7792_PARTID, AD7793_PARTID, hA, hB, tAD779X_Model.toNat, RDR_ID_val, cssEnable,
      cssDisable]
  · subst h
    simp [Multiple.AD779X_Init, Multiple.AD779X_HWDetect, RxByte, TxByte, CSControl, h1, h2,
      AD7792_PARTID, AD7793_PARTID, hA, hB, tAD779X_Model.toNat, RDR_ID_val, cssEnable,
      cssDisable]

/-- Instance of C5: identity byte 0xFF on a device that was active as an ad7793. -/
theorem Init_no_hardware_witness :
    (Single.AD779X_Init
      (worldOf (deviceOf tAD779X_Model.ad7793 tAD779X_StartUpState.susActivate) [0xFF])).dev.SuState
      = tAD779X_StartUpState.susNoHW :=
  (Init_no_hardware Single.AD779X_Init (Or.inl rfl)
    (worldOf (deviceOf tAD779X_Model.ad7793 tAD779X_StartUpState.susActivate) [0xFF]) 0xFF
    (by decide) rfl (by decide) (by decide)).1

/-- C6 as stated fails on the multi-device `AD779X_Init`: with identity byte 0x0B the
ad7793 is detected and the start-up state becomes active, but the cached Offset and
Full-Scale registers keep their prior content (here 0) instead of 0x800000 and
0x500000. -/
theorem Init_multiple_offset_not_reset :
    (Multiple.AD779X_Init (worldOf zeroDevice [0x0B])).dev.Model = tAD779X_Model.ad7793 ∧
    (Multiple.AD779X_Init (worldOf zeroDevice [0x0B])).dev.SuState
      = tAD779X_StartUpState.susActivate ∧
    (Multiple.AD779X_Init (worldOf zeroDevice [0x0B])).dev.OfReg.u32 ≠ 0x800000 ∧
    (Multiple.AD779X_Init (worldOf zeroDevice [0x0B])).dev.FsReg.u32 ≠ 0x500000 := by
  decide

/-- C6 (amended): for every identity byte `b`, in either implementation, if the low
nibble of `b` is 0x0A or 0x0B then `AD779X_Init` emits the identity probe, then a
Mode-register write carrying `gModeReg`, then an IO-register write carrying `gIOReg`,
each in its own chip-select bracket, and sets the start-up state to active; the
start-up state is active exactly when a known variant was detected. The single-device
`AD779X_Init` sets the cached Offset and Full-Scale registers to 0x8000 and 0x5000
(16-bit member) for the ad7792 and to 0x800000 and 0x500000 for the ad7793; the
multi-device `AD779X_Init` leaves them unchanged. -/
theorem Init_detected (w : World) (b : Nat) (hb : b < 256) (hrx : w.rx 0 = b) :
    (∀ init : World → World, (init = Single.AD779X_Init ∨ init = Multiple.AD779X_Init) →
      ((b &&& 0x0F = 0x0A ∨ b &&& 0x0F = 0x0B) →
        (init w).trace =
          w.trace ++ [BusEvent.CSControl cssEnable, BusEvent.TxByte 0x60, BusEvent.RxByte b,
            BusEvent.CSControl cssDisable,
            BusEvent.CSControl cssEnable, BusEvent.TxByte 0x08,
            BusEvent.TxByte (gModeReg.DATA >>> 8), BusEvent.TxByte (gModeReg.DATA &&& 0xFF),
            BusEvent.CSControl cssDisable,
            BusEvent.CSControl cssEnable, BusEvent.TxByte 0x28, BusEvent.TxByte gIOReg.DATA,
            BusEvent.CSControl cssDisable] ∧
        (init w).dev.SuState = tAD779X_StartUpState.susActivate) ∧
      ((init w).dev.SuState = tAD779X_StartUpState.susActivate ↔
        (b &&& 0x0F = 0x0A ∨ b &&& 0x0F = 0x0B)) ∧
      ((init w).dev.SuState = tAD779X_StartUpState.susActivate ↔
        (init w).dev.Model ≠ tAD779X_Model.adNone)) ∧
    (b &&& 0x0F = 0x0A →
      (Single.AD779X_Init w).dev.Model = tAD779X_Model.ad7792 ∧
      (Single.AD779X_Init w).dev.OfReg.u16 = 0x8000 ∧
      (Single.AD779X_Init w).dev.FsReg.u16 = 0x5000) ∧
    (b &&& 0x0F = 0x0B →
      (Single.AD779X_Init w).dev.Model = tAD779X_Model.ad7793 ∧
      (Single.AD779X_Init w).dev.OfReg.u32 = 0x800000 ∧
      (Single.AD779X_Init w).dev.FsReg.u32 = 0x500000) ∧
    (Multiple.AD779X_Init w).dev.OfReg = w.dev.OfReg ∧
    (Multiple.AD779X_Init w).dev.FsReg = w.dev.FsReg := by
  subst hrx
  have h1 : w.rx 0 % 256 = w.rx 0 := Nat.mod_eq_of_lt hb
  have h2 : w.rx 0 % 65536 = w.rx 0 := Nat.mod_eq_of_lt (by omega)
  by_cases hA : w.rx 0 &&& 0x0F = 0x0A
  · refine ⟨?_, ?_, ?_, ?_, ?_⟩
    · intro init himpl
      rcases himpl with h | h
      · subst h
        simp [Single.AD779X_Init, Single.AD779X_HWDetect, Single.AD779X_WriteModeRegister,
          Single.AD779X_WriteIORegister, RxByte, TxByte, CSControl, h1, h2,
          AD7792_PARTID, AD7793_PARTID, hA, tAD779X_Model.toNat, RDR_ID_val, WRR_MODE_val,
          WRR_IO_val, gModeReg_DATA, gIOReg_DATA, cssEnable, cssDisable]
        decide
      · subst h
        simp [Multiple.AD779X_Init, Multiple.AD779X_HWDetect,
          Multiple.AD779X_WriteModeRegister,
          Multiple.AD779X_WriteIORegister, RxByte, TxByte, CSControl, h1, h2,
          AD7792_PARTID, AD7793_PARTID, hA, tAD779X_Model.toNat, RDR_ID_val, WRR_MODE_val,
          WRR_IO_val, gModeReg_DATA, gIOReg_DATA, cssEnable, cssDisable]
        decide
    · intro _
      simp [Single.AD779X_Init, Single.AD779X_HWDetect, Single.AD779X_WriteModeRegister,
        Single.AD779X_WriteIORegister, RxByte, TxByte, CSControl, h1, h2,
        AD7792_PARTID, hA, tAD779X_Model.toNat, tAD779X_DataSample.u16,
        tAD779X_DataSample.set_u16, AD779X_OFFSET_RESET_16, AD779X_FULLSCALE_RESET_16]
      constructor <;> omega
    · intro hB
      rw [hA] at hB
      exact absurd hB (by decide)
    · simp [Multiple.AD779X_Init, Multiple.AD779X_HWDetect, Multiple.AD779X_WriteModeRegister,
        Multiple.AD779X_WriteIORegister, RxByte, TxByte, CSControl, h1, h2,
        AD7792_PARTID, hA, tAD779X_Model.toNat]
    · simp [Multiple.AD779X_Init, Multiple.AD779X_HWDetect, Multiple.AD779X_WriteModeRegister,
        Multiple.AD779X_WriteIORegister, RxByte, TxByte, CSControl, h1, h2,
        AD7792_PARTID, hA, tAD779X_Model.toNat]
  · by_cases hB : w.rx 0 &&& 0x0F = 0x0B
    · refine ⟨?_, ?_, ?_, ?_, ?_⟩
      · intro init himpl
        rcases himpl with h | h
        · subst h
          simp [Single.AD779X_Init, Single.AD779X_HWDetect, Single.AD779X_WriteModeRegister,
            Single.AD779X_WriteIORegister, RxByte, TxByte, CSControl, h1, h2,
            AD7792_PARTID, AD7793_PARTID, hB, tAD779X_Model.toNat, RDR_ID_val,
            WRR_MODE_val, WRR_IO_val, gModeReg_DATA, gIOReg_DATA, cssEnable, cssDisable]
          decide
        · subst h
          simp [Multiple.AD779X_Init, Multiple.AD779X_HWDetect,
            Multiple.AD779X_WriteModeRegister,
            Multiple.AD779X_WriteIORegister, RxByte, TxByte, CSControl, h1, h2,
            AD7792_PARTID, AD7793_PARTID, hB, tAD779X_Model.toNat, RDR_ID_val,
            WRR_MODE_val, WRR_IO_val, gModeReg_DATA, gIOReg_DATA, cssEnable, cssDisable]
          decide
      · intro hA2
        exact absurd hA2 hA
      · intro _
        simp [Single.AD779X_Init, Single.AD779X_HWDetect, Single.AD779X_WriteModeRegister,
          Single.AD779X_WriteIORegister, RxByte, TxByte, CSControl, h1, h2,
          AD7792_PARTID, AD7793_PARTID, hB, tAD779X_Model.toNat,
          tAD779X_DataSample.set_u32, AD779X_OFFSET_RESET_24, AD779X_FULLSCALE_RESET_24]
      · simp [Multiple.AD779X_Init, Multiple.AD779X_HWDetect,
          Multiple.AD779X_WriteModeRegister,
          Multiple.AD779X_WriteIORegister, RxByte, TxByte, CSControl, h1, h2,
          AD7792_PARTID, AD7793_PARTID, hB, tAD779X_Model.toNat]
      · simp [Multiple.AD779X_Init, Multiple.AD779X_HWDetect,
          Multiple.AD779X_WriteModeRegister,
          Multiple.AD779X_WriteIORegister, RxByte, TxByte, CSControl, h1, h2,
          AD7792_PARTID, AD7793_PARTID, hB, tAD779X_Model.toNat]
    · refine ⟨?_, ?_, ?_, ?_, ?_⟩
      · intro init himpl
        rcases himpl with h | h
        · subst h
          simp [Single.AD779X_Init, Single.AD779X_HWDetect, RxByte, TxByte, CSControl, h1, h2,
            AD7792_PARTID, AD7793_PARTID, hA, hB, tAD779X_Model.toNat]
        · subst h
          simp [Multiple.AD779X_Init, Multiple.AD779X_HWDetect, RxByte, TxByte, CSControl,
            h1, h2, AD7792_PARTID, AD7793_PARTID, hA, hB, tAD779X_Model.toNat]
      · intro hA2
        exact absurd hA2 hA
      · intro hB2
        exact absurd hB2 hB
      · simp [Multiple.AD779X_Init, Multiple.AD779X_HWDetect, RxByte, TxByte, CSControl,
          h1, h2, AD7792_PARTID, AD7793_PARTID, hA, hB, tAD779X_Model.toNat]
      · simp [Multiple.AD779X_Init, Multiple.AD779X_HWDetect, RxByte, TxByte, CSControl,
          h1, h2, AD7792_PARTID, AD7793_PARTID, hA, hB, tAD779X_Model.toNat]

/-- Instance of C6 (amended): identity byte 0x0A on a device whose Offset register
held the ad7793 reset value; the 16-bit member reads 0x8000 after initialisation. -/
theorem Init_detected_witness :
    (Single.AD779X_Init (worldOf { zeroDevice with OfReg := ⟨0x800000⟩ } [0x0A])).dev.Model
      = tAD779X_Model.ad7792 ∧
    (Single.AD779X_Init (worldOf { zeroDevice with OfReg := ⟨0x800000⟩ } [0x0A])).dev.OfReg.u16
      = 0x8000 ∧
    (Single.AD779X_Init (worldOf { zeroDevice with OfReg := ⟨0x800000⟩ } [0x0A])).dev.FsReg.u16
      = 0x5000 :=
  (Init_detected (worldOf { zeroDevice with OfReg := ⟨0x800000⟩ } [0x0A]) 0x0A (by decide)
    rfl).2.1 (by decide)

/-! ## Register layout: arithmetic form of `DATA` and mask facts -/

/-- Or-ing a value shifted past the width of `a` onto `a` is addition. -/
theorem or_shl (a b k : Nat) (h : a < 2 ^ k) : a ||| (b <<< k) = a + b * 2 ^ k := by
  have e := Nat.mul_add_lt_is_or h b
  rw [Nat.shiftLeft_eq, Nat.lor_comm, Nat.mul_comm b (2 ^ k), ← e, Nat.add_comm]

/-- Positional value of the Mode register storage unit. -/
theorem ModeRegister_DATA_eq (r : tAD779X_ModeRegister) :
    r.DATA = r.FS.val + r.UNUSED1.val * 16 + r.CLKS.val * 64 + r.UNUSED0.val * 256 +
      r.MODE.val * 8192 := by
  unfold tAD779X_ModeRegister.DATA
  have h1 := r.FS.isLt
  have h2 := r.UNUSED1.isLt
  have h3 := r.CLKS.isLt
  have h4 := r.UNUSED0.isLt
  rw [or_shl _ _ 4 (by omega), or_shl _ _ 6 (by omega), or_shl _ _ 8 (by omega),
    or_shl _ _ 13 (by omega)]
  omega

theorem ModeRegister_DATA_lt (r : tAD779X_ModeRegister) : r.DATA < 65536 := by
  rw [ModeRegister_DATA_eq]; omega

/-- Positional value of the IO register storage unit. -/
theorem IORegister_DATA_eq (r : tAD779X_IORegister) :
    r.DATA = r.IEXCEN.val + r.IEXCDIR.val * 4 + r.UNUSED.val * 16 := by
  unfold tAD779X_IORegister.DATA
  have h1 := r.IEXCEN.isLt
  have h2 := r.IEXCDIR.isLt
  rw [or_shl _ _ 2 (by omega), or_shl _ _ 4 (by omega)]
  omega

theorem IORegister_DATA_lt (r : tAD779X_IORegister) : r.DATA < 256 := by
  rw [IORegister_DATA_eq]; omega

/-- Masking with a run of `n` ones starting at bit `k` extracts the field in place. -/
theorem and_shifted_mask (x k n : Nat) :
    x &&& ((2 ^ n - 1) <<< k) = ((x >>> k) % 2 ^ n) <<< k := by
  apply Nat.eq_of_testBit_eq
  intro i
  simp only [Nat.testBit_and, Nat.testBit_shiftLeft, Nat.testBit_two_pow_sub_one,
    Nat.testBit_mod_two_pow, Nat.testBit_shiftRight]
  by_cases h : k ≤ i
  · have e : k + (i - k) = i := by omega
    simp [h, e, Bool.and_comm]
  · simp [h]

theorem and_MODE_MD (x : Nat) : x &&& AD779X_MODE_MD = x / 8192 % 8 * 8192 := by
  have h := and_shifted_mask x 13 3
  simpa [Nat.shiftLeft_eq, Nat.shiftRight_eq_div_pow, AD779X_MODE_MD] using h

theorem and_MODE_CLK (x : Nat) : x &&& AD779X_MODE_CLK = x / 64 % 4 * 64 := by
  have h := and_shifted_mask x 6 2
  simpa [Nat.shiftLeft_eq, Nat.shiftRight_eq_div_pow, AD779X_MODE_CLK] using h

theorem and_MODE_FS (x : Nat) : x &&& AD779X_MODE_FS = x % 16 :=
  Nat.and_pow_two_sub_one_eq_mod x 4

theorem and_not_MODE_MD (x : Nat) : x &&& (0xFFFF ^^^ AD779X_MODE_MD) = x % 8192 :=
  Nat.and_pow_two_sub_one_eq_mod x 13

theorem and_not_MODE_CLK (x : Nat) :
    x &&& (0xFFFF ^^^ AD779X_MODE_CLK) = (x / 256 % 256 * 256) ||| (x % 64) := by
  have e : (0xFFFF ^^^ AD779X_MODE_CLK) = ((2 ^ 8 - 1) <<< 8) ||| (2 ^ 6 - 1) := by decide
  rw [e, Nat.and_or_distrib_left, and_shifted_mask, Nat.and_pow_two_sub_one_eq_mod]
  simp [Nat.shiftLeft_eq, Nat.shiftRight_eq_div_pow]

theorem and_not_MODE_FS (x : Nat) :
    x &&& (0xFFFF ^^^ AD779X_MODE_FS) = x / 16 % 4096 * 16 := by
  have h := and_shifted_mask x 4 12
  simpa [Nat.shiftLeft_eq, Nat.shiftRight_eq_div_pow, AD779X_MODE_FS] using h

/-- Two 16-bit values that agree under the complement of `m` agree on every bit that
is clear in `m`. -/
theorem testBit_eq_of_and_not_eq (x y m : Nat) (hx : x < 65536) (hy : y < 65536)
    (h : x &&& (0xFFFF ^^^ m) = y &&& (0xFFFF ^^^ m)) (i : Nat) (hi : m.testBit i = false) :
    x.testBit i = y.testBit i := by
  by_cases h16 : i < 16
  · have hb := congrArg (fun z => z.testBit i) h
    have e : (0xFFFF : Nat) = 2 ^ 16 - 1 := by decide
    simp only [Nat.testBit_and, Nat.testBit_xor, e, Nat.testBit_two_pow_sub_one, hi, h16,
      decide_True, Bool.xor_false, Bool.and_true] at hb
    exact hb
  · have hle : 2 ^ 16 ≤ 2 ^ i := Nat.pow_le_pow_right (by decide) (by omega)
    rw [Nat.testBit_lt_two_pow (Nat.lt_of_lt_of_le hx hle),
      Nat.testBit_lt_two_pow (Nat.lt_of_lt_of_le hy hle)]

/-- The two payload bytes of a 16-bit register write are its big-endian bytes. -/
theorem payload_bytes (v : Nat) (hv : v < 65536) :
    (v >>> 8) * 256 + (v &&& 0xFF) = v ∧ v >>> 8 < 256 ∧ v &&& 0xFF < 256 := by
  rw [shr_8_eq_div, and_255_eq_mod]; omega

theorem Single_WriteModeRegister_eq (v : Nat) (w : World) (hv : v < 65536) :
    Single.AD779X_WriteModeRegister v w =
      { w with trace := w.trace ++ [BusEvent.CSControl cssEnable, BusEvent.TxByte 0x08,
          BusEvent.TxByte (v >>> 8), BusEvent.TxByte (v &&& 0xFF),
          BusEvent.CSControl cssDisable] } := by
  obtain ⟨_, h1, h2⟩ := payload_bytes v hv
  simp [Single.AD779X_WriteModeRegister, TxByte, CSControl, WRR_MODE_val, cssEnable,
    cssDisable, Nat.mod_eq_of_lt hv, Nat.mod_eq_of_lt h1, Nat.mod_eq_of_lt h2]

theorem Single_WriteConfigRegister_eq (v : Nat) (w : World) (hv : v < 65536) :
    Single.AD779X_WriteConfigRegister v w =
      { w with trace := w.trace ++ [BusEvent.CSControl cssEnable, BusEvent.TxByte 0x10,
          BusEvent.TxByte (v >>> 8), BusEvent.TxByte (v &&& 0xFF),
          BusEvent.CSControl cssDisable] } := by
  obtain ⟨_, h1, h2⟩ := payload_bytes v hv
  simp [Single.AD779X_WriteConfigRegister, TxByte, CSControl, WRR_CONFIG_val, cssEnable,
    cssDisable, Nat.mod_eq_of_lt hv, Nat.mod_eq_of_lt h1, Nat.mod_eq_of_lt h2]

theorem Single_WriteIORegister_eq (d : Nat) (w : World) (hd : d < 256) :
    Single.AD779X_WriteIORegister d w =
      { w with trace := w.trace ++ [BusEvent.CSControl cssEnable, BusEvent.TxByte 0x28,
          BusEvent.TxByte d, BusEvent.CSControl cssDisable] } := by
  simp [Single.AD779X_WriteIORegister, TxByte, CSControl, WRR_IO_val, cssEnable,
    cssDisable, Nat.mod_eq_of_lt hd]

/-! ## C7 -/

/-- C7: in either implementation, for every 16-bit value `v`,
`AD779X_WriteModeRegister v` emits exactly chip-select assert, transmit 0x08, transmit
`v >> 8`, transmit `v & 0xFF`, chip-select deassert, and `AD779X_WriteConfigRegister v`
the same with command 0x10; for every 8-bit value `d`, `AD779X_WriteIORegister d` emits
chip-select assert, transmit 0x28, transmit `d`, chip-select deassert. The payload is
big-endian (`first * 256 + second = v`, both bytes below 256), and nothing is taken
from the receive or ready inputs. -/
theorem Write_registers_trace (w : World) (v d : Nat) (hv : v < 65536) (hd : d < 256) :
    (∀ wr : Nat → World → World,
      (wr = Single.AD779X_WriteModeRegister ∨ wr = Multiple.AD779X_WriteModeRegister) →
      (wr v w).trace =
        w.trace ++ [BusEvent.CSControl cssEnable, BusEvent.TxByte 0x08,
          BusEvent.TxByte (v >>> 8), BusEvent.TxByte (v &&& 0xFF),
          BusEvent.CSControl cssDisable] ∧
      (wr v w).rx = w.rx ∧ (wr v w).rdy = w.rdy) ∧
    (∀ wr : Nat → World → World,
      (wr = Single.AD779X_WriteConfigRegister ∨ wr = Multiple.AD779X_WriteConfigRegister) →
      (wr v w).trace =
        w.trace ++ [BusEvent.CSControl cssEnable, BusEvent.TxByte 0x10,
          BusEvent.TxByte (v >>> 8), BusEvent.TxByte (v &&& 0xFF),
          BusEvent.CSControl cssDisable] ∧
      (wr v w).rx = w.rx ∧ (wr v w).rdy = w.rdy) ∧
    (∀ wr : Nat → World → World,
      (wr = Single.AD779X_WriteIORegister ∨ wr = Multiple.AD779X_WriteIORegister) →
      (wr d w).trace =
        w.trace ++ [BusEvent.CSControl cssEnable, BusEvent.TxByte 0x28, BusEvent.TxByte d,
          BusEvent.CSControl cssDisable] ∧
      (wr d w).rx = w.rx ∧ (wr d w).rdy = w.rdy) ∧
    (v >>> 8) * 256 + (v &&& 0xFF) = v ∧ v >>> 8 < 256 ∧ v &&& 0xFF < 256 := by
  refine ⟨?_, ?_, ?_, payload_bytes v hv⟩
  · intro wr h
    have e : wr = Single.AD779X_WriteModeRegister := by
      rcases h with h | h
      · exact h
      · exact h
    rw [e, Single_WriteModeRegister_eq v w hv]
    exact ⟨rfl, rfl, rfl⟩
  · intro wr h
    have e : wr = Single.AD779X_WriteConfigRegister := by
      rcases h with h | h
      · exact h
      · exact h
    rw [e, Single_WriteConfigRegister_eq v w hv]
    exact ⟨rfl, rfl, rfl⟩
  · intro wr h
    have e : wr = Single.AD779X_WriteIORegister := by
      rcases h with h | h
      · exact h
      · exact h
    rw [e, Single_WriteIORegister_eq d w hd]
    exact ⟨rfl, rfl, rfl⟩

/-- Instance of C7: writing 0x400A to the Mode register of a fresh device transmits
0x08, 0x40, 0x0A inside one chip-select bracket. -/
theorem Write_registers_trace_witness :
    (Multiple.AD779X_WriteModeRegister 0x400A (worldOf zeroDevice [])).trace =
      [BusEvent.CSControl cssEnable, BusEvent.TxByte 0x08, BusEvent.TxByte (0x400A >>> 8),
        BusEvent.TxByte (0x400A &&& 0xFF), BusEvent.CSControl cssDisable] :=
  ((Write_registers_trace (worldOf zeroDevice []) 0x400A 0x00 (by decide) (by decide)).1
    Multiple.AD779X_WriteModeRegister (Or.inr rfl)).1

/-! ## C8 -/

theorem set_MODE_DATA (r : tAD779X_ModeRegister) (v : Nat) :
    (r.set_MODE v).DATA = r.FS.val + r.UNUSED1.val * 16 + r.CLKS.val * 64 +
      r.UNUSED0.val * 256 + v % 8 * 8192 := by
  rw [ModeRegister_DATA_eq]; rfl

theorem set_CLKS_DATA (r : tAD779X_ModeRegister) (v : Nat) :
    (r.set_CLKS v).DATA = r.FS.val + r.UNUSED1.val * 16 + v % 4 * 64 +
      r.UNUSED0.val * 256 + r.MODE.val * 8192 := by
  rw [ModeRegister_DATA_eq]; rfl

theorem set_FS_DATA (r : tAD779X_ModeRegister) (v : Nat) :
    (r.set_FS v).DATA = v % 16 + r.UNUSED1.val * 16 + r.CLKS.val * 64 +
      r.UNUSED0.val * 256 + r.MODE.val * 8192 := by
  rw [ModeRegister_DATA_eq]; rfl

theorem Single_SetMode_eq (Mode : Nat) (w : World) :
    Single.AD779X_SetMode Mode w =
      { w with
        dev := { w.dev with ModeReg := w.dev.ModeReg.set_MODE Mode },
        trace := w.trace ++ [BusEvent.CSControl cssEnable, BusEvent.TxByte 0x08,
          BusEvent.TxByte ((w.dev.ModeReg.set_MODE Mode).DATA >>> 8),
          BusEvent.TxByte ((w.dev.ModeReg.set_MODE Mode).DATA &&& 0xFF),
          BusEvent.CSControl cssDisable] } := by
  unfold Single.AD779X_SetMode
  exact Single_WriteModeRegister_eq _ _ (ModeRegister_DATA_lt _)

theorem Single_SetClkSource_eq (ClkSource : Nat) (w : World) :
    Single.AD779X_SetClkSource ClkSource w =
      { w with
        dev := { w.dev with ModeReg := w.dev.ModeReg.set_CLKS ClkSource },
        trace := w.trace ++ [BusEvent.CSControl cssEnable, BusEvent.TxByte 0x08,
          BusEvent.TxByte ((w.dev.ModeReg.set_CLKS ClkSource).DATA >>> 8),
          BusEvent.TxByte ((w.dev.ModeReg.set_CLKS ClkSource).DATA &&& 0xFF),
          BusEvent.CSControl cssDisable] } := by
  unfold Single.AD779X_SetClkSource
  exact Single_WriteModeRegister_eq _ _ (ModeRegister_DATA_lt _)

theorem Single_SetUpdateRate_eq (UpdateRates : Nat) (w : World) :
    Single.AD779X_SetUpdateRate UpdateRates w =
      { w with
        dev := { w.dev with ModeReg := w.dev.ModeReg.set_FS UpdateRates },
        trace := w.trace ++ [BusEvent.CSControl cssEnable, BusEvent.TxByte 0x08,
          BusEvent.TxByte ((w.dev.ModeReg.set_FS UpdateRates).DATA >>> 8),
          BusEvent.TxByte ((w.dev.ModeReg.set_FS UpdateRates).DATA &&& 0xFF),
          BusEvent.CSControl cssDisable] } := by
  unfold Single.AD779X_SetUpdateRate
  exact Single_WriteModeRegister_eq _ _ (ModeRegister_DATA_lt _)

/-- C8: for every prior state and every argument `a`, each of `AD779X_SetMode`,
`AD779X_SetClkSource` and `AD779X_SetUpdateRate` stores `a` (truncated to the field
width) into its own field of the cached Mode register (bits 15..13, 7..6 and 3..0 of
`DATA`, the header masks 0xE000, 0x00C0, 0x000F), leaves every bit outside the field
mask and every other device member unchanged, emits a Mode-register write whose two
payload bytes are the big-endian bytes of the updated `DATA`, and takes nothing from
the receive or ready inputs. -/
theorem Set_mode_fields (w : World) (a : Nat) :
    (∀ (set : Nat → World → World) (mask shift width : Nat),
      ((set = Single.AD779X_SetMode ∧ mask = AD779X_MODE_MD ∧ shift = 13 ∧ width = 3) ∨
       (set = Single.AD779X_SetClkSource ∧ mask = AD779X_MODE_CLK ∧ shift = 6 ∧ width = 2) ∨
       (set = Single.AD779X_SetUpdateRate ∧ mask = AD779X_MODE_FS ∧ shift = 0 ∧ width = 4)) →
      (set a w).dev.ModeReg.DATA &&& mask = (a % 2 ^ width) <<< shift ∧
      (set a w).dev.ModeReg.DATA &&& (0xFFFF ^^^ mask) =
        w.dev.ModeReg.DATA &&& (0xFFFF ^^^ mask) ∧
      (∀ i : Nat, mask.testBit i = false →
        (set a w).dev.ModeReg.DATA.testBit i = w.dev.ModeReg.DATA.testBit i) ∧
      (set a w).dev.Model = w.dev.Model ∧
      (set a w).dev.SuState = w.dev.SuState ∧
      (set a w).dev.IOReg = w.dev.IOReg ∧
      (set a w).dev.OfReg = w.dev.OfReg ∧
      (set a w).dev.FsReg = w.dev.FsReg ∧
      (set a w).trace =
        w.trace ++ [BusEvent.CSControl cssEnable, BusEvent.TxByte 0x08,
          BusEvent.TxByte ((set a w).dev.ModeReg.DATA >>> 8),
          BusEvent.TxByte ((set a w).dev.ModeReg.DATA &&& 0xFF),
          BusEvent.CSControl cssDisable] ∧
      ((set a w).dev.ModeReg.DATA >>> 8) * 256 + ((set a w).dev.ModeReg.DATA &&& 0xFF) =
        (set a w).dev.ModeReg.DATA ∧
      (set a w).rx = w.rx ∧ (set a w).rdy = w.rdy) ∧
    ((Single.AD779X_SetMode a w).dev.ModeReg.MODE.val = a % 8 ∧
      (Single.AD779X_SetMode a w).dev.ModeReg.CLKS = w.dev.ModeReg.CLKS ∧
      (Single.AD779X_SetMode a w).dev.ModeReg.FS = w.dev.ModeReg.FS) ∧
    ((Single.AD779X_SetClkSource a w).dev.ModeReg.CLKS.val = a % 4 ∧
      (Single.AD779X_SetClkSource a w).dev.ModeReg.MODE = w.dev.ModeReg.MODE ∧
      (Single.AD779X_SetClkSource a w).dev.ModeReg.FS = w.dev.ModeReg.FS) ∧
    ((Single.AD779X_SetUpdateRate a w).dev.ModeReg.FS.val = a % 16 ∧
      (Single.AD779X_SetUpdateRate a w).dev.ModeReg.MODE = w.dev.ModeReg.MODE ∧
      (Single.AD779X_SetUpdateRate a w).dev.ModeReg.CLKS = w.dev.ModeReg.CLKS) := by
  refine ⟨?_, ?_, ?_, ?_⟩
  · intro set mask shift width h
    have hold := ModeRegister_DATA_eq w.dev.ModeReg
    have holdlt := ModeRegister_DATA_lt w.dev.ModeReg
    have h1 := w.dev.ModeReg.FS.isLt
    have h2 := w.dev.ModeReg.UNUSED1.isLt
    have h3 := w.dev.ModeReg.CLKS.isLt
    have h4 := w.dev.ModeReg.UNUSED0.isLt
    have h5 := w.dev.ModeReg.MODE.isLt
    rcases h with ⟨hs, hm, hsh, hw⟩ | ⟨hs, hm, hsh, hw⟩ | ⟨hs, hm, hsh, hw⟩
    · subst hs hm hsh hw
      rw [Single_SetMode_eq]
      have hnew := set_MODE_DATA w.dev.ModeReg a
      have hlt := ModeRegister_DATA_lt (w.dev.ModeReg.set_MODE a)
      have m1 : (w.dev.ModeReg.set_MODE a).DATA &&& (0xFFFF ^^^ AD779X_MODE_MD) =
          w.dev.ModeReg.DATA &&& (0xFFFF ^^^ AD779X_MODE_MD) := by
        rw [and_not_MODE_MD, and_not_MODE_MD]; omega
      refine ⟨?_, m1, ?_, rfl, rfl, rfl, rfl, rfl, rfl, (payload_bytes _ hlt).1, rfl, rfl⟩
      · show (w.dev.ModeReg.set_MODE a).DATA &&& AD779X_MODE_MD = _
        rw [and_MODE_MD, Nat.shiftLeft_eq]; omega
      · intro i hi
        exact testBit_eq_of_and_not_eq _ _ _ hlt holdlt m1 i hi
    · subst hs hm hsh hw
      rw [Single_SetClkSource_eq]
      have hnew := set_CLKS_DATA w.dev.ModeReg a
      have hlt := ModeRegister_DATA_lt (w.dev.ModeReg.set_CLKS a)
      have m1 : (w.dev.ModeReg.set_CLKS a).DATA &&& (0xFFFF ^^^ AD779X_MODE_CLK) =
          w.dev.ModeReg.DATA &&& (0xFFFF ^^^ AD779X_MODE_CLK) := by
        have e1 : (w.dev.ModeReg.set_CLKS a).DATA / 256 % 256 * 256 =
            w.dev.ModeReg.DATA / 256 % 256 * 256 := by omega
        have e2 : (w.dev.ModeReg.set_CLKS a).DATA % 64 = w.dev.ModeReg.DATA % 64 := by omega
        rw [and_not_MODE_CLK, and_not_MODE_CLK, e1, e2]
      refine ⟨?_, m1, ?_, rfl, rfl, rfl, rfl, rfl, rfl, (payload_bytes _ hlt).1, rfl, rfl⟩
      · show (w.dev.ModeReg.set_CLKS a).DATA &&& AD779X_MODE_CLK = _
        rw [and_MODE_CLK, Nat.shiftLeft_eq]; omega
      · intro i hi
        exact testBit_eq_of_and_not_eq _ _ _ hlt holdlt m1 i hi
    · subst hs hm hsh hw
      rw [Single_SetUpdateRate_eq]
      have hnew := set_FS_DATA w.dev.ModeReg a
      have hlt := ModeRegister_DATA_lt (w.dev.ModeReg.set_FS a)
      have m1 : (w.dev.ModeReg.set_FS a).DATA &&& (0xFFFF ^^^ AD779X_MODE_FS) =
          w.dev.ModeReg.DATA &&& (0xFFFF ^^^ AD779X_MODE_FS) := by
        rw [and_not_MODE_FS, and_not_MODE_FS]; omega
      refine ⟨?_, m1, ?_, rfl, rfl, rfl, rfl, rfl, rfl, (payload_bytes _ hlt).1, rfl, rfl⟩
      · show (w.dev.ModeReg.set_FS a).DATA &&& AD779X_MODE_FS = _
        rw [and_MODE_FS, Nat.shiftLeft_eq]; omega
      · intro i hi
        exact testBit_eq_of_and_not_eq _ _ _ hlt holdlt m1 i hi
  · rw [Single_SetMode_eq]; exact ⟨rfl, rfl, rfl⟩
  · rw [Single_SetClkSource_eq]; exact ⟨rfl, rfl, rfl⟩
  · rw [Single_SetUpdateRate_eq]; exact ⟨rfl, rfl, rfl⟩

/-- Instance of C8: on a zero-initialised device `AD779X_SetMode mdsSingle` puts 1 into
bits 15..13 of the cached Mode register. -/
theorem Set_mode_fields_witness :
    (Single.AD779X_SetMode mdsSingle (worldOf zeroDevice [])).dev.ModeReg.DATA
      &&& AD779X_MODE_MD = (mdsSingle % 2 ^ 3) <<< 13 :=
  ((Set_mode_fields (worldOf zeroDevice []) mdsSingle).1 Single.AD779X_SetMode
    AD779X_MODE_MD 13 3 (Or.inl ⟨rfl, rfl, rfl, rfl⟩)).1

/-! ## C9 -/

/-- C9: in either implementation, for every state and every rate `r`, two consecutive
calls of `AD779X_SetUpdateRate r` each emit the same Mode-register write (command 0x08
and the same two payload bytes), the device after the second call equals the device
after the first, and the `MODE` and `CLKS` fields of the cached Mode register are
those from before the first call. -/
theorem SetUpdateRate_twice (set : Nat → World → World)
    (himpl : set = Single.AD779X_SetUpdateRate ∨ set = Multiple.AD779X_SetUpdateRate)
    (w : World) (r : Nat) :
    (set r w).trace =
      w.trace ++ [BusEvent.CSControl cssEnable, BusEvent.TxByte 0x08,
        BusEvent.TxByte ((set r w).dev.ModeReg.DATA >>> 8),
        BusEvent.TxByte ((set r w).dev.ModeReg.DATA &&& 0xFF),
        BusEvent.CSControl cssDisable] ∧
    (set r (set r w)).trace =
      (set r w).trace ++ [BusEvent.CSControl cssEnable, BusEvent.TxByte 0x08,
        BusEvent.TxByte ((set r w).dev.ModeReg.DATA >>> 8),
        BusEvent.TxByte ((set r w).dev.ModeReg.DATA &&& 0xFF),
        BusEvent.CSControl cssDisable] ∧
    (set r (set r w)).dev = (set r w).dev ∧
    (set r w).dev.ModeReg.MODE = w.dev.ModeReg.MODE ∧
    (set r w).dev.ModeReg.CLKS = w.dev.ModeReg.CLKS ∧
    (set r (set r w)).dev.ModeReg.MODE = w.dev.ModeReg.MODE ∧
    (set r (set r w)).dev.ModeReg.CLKS = w.dev.ModeReg.CLKS := by
  have e : set = Single.AD779X_SetUpdateRate := by
    rcases himpl with h | h
    · exact h
    · exact h
  subst e
  rw [Single_SetUpdateRate_eq r (Single.AD779X_SetUpdateRate r w), Single_SetUpdateRate_eq r w]
  exact ⟨rfl, rfl, rfl, rfl, rfl, rfl, rfl⟩

/-- Instance of C9: the multi-device setter called twice with fs500 on a device whose
Mode register holds the reset value. -/
theorem SetUpdateRate_twice_witness :
    (Multiple.AD779X_SetUpdateRate fs500 (Multiple.AD779X_SetUpdateRate fs500
        (worldOf { zeroDevice with ModeReg := gModeReg } []))).dev =
      (Multiple.AD779X_SetUpdateRate fs500
        (worldOf { zeroDevice with ModeReg := gModeReg } [])).dev :=
  (SetUpdateRate_twice Multiple.AD779X_SetUpdateRate (Or.inr rfl)
    (worldOf { zeroDevice with ModeReg := gModeReg } []) fs500).2.2.1

/-! ## C10 -/

/-- C10: for every Mode register whose reserved fields are zero (every `MODE` in 0..7,
`CLKS` in 0..3 and `FS` in 0..15), `DATA` equals `(MODE << 13) | (CLKS << 6) | FS`,
reading the bit-fields back from that 16-bit value gives the same register, and no bit
of the value lies outside the mask 0xE0CF. The field masks 0xE000, 0x00C0, 0x000F are
pairwise disjoint with union 0xE0CF. -/
theorem ModeRegister_round_trip (reg : tAD779X_ModeRegister)
    (h0 : reg.UNUSED0 = 0) (h1 : reg.UNUSED1 = 0) :
    tAD779X_ModeRegister.ofDATA reg.DATA = reg ∧
    (tAD779X_ModeRegister.ofDATA reg.DATA).MODE = reg.MODE ∧
    (tAD779X_ModeRegister.ofDATA reg.DATA).CLKS = reg.CLKS ∧
    (tAD779X_ModeRegister.ofDATA reg.DATA).FS = reg.FS ∧
    reg.DATA = (reg.MODE.val <<< 13) ||| (reg.CLKS.val <<< 6) ||| reg.FS.val ∧
    reg.DATA &&& AD779X_MODE_COM = reg.DATA ∧
    reg.DATA &&& (0xFFFF ^^^ AD779X_MODE_COM) = 0 ∧
    reg.DATA < 65536 ∧
    AD779X_MODE_MD &&& AD779X_MODE_CLK = 0 ∧
    AD779X_MODE_MD &&& AD779X_MODE_FS = 0 ∧
    AD779X_MODE_CLK &&& AD779X_MODE_FS = 0 ∧
    AD779X_MODE_MD ||| AD779X_MODE_CLK ||| AD779X_MODE_FS = AD779X_MODE_COM := by
  obtain ⟨fs, u1, c, u0, m⟩ := reg
  simp only at h0 h1
  subst h0 h1
  revert fs c m
  decide

/-- Instance of C10: the reset value `gModeReg` (idle, internal clock,
16.7 Hz / 65 dB) survives the round trip through its 16-bit value, which is
`(mdsIdle << 13) | (cssInt << 6) | fs16_7_65dB`. -/
theorem ModeRegister_round_trip_witness :
    tAD779X_ModeRegister.ofDATA gModeReg.DATA = gModeReg ∧
    gModeReg.DATA = (mdsIdle <<< 13) ||| (cssInt <<< 6) ||| fs16_7_65dB :=
  ⟨(ModeRegister_round_trip gModeReg rfl rfl).1,
    (ModeRegister_round_trip gModeReg rfl rfl).2.2.2.2.1⟩

/-! ## C11 -/

/-- C11 as stated fails: the raw value of `gModeReg` is not the documented default
`AD779X_RDV_MODE` (0x000A), because `mdsIdle` is enumerator 2 and occupies
bits 15..13. -/
theorem gModeReg_DATA_ne_RDV_MODE :
    gModeReg.DATA ≠ AD779X_RDV_MODE ∧ gModeReg.DATA ≠ 0x000A := by
  decide

/-- C11 (amended): `gModeReg` has `MODE` = mdsIdle (2), `CLKS` = cssInt (0),
`FS` = fs16_7_65dB (10) and zero reserved fields, so its raw 16-bit value is
0x400A = `(2 << 13) | 10`; it agrees with the documented default `AD779X_RDV_MODE`
(0x000A) on every bit outside the mode-select mask 0xE000 and differs from it in
bit 14. `gIOReg` (excitation disabled, normal direction, reserved zero) has raw value
0x00, the documented default `AD779X_RDV_IO`. -/
theorem reset_register_values :
    gModeReg.MODE.val = mdsIdle ∧ gModeReg.CLKS.val = cssInt ∧
    gModeReg.FS.val = fs16_7_65dB ∧ gModeReg.UNUSED0 = 0 ∧ gModeReg.UNUSED1 = 0 ∧
    gModeReg.DATA = 0x400A ∧
    gModeReg.DATA = (mdsIdle <<< 13) ||| (cssInt <<< 6) ||| fs16_7_65dB ∧
    gModeReg.DATA &&& (0xFFFF ^^^ AD779X_MODE_MD) = AD779X_RDV_MODE ∧
    gModeReg.DATA ^^^ AD779X_RDV_MODE = 0x4000 ∧
    gIOReg.IEXCEN.val = csvDisable ∧ gIOReg.IEXCDIR.val = csdNormal ∧ gIOReg.UNUSED = 0 ∧
    gIOReg.DATA = 0x00 ∧ gIOReg.DATA = AD779X_RDV_IO := by
  decide

/-! ## C12 -/

set_option maxRecDepth 20000 in
/-- For a status byte the returned expression is 0x80 or 0 according to bit 7. -/
theorem ready_expr_values :
    ∀ s : Fin 256,
      (s.val &&& AD779X_SR_RDY = 0 →
        ((s.val ^^^ 0xFFFFFFFF) &&& AD779X_SR_RDY) % 256 = 0x80) ∧
      (s.val &&& AD779X_SR_RDY ≠ 0 →
        ((s.val ^^^ 0xFFFFFFFF) &&& AD779X_SR_RDY) % 256 = 0) ∧
      (s.val &&& AD779X_SR_RDY = 0 ↔ s.val.testBit 7 = false) := by
  decide

/-- C12: in either implementation, for each of the 256 status bytes `s` delivered by
the bus, `AD779X_CheckReadySW` returns exactly 0x80 when bit 7 of `s` is 0 and exactly
0 when bit 7 is 1; so the result is non-zero if and only if bit 7 is 0, and it is
never 1. -/
theorem CheckReadySW_spec (check : World → Nat × World)
    (himpl : check = Single.AD779X_CheckReadySW ∨ check = Multiple.AD779X_CheckReadySW)
    (w : World) (s : Nat) (hs : s < 256) (hrx : w.rx 0 = s) :
    (s.testBit 7 = false → (check w).1 = 0x80) ∧
    (s.testBit 7 = true → (check w).1 = 0) ∧
    ((check w).1 ≠ 0 ↔ s.testBit 7 = false) ∧
    (s.testBit 7 = false ↔ s &&& AD779X_SR_RDY = 0) ∧
    (check w).1 ≠ 1 := by
  have e : check = Single.AD779X_CheckReadySW := by
    rcases himpl with h | h
    · exact h
    · exact h
  subst e
  subst hrx
  have hv : (Single.AD779X_CheckReadySW w).1 =
      ((w.rx 0 ^^^ 0xFFFFFFFF) &&& AD779X_SR_RDY) % 256 := by
    simp [Single.AD779X_CheckReadySW, Single.AD779X_GetStatus, RxByte, TxByte, CSControl,
      Nat.mod_eq_of_lt hs]
  obtain ⟨k0, k1, k2⟩ := ready_expr_values ⟨w.rx 0, hs⟩
  simp only at k0 k1 k2
  rw [hv]
  by_cases hb : w.rx 0 &&& AD779X_SR_RDY = 0
  · have h7 := k2.mp hb
    rw [k0 hb]
    simp [h7, hb]
  · have h7 : (w.rx 0).testBit 7 = true := by
      cases hc : (w.rx 0).testBit 7
      · exact absurd (k2.mpr hc) hb
      · rfl
    rw [k1 hb]
    simp [h7, hb]

/-- Instance of C12: status byte 0x48 (bit 7 clear) gives 0x80, not 1. -/
theorem CheckReadySW_spec_witness :
    (Single.AD779X_CheckReadySW (worldOf zeroDevice [0x48])).1 = 0x80 :=
  (CheckReadySW_spec Single.AD779X_CheckReadySW (Or.inl rfl) (worldOf zeroDevice [0x48])
    0x48 (by decide) rfl).1 (by decide)

/-! ## C13, C14, C15 -/

theorem RDR_STATUS_val : AD779X_RDR_STATUS = 0x40 := by decide

/-- C13: in either implementation, for every level `r` returned by the ready-signal
handle, `AD779X_CheckReadyHW` emits exactly chip-select assert, one ready-signal read,
chip-select deassert, with no byte transmitted or received; it returns 1 if `r` is 0
and 0 otherwise, so the result is 0 or 1, and the device is unchanged. -/
theorem CheckReadyHW_spec (check : World → Nat × World)
    (himpl : check = Single.AD779X_CheckReadyHW ∨ check = Multiple.AD779X_CheckReadyHW)
    (w : World) (r : Nat) (hr : r < 256) (hrdy : w.rdy 0 = r) :
    (check w).2.trace =
      w.trace ++ [BusEvent.CSControl cssEnable, BusEvent.RDYState r,
        BusEvent.CSControl cssDisable] ∧
    (r = 0 → (check w).1 = 1) ∧
    (r ≠ 0 → (check w).1 = 0) ∧
    ((check w).1 = 0 ∨ (check w).1 = 1) ∧
    (check w).2.dev = w.dev ∧
    (check w).2.rx = w.rx ∧
    (check w).2.rdy = (fun n => w.rdy (n + 1)) := by
  have e : check = Single.AD779X_CheckReadyHW := by
    rcases himpl with h | h
    · exact h
    · exact h
  subst e
  subst hrdy
  have h1 : w.rdy 0 % 256 = w.rdy 0 := Nat.mod_eq_of_lt hr
  refine ⟨?_, ?_, ?_, ?_, ?_, ?_, ?_⟩
  · simp [Single.AD779X_CheckReadyHW, RDYState, CSControl, h1, cssEnable, cssDisable]
  · intro h0
    simp [Single.AD779X_CheckReadyHW, RDYState, CSControl, h1, h0]
  · intro h0
    simp [Single.AD779X_CheckReadyHW, RDYState, CSControl, h1, h0]
  · by_cases h0 : w.rdy 0 = 0
    · right
      simp [Single.AD779X_CheckReadyHW, RDYState, CSControl, h1, h0]
    · left
      simp [Single.AD779X_CheckReadyHW, RDYState, CSControl, h1, h0]
  · simp [Single.AD779X_CheckReadyHW, RDYState, CSControl]
  · simp [Single.AD779X_CheckReadyHW, RDYState, CSControl]
  · simp [Single.AD779X_CheckReadyHW, RDYState, CSControl]

/-- Instance of C13: with the ready line reading 0 (`worldOf` supplies a constant 0) the
multi-device check returns 1. -/
theorem CheckReadyHW_spec_witness :
    (Multiple.AD779X_CheckReadyHW (worldOf zeroDevice [])).1 = 1 :=
  (CheckReadyHW_spec Multiple.AD779X_CheckReadyHW (Or.inr rfl) (worldOf zeroDevice [])
    0 (by decide) rfl).2.1 rfl

/-- C14: in either implementation, for every byte `s` delivered by the bus,
`AD779X_GetStatus` emits exactly chip-select assert, transmit 0x40, receive `s`,
chip-select deassert, returns `s` unmodified and leaves the device unchanged. -/
theorem GetStatus_spec (status : World → Nat × World)
    (himpl : status = Single.AD779X_GetStatus ∨ status = Multiple.AD779X_GetStatus)
    (w : World) (s : Nat) (hs : s < 256) (hrx : w.rx 0 = s) :
    (status w).2.trace =
      w.trace ++ [BusEvent.CSControl cssEnable, BusEvent.TxByte 0x40, BusEvent.RxByte s,
        BusEvent.CSControl cssDisable] ∧
    (status w).1 = s ∧
    (status w).2.dev = w.dev ∧
    (status w).2.rx = (fun n => w.rx (n + 1)) ∧
    (status w).2.rdy = w.rdy := by
  have e : status = Single.AD779X_GetStatus := by
    rcases himpl with h | h
    · exact h
    · exact h
  subst e
  subst hrx
  have h1 : w.rx 0 % 256 = w.rx 0 := Nat.mod_eq_of_lt hs
  simp [Single.AD779X_GetStatus, RxByte, TxByte, CSControl, h1, RDR_STATUS_val, cssEnable,
    cssDisable]

/-- Instance of C14: status byte 0xC8 on a device detected as ad7793 is returned as
is. -/
theorem GetStatus_spec_witness :
    (Single.AD779X_GetStatus
      (worldOf (deviceOf tAD779X_Model.ad7793 tAD779X_StartUpState.susActivate) [0xC8])).1
      = 0xC8 :=
  (GetStatus_spec Single.AD779X_GetStatus (Or.inl rfl)
    (worldOf (deviceOf tAD779X_Model.ad7793 tAD779X_StartUpState.susActivate) [0xC8])
    0xC8 (by decide) rfl).2.1

/-- C15: in either implementation, for every state, `AD779X_Reset` emits exactly
chip-select assert, four transmits of 0xFF (32 one-bits), chip-select deassert; it
receives no byte, does not read the ready signal, and leaves every member of the
device unchanged. -/
theorem Reset_spec (reset : World → World)
    (himpl : reset = Single.AD779X_Reset ∨ reset = Multiple.AD779X_Reset) (w : World) :
    (reset w).trace =
      w.trace ++ [BusEvent.CSControl cssEnable, BusEvent.TxByte 0xFF, BusEvent.TxByte 0xFF,
        BusEvent.TxByte 0xFF, BusEvent.TxByte 0xFF, BusEvent.CSControl cssDisable] ∧
    (reset w).rx = w.rx ∧
    (reset w).rdy = w.rdy ∧
    (reset w).dev = w.dev ∧
    (reset w).dev.Model = w.dev.Model ∧
    (reset w).dev.SuState = w.dev.SuState ∧
    (reset w).dev.ModeReg = w.dev.ModeReg ∧
    (reset w).dev.IOReg = w.dev.IOReg ∧
    (reset w).dev.OfReg = w.dev.OfReg ∧
    (reset w).dev.FsReg = w.dev.FsReg := by
  have e : reset = Single.AD779X_Reset := by
    rcases himpl with h | h
    · exact h
    · exact h
  subst e
  simp [Single.AD779X_Reset, TxByte, CSControl, cssEnable, cssDisable]

/-- Instance of C15: reset of an active ad7793 keeps model and start-up state. -/
theorem Reset_spec_witness :
    (Multiple.AD779X_Reset
      (worldOf (deviceOf tAD779X_Model.ad7793 tAD779X_StartUpState.susActivate) [])).dev
      = deviceOf tAD779X_Model.ad7793 tAD779X_StartUpState.susActivate :=
  (Reset_spec Multiple.AD779X_Reset (Or.inr rfl)
    (worldOf (deviceOf tAD779X_Model.ad7793 tAD779X_StartUpState.susActivate) [])).2.2.2.1

/-! ## C16 -/

theorem set_IEXCEN_DATA (r : tAD779X_IORegister) (v : Nat) :
    (r.set_IEXCEN v).DATA = v % 4 + r.IEXCDIR.val * 4 + r.UNUSED.val * 16 := by
  rw [IORegister_DATA_eq]; rfl

theorem set_IEXCDIR_DATA (r : tAD779X_IORegister) (v : Nat) :
    (r.set_IEXCDIR v).DATA = r.IEXCEN.val + v % 4 * 4 + r.UNUSED.val * 16 := by
  rw [IORegister_DATA_eq]; rfl

theorem and_IO_IEXCEN (x : Nat) : x &&& AD779X_IO_IEXCEN = x % 4 :=
  Nat.and_pow_two_sub_one_eq_mod x 2

theorem and_IO_IEXCDIR (x : Nat) : x &&& AD779X_IO_IEXCDIR = x / 4 % 4 * 4 := by
  have h := and_shifted_mask x 2 2
  simpa [Nat.shiftLeft_eq, Nat.shiftRight_eq_div_pow, AD779X_IO_IEXCDIR] using h

theorem and_not_IO_IEXCEN (x : Nat) : x &&& (0xFF ^^^ AD779X_IO_IEXCEN) = x / 4 % 64 * 4 := by
  have h := and_shifted_mask x 2 6
  simpa [Nat.shiftLeft_eq, Nat.shiftRight_eq_div_pow, AD779X_IO_IEXCEN] using h

theorem and_F0 (x : Nat) : x &&& 0xF0 = x / 16 % 16 * 16 := by
  have h := and_shifted_mask x 4 4
  simpa [Nat.shiftLeft_eq, Nat.shiftRight_eq_div_pow] using h

theorem and_not_IO_IEXCDIR (x : Nat) :
    x &&& (0xFF ^^^ AD779X_IO_IEXCDIR) = (x / 16 % 16 * 16) ||| (x % 4) := by
  have e : (0xFF ^^^ AD779X_IO_IEXCDIR) = 0xF0 ||| (2 ^ 2 - 1) := by decide
  rw [e, Nat.and_or_distrib_left, and_F0, Nat.and_pow_two_sub_one_eq_mod]

/-- Assembly of an IO register byte from its three fields, reserved field first. -/
theorem io_byte_assembly :
    ∀ (u : Fin 16) (d v : Fin 4),
      (u.val * 16) ||| (d.val <<< 2) ||| v.val = v.val + d.val * 4 + u.val * 16 := by
  decide

theorem Single_SetExCurrentValue_eq (excValue : Nat) (w : World) :
    Single.AD779X_SetExCurrentValue excValue w =
      { w with
        dev := { w.dev with IOReg := w.dev.IOReg.set_IEXCEN excValue },
        trace := w.trace ++ [BusEvent.CSControl cssEnable, BusEvent.TxByte 0x28,
          BusEvent.TxByte (w.dev.IOReg.set_IEXCEN excValue).DATA,
          BusEvent.CSControl cssDisable] } := by
  unfold Single.AD779X_SetExCurrentValue
  exact Single_WriteIORegister_eq _ _ (IORegister_DATA_lt _)

theorem Single_SetExCurrentDirection_eq (excDirection : Nat) (w : World) :
    Single.AD779X_SetExCurrentDirection excDirection w =
      { w with
        dev := { w.dev with IOReg := w.dev.IOReg.set_IEXCDIR excDirection },
        trace := w.trace ++ [BusEvent.CSControl cssEnable, BusEvent.TxByte 0x28,
          BusEvent.TxByte (w.dev.IOReg.set_IEXCDIR excDirection).DATA,
          BusEvent.CSControl cssDisable] } := by
  unfold Single.AD779X_SetExCurrentDirection
  exact Single_WriteIORegister_eq _ _ (IORegister_DATA_lt _)

theorem Single_SetExCurrent_eq (excValue excDirection : Nat) (w : World) :
    Single.AD779X_SetExCurrent excValue excDirection w =
      { w with
        dev := { w.dev with
          IOReg := (w.dev.IOReg.set_IEXCEN excValue).set_IEXCDIR excDirection },
        trace := w.trace ++ [BusEvent.CSControl cssEnable, BusEvent.TxByte 0x28,
          BusEvent.TxByte ((w.dev.IOReg.set_IEXCEN excValue).set_IEXCDIR excDirection).DATA,
          BusEvent.CSControl cssDisable] } := by
  unfold Single.AD779X_SetExCurrent
  exact Single_WriteIORegister_eq _ _ (IORegister_DATA_lt _)

/-- C16: for every prior state with cached IO register value `c`, every value `v` in
0..3 and direction `d` in 0..3, `AD779X_SetExCurrent v d` sets the cached IO register
to `(c & 0xF0) | (d << 2) | v` and emits exactly one IO-register write, 0x28 followed
by that byte; `AD779X_SetExCurrentValue v` changes only bits 1..0 and
`AD779X_SetExCurrentDirection d` only bits 3..2, each emitting one IO-register write
of the full updated byte. No other device member changes and nothing is taken from
the receive or ready inputs. -/
theorem Set_excitation_fields (w : World) (v d : Nat) (hv : v < 4) (hd : d < 4) :
    ((Single.AD779X_SetExCurrent v d w).dev.IOReg.DATA =
        (w.dev.IOReg.DATA &&& 0xF0) ||| (d <<< 2) ||| v ∧
      (Single.AD779X_SetExCurrent v d w).trace =
        w.trace ++ [BusEvent.CSControl cssEnable, BusEvent.TxByte 0x28,
          BusEvent.TxByte ((w.dev.IOReg.DATA &&& 0xF0) ||| (d <<< 2) ||| v),
          BusEvent.CSControl cssDisable]) ∧
    ((Single.AD779X_SetExCurrentValue v w).dev.IOReg.DATA &&& AD779X_IO_IEXCEN = v ∧
      (Single.AD779X_SetExCurrentValue v w).dev.IOReg.DATA &&& (0xFF ^^^ AD779X_IO_IEXCEN) =
        w.dev.IOReg.DATA &&& (0xFF ^^^ AD779X_IO_IEXCEN) ∧
      (Single.AD779X_SetExCurrentValue v w).trace =
        w.trace ++ [BusEvent.CSControl cssEnable, BusEvent.TxByte 0x28,
          BusEvent.TxByte (Single.AD779X_SetExCurrentValue v w).dev.IOReg.DATA,
          BusEvent.CSControl cssDisable]) ∧
    ((Single.AD779X_SetExCurrentDirection d w).dev.IOReg.DATA &&& AD779X_IO_IEXCDIR =
        d <<< 2 ∧
      (Single.AD779X_SetExCurrentDirection d w).dev.IOReg.DATA
          &&& (0xFF ^^^ AD779X_IO_IEXCDIR) =
        w.dev.IOReg.DATA &&& (0xFF ^^^ AD779X_IO_IEXCDIR) ∧
      (Single.AD779X_SetExCurrentDirection d w).trace =
        w.trace ++ [BusEvent.CSControl cssEnable, BusEvent.TxByte 0x28,
          BusEvent.TxByte (Single.AD779X_SetExCurrentDirection d w).dev.IOReg.DATA,
          BusEvent.CSControl cssDisable]) ∧
    (∀ w2 : World,
      (w2 = Single.AD779X_SetExCurrent v d w ∨ w2 = Single.AD779X_SetExCurrentValue v w ∨
        w2 = Single.AD779X_SetExCurrentDirection d w) →
      w2.dev.IOReg.DATA < 256 ∧
      w2.dev.Model = w.dev.Model ∧ w2.dev.SuState = w.dev.SuState ∧
      w2.dev.ModeReg = w.dev.ModeReg ∧ w2.dev.OfReg = w.dev.OfReg ∧
      w2.dev.FsReg = w.dev.FsReg ∧ w2.rx = w.rx ∧ w2.rdy = w.rdy) := by
  have hold := IORegister_DATA_eq w.dev.IOReg
  have h1 := w.dev.IOReg.IEXCEN.isLt
  have h2 := w.dev.IOReg.IEXCDIR.isLt
  have h3 := w.dev.IOReg.UNUSED.isLt
  have hvm : v % 4 = v := Nat.mod_eq_of_lt hv
  have hdm : d % 4 = d := Nat.mod_eq_of_lt hd
  have hboth : ((w.dev.IOReg.set_IEXCEN v).set_IEXCDIR d).DATA =
      (w.dev.IOReg.DATA &&& 0xF0) ||| (d <<< 2) ||| v := by
    have e1 : ((w.dev.IOReg.set_IEXCEN v).set_IEXCDIR d).DATA =
        v + d * 4 + w.dev.IOReg.UNUSED.val * 16 := by
      rw [set_IEXCDIR_DATA, hdm]
      show v % 4 + d * 4 + w.dev.IOReg.UNUSED.val * 16 = _
      rw [hvm]
    have e2 : w.dev.IOReg.DATA &&& 0xF0 = w.dev.IOReg.UNUSED.val * 16 := by
      rw [and_F0]; omega
    rw [e1, e2]
    exact (io_byte_assembly w.dev.IOReg.UNUSED ⟨d, hd⟩ ⟨v, hv⟩).symm
  refine ⟨?_, ?_, ?_, ?_⟩
  · rw [Single_SetExCurrent_eq, ← hboth]
    exact ⟨rfl, rfl⟩
  · rw [Single_SetExCurrentValue_eq]
    have hnew := set_IEXCEN_DATA w.dev.IOReg v
    refine ⟨?_, ?_, rfl⟩
    · show (w.dev.IOReg.set_IEXCEN v).DATA &&& AD779X_IO_IEXCEN = v
      rw [and_IO_IEXCEN]; omega
    · show (w.dev.IOReg.set_IEXCEN v).DATA &&& (0xFF ^^^ AD779X_IO_IEXCEN) = _
      rw [and_not_IO_IEXCEN, and_not_IO_IEXCEN]; omega
  · rw [Single_SetExCurrentDirection_eq]
    have hnew := set_IEXCDIR_DATA w.dev.IOReg d
    refine ⟨?_, ?_, rfl⟩
    · show (w.dev.IOReg.set_IEXCDIR d).DATA &&& AD779X_IO_IEXCDIR = d <<< 2
      rw [and_IO_IEXCDIR, Nat.shiftLeft_eq]; omega
    · show (w.dev.IOReg.set_IEXCDIR d).DATA &&& (0xFF ^^^ AD779X_IO_IEXCDIR) = _
      have e1 : (w.dev.IOReg.set_IEXCDIR d).DATA / 16 % 16 * 16 =
          w.dev.IOReg.DATA / 16 % 16 * 16 := by omega
      have e2 : (w.dev.IOReg.set_IEXCDIR d).DATA % 4 = w.dev.IOReg.DATA % 4 := by omega
      rw [and_not_IO_IEXCDIR, and_not_IO_IEXCDIR, e1, e2]
  · intro w2 h
    rcases h with h | h | h
    · subst h
      rw [Single_SetExCurrent_eq]
      exact ⟨IORegister_DATA_lt _, rfl, rfl, rfl, rfl, rfl, rfl, rfl⟩
    · subst h
      rw [Single_SetExCurrentValue_eq]
      exact ⟨IORegister_DATA_lt _, rfl, rfl, rfl, rfl, rfl, rfl, rfl⟩
    · subst h
      rw [Single_SetExCurrentDirection_eq]
      exact ⟨IORegister_DATA_lt _, rfl, rfl, rfl, rfl, rfl, rfl, rfl⟩

/-- Instance of C16: on a device whose cached IO register is 0xF5, setting value
csv210uA (2) and direction csdBcsOut2 (3) gives 0xFE = `(0xF5 & 0xF0) | (3 << 2) | 2`. -/
theorem Set_excitation_fields_witness :
    (Single.AD779X_SetExCurrent csv210uA csdBcsOut2
      (worldOf { zeroDevice with IOReg := tAD779X_IORegister.ofDATA 0xF5 } [])).dev.IOReg.DATA
      = 0xFE :=
  ((Set_excitation_fields
    (worldOf { zeroDevice with IOReg := tAD779X_IORegister.ofDATA 0xF5 } [])
    csv210uA csdBcsOut2 (by decide) (by decide)).1.1).trans (by decide)

/-! ## C17 -/

/-- C17: for every state, `AD779X_StartZSCalibration` has exactly the effect of
`AD779X_SetMode mdsIntZeroCal` (value 4) and `AD779X_StartFSCalibration` that of
`AD779X_SetMode mdsIntFullCal` (value 5), device and bus trace included. The wrapper
emits one Mode-register write whose first payload byte has top three bits 100,
respectively 101; the `CLKS` and `FS` fields are the cached ones, and nothing is taken
from the receive or ready inputs. -/
theorem Calibration_wrappers (w : World) :
    (Single.AD779X_StartZSCalibration w = Single.AD779X_SetMode mdsIntZeroCal w ∧
      mdsIntZeroCal = 4 ∧
      Single.AD779X_StartFSCalibration w = Single.AD779X_SetMode mdsIntFullCal w ∧
      mdsIntFullCal = 5) ∧
    (∀ (cal : World → World) (m : Nat),
      ((cal = Single.AD779X_StartZSCalibration ∧ m = 4) ∨
        (cal = Single.AD779X_StartFSCalibration ∧ m = 5)) →
      (cal w).trace =
        w.trace ++ [BusEvent.CSControl cssEnable, BusEvent.TxByte 0x08,
          BusEvent.TxByte ((cal w).dev.ModeReg.DATA >>> 8),
          BusEvent.TxByte ((cal w).dev.ModeReg.DATA &&& 0xFF),
          BusEvent.CSControl cssDisable] ∧
      ((cal w).dev.ModeReg.DATA >>> 8) >>> 5 = m ∧
      (cal w).dev.ModeReg.DATA >>> 8 < 256 ∧
      (cal w).dev.ModeReg.MODE.val = m ∧
      (cal w).dev.ModeReg.CLKS = w.dev.ModeReg.CLKS ∧
      (cal w).dev.ModeReg.FS = w.dev.ModeReg.FS ∧
      (cal w).rx = w.rx ∧ (cal w).rdy = w.rdy) := by
  refine ⟨⟨rfl, rfl, rfl, rfl⟩, ?_⟩
  intro cal m h
  have h1 := w.dev.ModeReg.FS.isLt
  have h2 := w.dev.ModeReg.UNUSED1.isLt
  have h3 := w.dev.ModeReg.CLKS.isLt
  have h4 := w.dev.ModeReg.UNUSED0.isLt
  rcases h with ⟨hc, hm⟩ | ⟨hc, hm⟩
  · subst hc hm
    have hnew := set_MODE_DATA w.dev.ModeReg mdsIntZeroCal
    have e : Single.AD779X_StartZSCalibration w = Single.AD779X_SetMode mdsIntZeroCal w := rfl
    rw [e, Single_SetMode_eq]
    refine ⟨rfl, ?_, ?_, rfl, rfl, rfl, rfl, rfl⟩
    · show ((w.dev.ModeReg.set_MODE mdsIntZeroCal).DATA >>> 8) >>> 5 = 4
      rw [Nat.shiftRight_eq_div_pow, Nat.shiftRight_eq_div_pow, hnew]
      simp only [mdsIntZeroCal]
      omega
    · show (w.dev.ModeReg.set_MODE mdsIntZeroCal).DATA >>> 8 < 256
      rw [Nat.shiftRight_eq_div_pow, hnew]
      simp only [mdsIntZeroCal]
      omega
  · subst hc hm
    have hnew := set_MODE_DATA w.dev.ModeReg mdsIntFullCal
    have e : Single.AD779X_StartFSCalibration w = Single.AD779X_SetMode mdsIntFullCal w := rfl
    rw [e, Single_SetMode_eq]
    refine ⟨rfl, ?_, ?_, rfl, rfl, rfl, rfl, rfl⟩
    · show ((w.dev.ModeReg.set_MODE mdsIntFullCal).DATA >>> 8) >>> 5 = 5
      rw [Nat.shiftRight_eq_div_pow, Nat.shiftRight_eq_div_pow, hnew]
      simp only [mdsIntFullCal]
      omega
    · show (w.dev.ModeReg.set_MODE mdsIntFullCal).DATA >>> 8 < 256
      rw [Nat.shiftRight_eq_div_pow, hnew]
      simp only [mdsIntFullCal]
      omega

/-- Instance of C17: on a device whose Mode register holds the reset value the
zero-scale wrapper transmits a first payload byte with top bits 100. -/
theorem Calibration_wrappers_witness :
    ((Single.AD779X_StartZSCalibration
      (worldOf { zeroDevice with ModeReg := gModeReg } [])).dev.ModeReg.DATA >>> 8) >>> 5 = 4 :=
  ((Calibration_wrappers (worldOf { zeroDevice with ModeReg := gModeReg } [])).2
    Single.AD779X_StartZSCalibration 4 (Or.inl ⟨rfl, rfl⟩)).2.1

/-! ## C18 -/

theorem RDR_OFFSET_val : AD779X_RDR_OFFSET = 0x70 := by decide
theorem RDR_FSCLAE_val : AD779X_RDR_FSCLAE = 0x78 := by decide

/-- C18 as stated fails: the number of bytes received does not follow the device
model. On a device detected as ad7793, `AD779X_ReadOffsetRegister16` receives two
bytes, and on a device detected as ad7792, `AD779X_ReadFScaleRegister24` receives
three. -/
theorem Read_calibration_width_not_by_model :
    (Single.AD779X_ReadOffsetRegister16
      (worldOf (deviceOf tAD779X_Model.ad7793 tAD779X_StartUpState.susActivate)
        [0x80, 0x00, 0x01])).2.trace =
      [BusEvent.CSControl cssEnable, BusEvent.TxByte 0x70, BusEvent.RxByte 0x80,
        BusEvent.RxByte 0x00, BusEvent.CSControl cssDisable] ∧
    (Single.AD779X_ReadFScaleRegister24
      (worldOf (deviceOf tAD779X_Model.ad7792 tAD779X_StartUpState.susActivate)
        [0x50, 0x00, 0x01])).2.trace =
      [BusEvent.CSControl cssEnable, BusEvent.TxByte 0x78, BusEvent.RxByte 0x50,
        BusEvent.RxByte 0x00, BusEvent.RxByte 0x01, BusEvent.CSControl cssDisable] := by
  decide

/-- C18 (amended): for every state, whatever the device model, and every byte
sequence `x0, x1, x2` delivered by the bus in that order,
`AD779X_ReadOffsetRegister16` and `AD779X_ReadFScaleRegister16` transmit their read
command (0x70, 0x78), receive exactly two bytes and return `x0 * 256 + x1`;
`AD779X_ReadOffsetRegister24` and `AD779X_ReadFScaleRegister24` transmit the same
commands, receive exactly three bytes and return `x0 * 65536 + x1 * 256 + x2`. The
width is fixed by the accessor called; the device is unchanged. -/
theorem Read_calibration_registers (w : World) (x0 x1 x2 : Nat)
    (h0 : w.rx 0 = x0) (h1 : w.rx 1 = x1) (h2 : w.rx 2 = x2)
    (hx0 : x0 < 256) (hx1 : x1 < 256) (hx2 : x2 < 256) :
    (∀ (rd : World → Nat × World) (cmd : Nat),
      ((rd = Single.AD779X_ReadOffsetRegister16 ∧ cmd = 0x70) ∨
        (rd = Single.AD779X_ReadFScaleRegister16 ∧ cmd = 0x78)) →
      (rd w).2.trace =
        w.trace ++ [BusEvent.CSControl cssEnable, BusEvent.TxByte cmd, BusEvent.RxByte x0,
          BusEvent.RxByte x1, BusEvent.CSControl cssDisable] ∧
      (rd w).2.rx = (fun n => w.rx (n + 2)) ∧
      (rd w).1 = x0 * 256 + x1 ∧
      (rd w).2.dev = w.dev) ∧
    (∀ (rd : World → Nat × World) (cmd : Nat),
      ((rd = Single.AD779X_ReadOffsetRegister24 ∧ cmd = 0x70) ∨
        (rd = Single.AD779X_ReadFScaleRegister24 ∧ cmd = 0x78)) →
      (rd w).2.trace =
        w.trace ++ [BusEvent.CSControl cssEnable, BusEvent.TxByte cmd, BusEvent.RxByte x0,
          BusEvent.RxByte x1, BusEvent.RxByte x2, BusEvent.CSControl cssDisable] ∧
      (rd w).2.rx = (fun n => w.rx (n + 3)) ∧
      (rd w).1 = x0 * 65536 + x1 * 256 + x2 ∧
      (rd w).2.dev = w.dev) := by
  subst h0
  subst h1
  subst h2
  have e0 : w.rx 0 % 256 = w.rx 0 := Nat.mod_eq_of_lt hx0
  have e1 : w.rx 1 % 256 = w.rx 1 := Nat.mod_eq_of_lt hx1
  have e2 : w.rx 2 % 256 = w.rx 2 := Nat.mod_eq_of_lt hx2
  have hv : ((w.rx 0 <<< 8) ||| w.rx 1) % 65536 = w.rx 0 * 256 + w.rx 1 := by
    rw [shl_8_or _ _ hx1]; omega
  have hv32 : ((w.rx 0 <<< 8) ||| w.rx 1) % 4294967296 = w.rx 0 * 256 + w.rx 1 := by
    rw [shl_8_or _ _ hx1]; omega
  have hw : (((w.rx 0 * 256 + w.rx 1) <<< 8) ||| w.rx 2) % 4294967296 =
      w.rx 0 * 65536 + w.rx 1 * 256 + w.rx 2 := by
    rw [shl_8_or _ _ hx2]; omega
  refine ⟨?_, ?_⟩
  · intro rd cmd h
    rcases h with ⟨hr, hc⟩ | ⟨hr, hc⟩
    · subst hr hc
      simp [Single.AD779X_ReadOffsetRegister16, RxByte, TxByte, CSControl, e0, e1, hv,
        RDR_OFFSET_val, cssEnable, cssDisable]
    · subst hr hc
      simp [Single.AD779X_ReadFScaleRegister16, RxByte, TxByte, CSControl, e0, e1, hv,
        RDR_FSCLAE_val, cssEnable, cssDisable]
  · intro rd cmd h
    rcases h with ⟨hr, hc⟩ | ⟨hr, hc⟩
    · subst hr hc
      simp [Single.AD779X_ReadOffsetRegister24, RxByte, TxByte, CSControl, e0, e1, e2, hv32,
        hw, RDR_OFFSET_val, cssEnable, cssDisable]
    · subst hr hc
      simp [Single.AD779X_ReadFScaleRegister24, RxByte, TxByte, CSControl, e0, e1, e2, hv32,
        hw, RDR_FSCLAE_val, cssEnable, cssDisable]

/-- Instance of C18 (amended): the 24-bit offset read of bytes 0x80, 0x00, 0x01 returns
0x800001 on a device with no model detected. -/
theorem Read_calibration_registers_witness :
    (Single.AD779X_ReadOffsetRegister24 (worldOf zeroDevice [0x80, 0x00, 0x01])).1
      = 0x80 * 65536 + 0x00 * 256 + 0x01 :=
  ((Read_calibration_registers (worldOf zeroDevice [0x80, 0x00, 0x01]) 0x80 0x00 0x01
    rfl rfl rfl (by decide) (by decide) (by decide)).2
    Single.AD779X_ReadOffsetRegister24 0x70 (Or.inl ⟨rfl, rfl⟩)).2.2.1

/-! ## C19 -/

/-- C19 as stated fails: a `Write*` call does not store its argument in the device.
On a zero-initialised device the cached Mode register is still 0 after
`AD779X_WriteModeRegister 0x400A` and the cached IO register is still 0 after
`AD779X_WriteIORegister 0x03`, in both implementations. -/
theorem Write_does_not_store :
    (Single.AD779X_WriteModeRegister 0x400A (worldOf zeroDevice [])).dev.ModeReg.DATA
      ≠ 0x400A ∧
    (Single.AD779X_WriteIORegister 0x03 (worldOf zeroDevice [])).dev.IOReg.DATA ≠ 0x03 ∧
    (Multiple.AD779X_WriteModeRegister 0x400A (worldOf zeroDevice [])).dev.ModeReg.DATA
      ≠ 0x400A ∧
    (Multiple.AD779X_WriteIORegister 0x03 (worldOf zeroDevice [])).dev.IOReg.DATA ≠ 0x03 := by
  decide

/-- C19 (amended): in either implementation, for every state and all arguments, a
`Write*` call leaves the device, in particular the cached Mode and IO registers,
unchanged. Every `Set*` call (the three Mode setters and the two single-field
excitation setters of both files, and `AD779X_SetExCurrent` with independent value `v`
and direction `d`) stores its argument, truncated to the field width, in its field of
the cached register, changes nothing else in the device, and then transmits the whole
updated cached register, so after a `Set*` call the cached register equals the value
just transmitted. -/
theorem Write_leaves_mirror (w : World) (v d : Nat) :
    (∀ wr : Nat → World → World,
      (wr = Single.AD779X_WriteModeRegister ∨ wr = Single.AD779X_WriteConfigRegister ∨
        wr = Single.AD779X_WriteIORegister ∨ wr = Multiple.AD779X_WriteModeRegister ∨
        wr = Multiple.AD779X_WriteConfigRegister ∨ wr = Multiple.AD779X_WriteIORegister) →
      (wr v w).dev = w.dev ∧
      (wr v w).dev.ModeReg = w.dev.ModeReg ∧
      (wr v w).dev.IOReg = w.dev.IOReg) ∧
    (∀ (set : Nat → World → World)
        (store : tAD779X_ModeRegister → Nat → tAD779X_ModeRegister),
      (((set = Single.AD779X_SetMode ∨ set = Multiple.AD779X_SetMode) ∧
          store = tAD779X_ModeRegister.set_MODE) ∨
        ((set = Single.AD779X_SetClkSource ∨ set = Multiple.AD779X_SetClkSource) ∧
          store = tAD779X_ModeRegister.set_CLKS) ∨
        ((set = Single.AD779X_SetUpdateRate ∨ set = Multiple.AD779X_SetUpdateRate) ∧
          store = tAD779X_ModeRegister.set_FS)) →
      (set v w).dev = { w.dev with ModeReg := store w.dev.ModeReg v } ∧
      (set v w).dev.ModeReg = store w.dev.ModeReg v ∧
      (set v w).trace =
        w.trace ++ [BusEvent.CSControl cssEnable, BusEvent.TxByte 0x08,
          BusEvent.TxByte ((set v w).dev.ModeReg.DATA >>> 8),
          BusEvent.TxByte ((set v w).dev.ModeReg.DATA &&& 0xFF),
          BusEvent.CSControl cssDisable] ∧
      ((set v w).dev.ModeReg.DATA >>> 8) * 256 + ((set v w).dev.ModeReg.DATA &&& 0xFF) =
        (set v w).dev.ModeReg.DATA) ∧
    ((Single.AD779X_SetMode v w).dev.ModeReg.MODE.val = v % 8 ∧
      (Single.AD779X_SetClkSource v w).dev.ModeReg.CLKS.val = v % 4 ∧
      (Single.AD779X_SetUpdateRate v w).dev.ModeReg.FS.val = v % 16) ∧
    (∀ (set : Nat → World → World)
        (store : tAD779X_IORegister → Nat → tAD779X_IORegister),
      (((set = Single.AD779X_SetExCurrentValue ∨ set = Multiple.AD779X_SetExCurrentValue) ∧
          store = tAD779X_IORegister.set_IEXCEN) ∨
        ((set = Single.AD779X_SetExCurrentDirection ∨
            set = Multiple.AD779X_SetExCurrentDirection) ∧
          store = tAD779X_IORegister.set_IEXCDIR)) →
      (set v w).dev = { w.dev with IOReg := store w.dev.IOReg v } ∧
      (set v w).dev.IOReg = store w.dev.IOReg v ∧
      (set v w).trace =
        w.trace ++ [BusEvent.CSControl cssEnable, BusEvent.TxByte 0x28,
          BusEvent.TxByte (set v w).dev.IOReg.DATA, BusEvent.CSControl cssDisable]) ∧
    ((Single.AD779X_SetExCurrentValue v w).dev.IOReg.IEXCEN.val = v % 4 ∧
      (Single.AD779X_SetExCurrentDirection d w).dev.IOReg.IEXCDIR.val = d % 4) ∧
    ((Single.AD779X_SetExCurrent v d w).dev =
        { w.dev with IOReg := (w.dev.IOReg.set_IEXCEN v).set_IEXCDIR d } ∧
      (Single.AD779X_SetExCurrent v d w).dev.IOReg.IEXCEN.val = v % 4 ∧
      (Single.AD779X_SetExCurrent v d w).dev.IOReg.IEXCDIR.val = d % 4 ∧
      (Single.AD779X_SetExCurrent v d w).dev.IOReg.UNUSED = w.dev.IOReg.UNUSED ∧
      (Single.AD779X_SetExCurrent v d w).trace =
        w.trace ++ [BusEvent.CSControl cssEnable, BusEvent.TxByte 0x28,
          BusEvent.TxByte (Single.AD779X_SetExCurrent v d w).dev.IOReg.DATA,
          BusEvent.CSControl cssDisable]) := by
  refine ⟨?_, ?_, ?_, ?_, ?_, ?_⟩
  · intro wr h
    rcases h with h | h | h | h | h | h <;> subst h <;> exact ⟨rfl, rfl, rfl⟩
  · intro set store h
    have hm : Multiple.AD779X_SetMode = Single.AD779X_SetMode := rfl
    have hc : Multiple.AD779X_SetClkSource = Single.AD779X_SetClkSource := rfl
    have hu : Multiple.AD779X_SetUpdateRate = Single.AD779X_SetUpdateRate := rfl
    rw [hm, hc, hu] at h
    simp only [or_self] at h
    rcases h with ⟨hs, ht⟩ | ⟨hs, ht⟩ | ⟨hs, ht⟩
    · subst hs ht
      rw [Single_SetMode_eq]
      exact ⟨rfl, rfl, rfl, (payload_bytes _ (ModeRegister_DATA_lt _)).1⟩
    · subst hs ht
      rw [Single_SetClkSource_eq]
      exact ⟨rfl, rfl, rfl, (payload_bytes _ (ModeRegister_DATA_lt _)).1⟩
    · subst hs ht
      rw [Single_SetUpdateRate_eq]
      exact ⟨rfl, rfl, rfl, (payload_bytes _ (ModeRegister_DATA_lt _)).1⟩
  · rw [Single_SetMode_eq, Single_SetClkSource_eq, Single_SetUpdateRate_eq]
    exact ⟨rfl, rfl, rfl⟩
  · intro set store h
    have hv : Multiple.AD779X_SetExCurrentValue = Single.AD779X_SetExCurrentValue := rfl
    have hd : Multiple.AD779X_SetExCurrentDirection = Single.AD779X_SetExCurrentDirection :=
      rfl
    rw [hv, hd] at h
    simp only [or_self] at h
    rcases h with ⟨hs, ht⟩ | ⟨hs, ht⟩
    · subst hs ht
      rw [Single_SetExCurrentValue_eq]
      exact ⟨rfl, rfl, rfl⟩
    · subst hs ht
      rw [Single_SetExCurrentDirection_eq]
      exact ⟨rfl, rfl, rfl⟩
  · rw [Single_SetExCurrentValue_eq, Single_SetExCurrentDirection_eq]
    exact ⟨rfl, rfl⟩
  · rw [Single_SetExCurrent_eq]
    exact ⟨rfl, rfl, rfl, rfl, rfl⟩

/-- Instance of C19 (amended): writing 0x400A to the Mode register of a
zero-initialised device leaves the cached Mode register at 0. -/
theorem Write_leaves_mirror_witness :
    (Single.AD779X_WriteModeRegister 0x400A (worldOf zeroDevice [])).dev.ModeReg
      = zeroDevice.ModeReg :=
  ((Write_leaves_mirror (worldOf zeroDevice []) 0x400A 0).1 Single.AD779X_WriteModeRegister
    (Or.inl rfl)).2.1

/-! ## C20 -/

theorem Single_Init_mirror (w : World) :
    (Single.AD779X_Init w).dev.ModeReg = w.dev.ModeReg ∧
    (Single.AD779X_Init w).dev.IOReg = w.dev.IOReg := by
  by_cases hA : (w.rx 0 % 256 % 65536) &&& 0xF = 0x0A
  · simp [Single.AD779X_Init, Single.AD779X_HWDetect, Single.AD779X_WriteModeRegister,
      Single.AD779X_WriteIORegister, RxByte, TxByte, CSControl, hA, tAD779X_Model.toNat,
      AD7792_PARTID, AD7793_PARTID]
  · by_cases hB : (w.rx 0 % 256 % 65536) &&& 0xF = 0x0B
    · simp [Single.AD779X_Init, Single.AD779X_HWDetect, Single.AD779X_WriteModeRegister,
        Single.AD779X_WriteIORegister, RxByte, TxByte, CSControl, hA, hB,
        tAD779X_Model.toNat, AD7792_PARTID, AD7793_PARTID]
    · simp [Single.AD779X_Init, Single.AD779X_HWDetect, RxByte, TxByte, CSControl, hA, hB,
        tAD779X_Model.toNat, AD7792_PARTID, AD7793_PARTID]

/-- C20 as stated fails: on a zero-initialised device a successful `AD779X_Init`
(identity byte 0x0B) leaves the cached Mode register at 0, not at the transmitted
reset value, and the following `AD779X_SetMode mdsContinuous` transmits payload
0x00, 0x00, whose update-rate field is 0 rather than 10. -/
theorem Init_then_SetMode_stale :
    (Single.AD779X_Init (worldOf zeroDevice [0x0B])).dev.SuState
      = tAD779X_StartUpState.susActivate ∧
    (Single.AD779X_Init (worldOf zeroDevice [0x0B])).dev.ModeReg ≠ gModeReg ∧
    (Single.AD779X_SetMode mdsContinuous
      (Single.AD779X_Init (worldOf zeroDevice [0x0B]))).dev.ModeReg.FS.val ≠ fs16_7_65dB ∧
    (Single.AD779X_SetMode mdsContinuous (Single.AD779X_Init (worldOf zeroDevice [0x0B]))).trace
      = (Single.AD779X_Init (worldOf zeroDevice [0x0B])).trace ++
        [BusEvent.CSControl cssEnable, BusEvent.TxByte 0x08, BusEvent.TxByte 0x00,
          BusEvent.TxByte 0x00, BusEvent.CSControl cssDisable] := by
  decide

/-- C20 (amended): for every prior state, `AD779X_Init` (successful or not) leaves the
cached Mode and IO registers as they were before the call; it does not store the
reset values it transmits. A following `AD779X_SetMode m` therefore transmits the
Mode value made of `m` and the `CLKS`, `FS` and reserved fields cached before
initialisation: its clock source is internal and its update rate 10 exactly when the
cache held these values before `AD779X_Init`. -/
theorem Init_keeps_mirror (w : World) (m : Nat) :
    (Single.AD779X_Init w).dev.ModeReg = w.dev.ModeReg ∧
    (Single.AD779X_Init w).dev.IOReg = w.dev.IOReg ∧
    (Single.AD779X_SetMode m (Single.AD779X_Init w)).trace =
      (Single.AD779X_Init w).trace ++ [BusEvent.CSControl cssEnable, BusEvent.TxByte 0x08,
        BusEvent.TxByte ((w.dev.ModeReg.set_MODE m).DATA >>> 8),
        BusEvent.TxByte ((w.dev.ModeReg.set_MODE m).DATA &&& 0xFF),
        BusEvent.CSControl cssDisable] ∧
    (Single.AD779X_SetMode m (Single.AD779X_Init w)).dev.ModeReg = w.dev.ModeReg.set_MODE m ∧
    (w.dev.ModeReg.set_MODE m).DATA &&& AD779X_MODE_CLK = w.dev.ModeReg.CLKS.val <<< 6 ∧
    (w.dev.ModeReg.set_MODE m).DATA &&& AD779X_MODE_FS = w.dev.ModeReg.FS.val ∧
    (((w.dev.ModeReg.set_MODE m).DATA &&& AD779X_MODE_CLK = cssInt <<< 6 ∧
        (w.dev.ModeReg.set_MODE m).DATA &&& AD779X_MODE_FS = fs16_7_65dB) ↔
      (w.dev.ModeReg.CLKS.val = cssInt ∧ w.dev.ModeReg.FS.val = fs16_7_65dB)) := by
  obtain ⟨hM, hI⟩ := Single_Init_mirror w
  have h1 := w.dev.ModeReg.FS.isLt
  have h2 := w.dev.ModeReg.UNUSED1.isLt
  have h3 := w.dev.ModeReg.CLKS.isLt
  have h4 := w.dev.ModeReg.UNUSED0.isLt
  have hnew := set_MODE_DATA w.dev.ModeReg m
  have hclk : (w.dev.ModeReg.set_MODE m).DATA &&& AD779X_MODE_CLK =
      w.dev.ModeReg.CLKS.val <<< 6 := by
    rw [and_MODE_CLK, Nat.shiftLeft_eq]; omega
  have hfs : (w.dev.ModeReg.set_MODE m).DATA &&& AD779X_MODE_FS = w.dev.ModeReg.FS.val := by
    rw [and_MODE_FS]; omega
  refine ⟨hM, hI, ?_, ?_, hclk, hfs, ?_⟩
  · rw [Single_SetMode_eq, hM]
  · rw [Single_SetMode_eq, hM]
  · rw [hclk, hfs, Nat.shiftLeft_eq, Nat.shiftLeft_eq]
    constructor
    · rintro ⟨a, b⟩
      exact ⟨by omega, b⟩
    · rintro ⟨a, b⟩
      exact ⟨by omega, b⟩

/-- Instance of C20 (amended): after a successful initialisation of a zero-initialised
device the cached Mode register is still the zero register. -/
theorem Init_keeps_mirror_witness :
    (Single.AD779X_Init (worldOf zeroDevice [0x0B])).dev.ModeReg = zeroDevice.ModeReg :=
  (Init_keeps_mirror (worldOf zeroDevice [0x0B]) mdsContinuous).1

/-! ## C23 -/

/-- C23: when no model is detected (adNone), `AD779X_ReadDataSample16` (both files)
and `AD779X_ReadDataSample24` are not guarded: they still emit chip-select assert,
transmit 0x58, receive, receive, chip-select deassert, taking exactly two bytes from
the bus, and return 0 whatever the two bytes are. -/
theorem ReadDataSample_adNone (acc : World → Nat × World)
    (himpl : acc = Single.AD779X_ReadDataSample16 ∨ acc = Single.AD779X_ReadDataSample24 ∨
      acc = Multiple.AD779X_ReadDataSample16)
    (w : World) (b1 b0 : Nat) (hm : w.dev.Model = tAD779X_Model.adNone)
    (h1 : w.rx 0 = b1) (h0 : w.rx 1 = b0) (hb1 : b1 < 256) (hb0 : b0 < 256) :
    (acc w).2.trace =
      w.trace ++ [BusEvent.CSControl cssEnable, BusEvent.TxByte 0x58, BusEvent.RxByte b1,
        BusEvent.RxByte b0, BusEvent.CSControl cssDisable] ∧
    (acc w).2.rx = (fun n => w.rx (n + 2)) ∧
    (acc w).1 = 0 ∧
    (acc w).2.dev = w.dev := by
  subst h1
  subst h0
  have e1 : w.rx 0 % 256 = w.rx 0 := Nat.mod_eq_of_lt hb1
  have e0 : w.rx 1 % 256 = w.rx 1 := Nat.mod_eq_of_lt hb0
  rcases himpl with h | h | h
  · subst h
    simp [Single.AD779X_ReadDataSample16, RxByte, TxByte, CSControl, hm, e1, e0,
      RDR_DATA_val, cssEnable, cssDisable]
  · subst h
    simp [Single.AD779X_ReadDataSample24, RxByte, TxByte, CSControl, hm, e1, e0,
      RDR_DATA_val, cssEnable, cssDisable]
  · subst h
    simp [Multiple.AD779X_ReadDataSample16, RxByte, TxByte, CSControl, hm, e1, e0,
      RDR_DATA_val, cssEnable, cssDisable]

/-- Instance of C23: after a failed probe (model adNone, state susNoHW) the 24-bit
accessor consumes 0xAB, 0xCD and returns 0. -/
theorem ReadDataSample_adNone_witness :
    (Single.AD779X_ReadDataSample24
      (worldOf (deviceOf tAD779X_Model.adNone tAD779X_StartUpState.susNoHW)
        [0xAB, 0xCD])).1 = 0 :=
  (ReadDataSample_adNone Single.AD779X_ReadDataSample24 (Or.inr (Or.inl rfl))
    (worldOf (deviceOf tAD779X_Model.adNone tAD779X_StartUpState.susNoHW) [0xAB, 0xCD])
    0xAB 0xCD rfl rfl rfl (by decide) (by decide)).2.2.1

/-! ## C24 -/

/-- C24 as stated fails: `AD779X_COMM_CMACK` (0x7C) has three clear bit positions
among the 8 bits of a command byte (7, 1 and 0), not two; masking 0xFF changes three
positions, 0xFF xor 0x7C = 0x83, and only five bits pass through. -/
theorem COMM_CMACK_clears_three_bits :
    ((List.range 8).filter (fun i => !AD779X_COMM_CMACK.testBit i)) = [0, 1, 7] ∧
    ((List.range 8).filter (fun i => !AD779X_COMM_CMACK.testBit i)).length ≠ 2 ∧
    (0xFF &&& AD779X_COMM_CMACK) ^^^ 0xFF = 0x83 ∧
    ((List.range 8).filter
      (fun i => (0xFF &&& AD779X_COMM_CMACK).testBit i != (0xFF : Nat).testBit i)).length = 3 ∧
    ((List.range 8).filter (fun i => AD779X_COMM_CMACK.testBit i)).length ≠ 6 := by
  decide

/-- Bitwise description of masking a byte with `AD779X_COMM_CMACK`. -/
theorem COMM_CMACK_bits (x : Nat) (i : Nat) :
    (x &&& AD779X_COMM_CMACK).testBit i = (x.testBit i && decide (2 ≤ i ∧ i ≤ 6)) := by
  have e : AD779X_COMM_CMACK = (2 ^ 5 - 1) <<< 2 := by decide
  rw [Nat.testBit_and, e, Nat.testBit_shiftLeft, Nat.testBit_two_pow_sub_one]
  by_cases h2 : 2 ≤ i
  · by_cases h6 : i ≤ 6
    · have : i - 2 < 5 := by omega
      simp [h2, h6, this]
    · have : ¬ i - 2 < 5 := by omega
      simp [h2, h6, this]
  · simp [h2]

/-- C24 (amended): the communications mask `AD779X_COMM_CMACK` zeroes exactly three
bit positions of the 8-bit command byte, bits 7, 1 and 0: for every byte `x`,
`x & mask` has these three bits clear, and the other five bits (6..2) pass through
unchanged, so `x & mask` differs from `x` in at most those three positions. -/
theorem COMM_CMACK_effect (x : Nat) (hx : x < 256) :
    ((List.range 8).filter (fun i => !AD779X_COMM_CMACK.testBit i)) = [0, 1, 7] ∧
    (x &&& AD779X_COMM_CMACK).testBit 7 = false ∧
    (x &&& AD779X_COMM_CMACK).testBit 1 = false ∧
    (x &&& AD779X_COMM_CMACK).testBit 0 = false ∧
    (∀ i : Nat, 2 ≤ i → i ≤ 6 → (x &&& AD779X_COMM_CMACK).testBit i = x.testBit i) ∧
    (∀ i : Nat, (x &&& AD779X_COMM_CMACK).testBit i ≠ x.testBit i → i = 0 ∨ i = 1 ∨ i = 7) ∧
    x &&& AD779X_COMM_CMACK < 256 := by
  refine ⟨by decide, ?_, ?_, ?_, ?_, ?_, ?_⟩
  · rw [COMM_CMACK_bits]; simp
  · rw [COMM_CMACK_bits]; simp
  · rw [COMM_CMACK_bits]; simp
  · intro i h2 h6
    rw [COMM_CMACK_bits]; simp [h2, h6]
  · intro i hne
    rw [COMM_CMACK_bits] at hne
    by_cases h2 : 2 ≤ i
    · by_cases h6 : i ≤ 6
      · simp [h2, h6] at hne
      · have h8 : ¬ i < 8 → x.testBit i = false := by
          intro h
          have hle : 2 ^ 8 ≤ 2 ^ i := Nat.pow_le_pow_right (by decide) (by omega)
          exact Nat.testBit_lt_two_pow (Nat.lt_of_lt_of_le hx hle)
        by_cases h7 : i = 7
        · exact Or.inr (Or.inr h7)
        · have hf := h8 (by omega)
          simp [hf] at hne
    · have : i = 0 ∨ i = 1 := by omega
      rcases this with h | h
      · exact Or.inl h
      · exact Or.inr (Or.inl h)
  · exact Nat.lt_of_le_of_lt Nat.and_le_left hx

/-- Instance of C24 (amended): masking 0xFF leaves 0x7C. -/
theorem COMM_CMACK_effect_witness :
    (0xFF &&& AD779X_COMM_CMACK).testBit 7 = false ∧
    (0xFF &&& AD779X_COMM_CMACK).testBit 6 = (0xFF : Nat).testBit 6 :=
  ⟨(COMM_CMACK_effect 0xFF (by decide)).2.1,
    (COMM_CMACK_effect 0xFF (by decide)).2.2.2.2.1 6 (by decide) (by decide)⟩

/-! ## C25 -/

/-- C25: for every state and every byte stream, the value returned by
`AD779X_ReadDataSample16` equals the value `AD779X_ReadDataSample24` returns on the
same bytes shifted right by 8 bits (for the ad7792, the ad7793 and also when no model
is detected); for the ad7792 receiving `b1, b0`, `AD779X_ReadDataSample24` returns
`(b1 * 256 + b0) * 256`, the 16-bit sample left-aligned in 24 bits. -/
theorem ReadDataSample_alignment (w : World) (b1 b0 : Nat)
    (h1 : w.rx 0 = b1) (h0 : w.rx 1 = b0) (hb1 : b1 < 256) (hb0 : b0 < 256) :
    (Single.AD779X_ReadDataSample16 w).1 = (Single.AD779X_ReadDataSample24 w).1 >>> 8 ∧
    (w.dev.Model = tAD779X_Model.ad7792 →
      (Single.AD779X_ReadDataSample24 w).1 = (b1 * 256 + b0) * 256 ∧
      (Single.AD779X_ReadDataSample16 w).1 = b1 * 256 + b0 ∧
      (Single.AD779X_ReadDataSample24 w).1 < 2 ^ 24) ∧
    (Single.AD779X_ReadDataSample16 w).2.trace = (Single.AD779X_ReadDataSample24 w).2.trace := by
  subst h1
  subst h0
  have e1 : w.rx 0 % 256 = w.rx 0 := Nat.mod_eq_of_lt hb1
  have e0 : w.rx 1 % 256 = w.rx 1 := Nat.mod_eq_of_lt hb0
  have hb2 : w.rx 2 % 256 < 256 := Nat.mod_lt _ (by decide)
  have hv : ((w.rx 0 <<< 8) ||| w.rx 1) % 65536 = w.rx 0 * 256 + w.rx 1 := by
    rw [shl_8_or _ _ hb0]; omega
  have hv32 : ((w.rx 0 <<< 8) ||| w.rx 1) % 4294967296 = w.rx 0 * 256 + w.rx 1 := by
    rw [shl_8_or _ _ hb0]; omega
  have hs : ((w.rx 0 * 256 + w.rx 1) <<< 8) % 4294967296 = (w.rx 0 * 256 + w.rx 1) * 256 := by
    rw [Nat.shiftLeft_eq]; omega
  have hw : (((w.rx 0 * 256 + w.rx 1) <<< 8) ||| (w.rx 2 % 256)) % 4294967296 =
      w.rx 0 * 65536 + w.rx 1 * 256 + w.rx 2 % 256 := by
    rw [shl_8_or _ _ hb2]; omega
  cases hm : w.dev.Model with
  | adNone =>
    refine ⟨?_, ?_, ?_⟩
    · simp [Single.AD779X_ReadDataSample16, Single.AD779X_ReadDataSample24, RxByte, TxByte,
        CSControl, hm]
    · intro h; cases h
    · simp [Single.AD779X_ReadDataSample16, Single.AD779X_ReadDataSample24, RxByte, TxByte,
        CSControl, hm]
  | ad7792 =>
    have k16 : (Single.AD779X_ReadDataSample16 w).1 = w.rx 0 * 256 + w.rx 1 := by
      simp [Single.AD779X_ReadDataSample16, RxByte, TxByte, CSControl, hm, e1, e0, hv]
    have k24 : (Single.AD779X_ReadDataSample24 w).1 = (w.rx 0 * 256 + w.rx 1) * 256 := by
      simp [Single.AD779X_ReadDataSample24, RxByte, TxByte, CSControl, hm, e1, e0, hv32, hs]
    refine ⟨?_, ?_, ?_⟩
    · rw [k16, k24, Nat.shiftRight_eq_div_pow]; omega
    · intro _
      refine ⟨k24, k16, ?_⟩
      rw [k24]; omega
    · simp [Single.AD779X_ReadDataSample16, Single.AD779X_ReadDataSample24, RxByte, TxByte,
        CSControl, hm]
  | ad7793 =>
    have k16 : (Single.AD779X_ReadDataSample16 w).1 = w.rx 0 * 256 + w.rx 1 := by
      simp [Single.AD779X_ReadDataSample16, RxByte, TxByte, CSControl, hm, e1, e0, hv]
    have k24 : (Single.AD779X_ReadDataSample24 w).1 =
        w.rx 0 * 65536 + w.rx 1 * 256 + w.rx 2 % 256 := by
      simp [Single.AD779X_ReadDataSample24, RxByte, TxByte, CSControl, hm, e1, e0, hv32, hw]
    refine ⟨?_, ?_, ?_⟩
    · rw [k16, k24, Nat.shiftRight_eq_div_pow]; omega
    · intro h; cases h
    · simp [Single.AD779X_ReadDataSample16, Single.AD779X_ReadDataSample24, RxByte, TxByte,
        CSControl, hm]

/-- Instance of C25: an ad7792 delivering 0x12, 0x34 gives 0x1234 from the 16-bit
accessor and 0x123400 from the 24-bit accessor. -/
theorem ReadDataSample_alignment_witness :
    (Single.AD779X_ReadDataSample24
      (worldOf (deviceOf tAD779X_Model.ad7792 tAD779X_StartUpState.susActivate)
        [0x12, 0x34])).1 = (0x12 * 256 + 0x34) * 256 :=
  ((ReadDataSample_alignment
    (worldOf (deviceOf tAD779X_Model.ad7792 tAD779X_StartUpState.susActivate) [0x12, 0x34])
    0x12 0x34 rfl rfl (by decide) (by decide)).2.1 rfl).1

/-! ## C26 -/

/-- C26: in the multi-device file, `AD779X_ReadDataSample` (dispatching to
`AD779X_ReadDataRegister16`, or to `AD779X_ReadDataRegister24` shifted right by 8) and
`AD779X_ReadDataSample16` return the same value, below `2 ^ 16`, for every model
(adNone included) and every byte stream; when the model is ad7792 or ad7793 they also
emit the same bus trace, consume the same bytes and leave the same device. -/
theorem ReadDataSample_dispatch_agrees (w : World) (x0 x1 : Nat)
    (h0 : w.rx 0 = x0) (h1 : w.rx 1 = x1) (hx0 : x0 < 256) (hx1 : x1 < 256) :
    (Multiple.AD779X_ReadDataSample w).1 = (Multiple.AD779X_ReadDataSample16 w).1 ∧
    (Multiple.AD779X_ReadDataSample w).1 < 2 ^ 16 ∧
    (w.dev.Model ≠ tAD779X_Model.adNone →
      (Multiple.AD779X_ReadDataSample w).2.trace =
        (Multiple.AD779X_ReadDataSample16 w).2.trace ∧
      (Multiple.AD779X_ReadDataSample w).2.rx = (Multiple.AD779X_ReadDataSample16 w).2.rx ∧
      (Multiple.AD779X_ReadDataSample w).2.dev = (Multiple.AD779X_ReadDataSample16 w).2.dev) ∧
    (w.dev.Model = tAD779X_Model.adNone →
      (Multiple.AD779X_ReadDataSample w).1 = 0 ∧
      (Multiple.AD779X_ReadDataSample w).2.trace = w.trace) := by
  subst h0
  subst h1
  have e0 : w.rx 0 % 256 = w.rx 0 := Nat.mod_eq_of_lt hx0
  have e1 : w.rx 1 % 256 = w.rx 1 := Nat.mod_eq_of_lt hx1
  have hb2 : w.rx 2 % 256 < 256 := Nat.mod_lt _ (by decide)
  have hv : ((w.rx 0 <<< 8) ||| w.rx 1) % 65536 = w.rx 0 * 256 + w.rx 1 := by
    rw [shl_8_or _ _ hx1]; omega
  have hv32 : ((w.rx 0 <<< 8) ||| w.rx 1) % 4294967296 = w.rx 0 * 256 + w.rx 1 := by
    rw [shl_8_or _ _ hx1]; omega
  have hw : (((((w.rx 0 * 256 + w.rx 1) <<< 8) ||| (w.rx 2 % 256)) % 4294967296) >>> 8)
      % 65536 = w.rx 0 * 256 + w.rx 1 := by
    rw [shl_8_or _ _ hb2, Nat.shiftRight_eq_div_pow]; omega
  cases hm : w.dev.Model with
  | adNone =>
    have k : (Multiple.AD779X_ReadDataSample w).1 = 0 := by
      simp [Multiple.AD779X_ReadDataSample, hm]
    refine ⟨?_, ?_, ?_, ?_⟩
    · rw [k]
      simp [Multiple.AD779X_ReadDataSample16, RxByte, TxByte, CSControl, hm]
    · rw [k]; decide
    · intro h; exact absurd rfl h
    · intro _
      refine ⟨k, ?_⟩
      simp [Multiple.AD779X_ReadDataSample, hm]
  | ad7792 =>
    have k : (Multiple.AD779X_ReadDataSample w).1 = w.rx 0 * 256 + w.rx 1 := by
      simp [Multiple.AD779X_ReadDataSample, Multiple.AD779X_ReadDataRegister16, RxByte,
        TxByte, CSControl, hm, e0, e1, hv]
      omega
    refine ⟨?_, ?_, ?_, ?_⟩
    · rw [k]
      simp [Multiple.AD779X_ReadDataSample16, RxByte, TxByte, CSControl, hm, e0, e1, hv]
    · rw [k]; omega
    · intro _
      simp [Multiple.AD779X_ReadDataSample, Multiple.AD779X_ReadDataRegister16,
        Multiple.AD779X_ReadDataSample16, RxByte, TxByte, CSControl, hm]
    · intro h; cases h
  | ad7793 =>
    have k : (Multiple.AD779X_ReadDataSample w).1 = w.rx 0 * 256 + w.rx 1 := by
      simp [Multiple.AD779X_ReadDataSample, Multiple.AD779X_ReadDataRegister24, RxByte,
        TxByte, CSControl, hm, e0, e1, hv32, hw]
    refine ⟨?_, ?_, ?_, ?_⟩
    · rw [k]
      simp [Multiple.AD779X_ReadDataSample16, RxByte, TxByte, CSControl, hm, e0, e1, hv]
    · rw [k]; omega
    · intro _
      simp [Multiple.AD779X_ReadDataSample, Multiple.AD779X_ReadDataRegister24,
        Multiple.AD779X_ReadDataSample16, RxByte, TxByte, CSControl, hm]
    · intro h; cases h

/-- Instance of C26: an ad7793 delivering 0x12, 0x34, 0x56 gives the same value from
both multi-device sample functions. -/
theorem ReadDataSample_dispatch_agrees_witness :
    (Multiple.AD779X_ReadDataSample
      (worldOf (deviceOf tAD779X_Model.ad7793 tAD779X_StartUpState.susActivate)
        [0x12, 0x34, 0x56])).1 =
    (Multiple.AD779X_ReadDataSample16
      (worldOf (deviceOf tAD779X_Model.ad7793 tAD779X_StartUpState.susActivate)
        [0x12, 0x34, 0x56])).1 :=
  (ReadDataSample_dispatch_agrees
    (worldOf (deviceOf tAD779X_Model.ad7793 tAD779X_StartUpState.susActivate)
      [0x12, 0x34, 0x56])
    0x12 0x34 rfl rfl (by decide) (by decide)).1

/-! ## C27 -/

theorem Init_implementations_agree (w : World) :
    (Multiple.AD779X_Init w).trace = (Single.AD779X_Init w).trace ∧
    (Multiple.AD779X_Init w).rx = (Single.AD779X_Init w).rx ∧
    (Multiple.AD779X_Init w).rdy = (Single.AD779X_Init w).rdy ∧
    (Multiple.AD779X_Init w).dev.Model = (Single.AD779X_Init w).dev.Model ∧
    (Multiple.AD779X_Init w).dev.SuState = (Single.AD779X_Init w).dev.SuState ∧
    (Multiple.AD779X_Init w).dev.ModeReg = (Single.AD779X_Init w).dev.ModeReg ∧
    (Multiple.AD779X_Init w).dev.IOReg = (Single.AD779X_Init w).dev.IOReg := by
  by_cases hA : (w.rx 0 % 256 % 65536) &&& 0xF = 0x0A
  · simp [Single.AD779X_Init, Single.AD779X_HWDetect, Single.AD779X_WriteModeRegister,
      Single.AD779X_WriteIORegister, Multiple.AD779X_Init, Multiple.AD779X_HWDetect,
      Multiple.AD779X_WriteModeRegister, Multiple.AD779X_WriteIORegister, RxByte, TxByte,
      CSControl, hA, tAD779X_Model.toNat, AD7792_PARTID, AD7793_PARTID]
  · by_cases hB : (w.rx 0 % 256 % 65536) &&& 0xF = 0x0B
    · simp [Single.AD779X_Init, Single.AD779X_HWDetect, Single.AD779X_WriteModeRegister,
        Single.AD779X_WriteIORegister, Multiple.AD779X_Init, Multiple.AD779X_HWDetect,
        Multiple.AD779X_WriteModeRegister, Multiple.AD779X_WriteIORegister, RxByte, TxByte,
        CSControl, hA, hB, tAD779X_Model.toNat, AD7792_PARTID, AD7793_PARTID]
    · simp [Single.AD779X_Init, Single.AD779X_HWDetect, Multiple.AD779X_Init,
        Multiple.AD779X_HWDetect, RxByte, TxByte, CSControl, hA, hB, tAD779X_Model.toNat,
        AD7792_PARTID, AD7793_PARTID]

/-- C27: started from the same state with the same input streams, the single-device
and the multi-device implementation of every shared operation produce the same
result. `AD779X_Init` of the two files ends with the same bus trace, the same
remaining inputs and the same model, start-up state and cached Mode and IO registers.
For each of the other eighteen shared operations the returned value and the whole
resulting state (device, remaining inputs, bus trace) coincide, for all arguments. -/
theorem Implementations_agree (w : World) (a : Nat) :
    ((Multiple.AD779X_Init w).trace = (Single.AD779X_Init w).trace ∧
      (Multiple.AD779X_Init w).rx = (Single.AD779X_Init w).rx ∧
      (Multiple.AD779X_Init w).rdy = (Single.AD779X_Init w).rdy ∧
      (Multiple.AD779X_Init w).dev.Model = (Single.AD779X_Init w).dev.Model ∧
      (Multiple.AD779X_Init w).dev.SuState = (Single.AD779X_Init w).dev.SuState ∧
      (Multiple.AD779X_Init w).dev.ModeReg = (Single.AD779X_Init w).dev.ModeReg ∧
      (Multiple.AD779X_Init w).dev.IOReg = (Single.AD779X_Init w).dev.IOReg) ∧
    Multiple.AD779X_Reset w = Single.AD779X_Reset w ∧
    Multiple.AD779X_WriteModeRegister a w = Single.AD779X_WriteModeRegister a w ∧
    Multiple.AD779X_WriteConfigRegister a w = Single.AD779X_WriteConfigRegister a w ∧
    Multiple.AD779X_WriteIORegister a w = Single.AD779X_WriteIORegister a w ∧
    Multiple.AD779X_HWDetect w = Single.AD779X_HWDetect w ∧
    Multiple.AD779X_GetStatus w = Single.AD779X_GetStatus w ∧
    Multiple.AD779X_CheckReadySW w = Single.AD779X_CheckReadySW w ∧
    Multiple.AD779X_CheckReadyHW w = Single.AD779X_CheckReadyHW w ∧
    Multiple.AD779X_SetMode a w = Single.AD779X_SetMode a w ∧
    Multiple.AD779X_SetClkSource a w = Single.AD779X_SetClkSource a w ∧
    Multiple.AD779X_SetUpdateRate a w = Single.AD779X_SetUpdateRate a w ∧
    Multiple.AD779X_SetExCurrentValue a w = Single.AD779X_SetExCurrentValue a w ∧
    Multiple.AD779X_SetExCurrentDirection a w = Single.AD779X_SetExCurrentDirection a w ∧
    Multiple.AD779X_StartZSCalibration w = Single.AD779X_StartZSCalibration w ∧
    Multiple.AD779X_StartFSCalibration w = Single.AD779X_StartFSCalibration w ∧
    Multiple.AD779X_ReadDataRegister16 w = Single.AD779X_ReadDataRegister16 w ∧
    Multiple.AD779X_ReadDataRegister24 w = Single.AD779X_ReadDataRegister24 w ∧
    Multiple.AD779X_ReadDataSample16 w = Single.AD779X_ReadDataSample16 w :=
  ⟨Init_implementations_agree w, rfl, rfl, rfl, rfl, rfl, rfl, rfl, rfl, rfl, rfl, rfl, rfl,
    rfl, rfl, rfl, rfl, rfl, rfl⟩

/-! ## C28 -/

/-- C28: for every state, value `v` and direction `d`, `AD779X_SetExCurrent v d` leaves
the same cached IO register as `AD779X_SetExCurrentValue v` followed by
`AD779X_SetExCurrentDirection d`, and as the two single-field setters in the opposite
order. It emits one IO-register write whose payload byte is the final cached byte;
each two-call sequence emits two IO-register writes, the second with that same payload
byte. -/
theorem SetExCurrent_combined (w : World) (v d : Nat) :
    (Single.AD779X_SetExCurrent v d w).dev.IOReg =
      (Single.AD779X_SetExCurrentDirection d (Single.AD779X_SetExCurrentValue v w)).dev.IOReg ∧
    (Single.AD779X_SetExCurrent v d w).dev.IOReg =
      (Single.AD779X_SetExCurrentValue v (Single.AD779X_SetExCurrentDirection d w)).dev.IOReg ∧
    (Single.AD779X_SetExCurrent v d w).dev =
      (Single.AD779X_SetExCurrentDirection d (Single.AD779X_SetExCurrentValue v w)).dev ∧
    (Single.AD779X_SetExCurrent v d w).dev =
      (Single.AD779X_SetExCurrentValue v (Single.AD779X_SetExCurrentDirection d w)).dev ∧
    (Single.AD779X_SetExCurrent v d w).trace =
      w.trace ++ [BusEvent.CSControl cssEnable, BusEvent.TxByte 0x28,
        BusEvent.TxByte (Single.AD779X_SetExCurrent v d w).dev.IOReg.DATA,
        BusEvent.CSControl cssDisable] ∧
    (Single.AD779X_SetExCurrentDirection d (Single.AD779X_SetExCurrentValue v w)).trace =
      w.trace ++ [BusEvent.CSControl cssEnable, BusEvent.TxByte 0x28,
        BusEvent.TxByte (Single.AD779X_SetExCurrentValue v w).dev.IOReg.DATA,
        BusEvent.CSControl cssDisable,
        BusEvent.CSControl cssEnable, BusEvent.TxByte 0x28,
        BusEvent.TxByte (Single.AD779X_SetExCurrent v d w).dev.IOReg.DATA,
        BusEvent.CSControl cssDisable] ∧
    (Single.AD779X_SetExCurrentValue v (Single.AD779X_SetExCurrentDirection d w)).trace =
      w.trace ++ [BusEvent.CSControl cssEnable, BusEvent.TxByte 0x28,
        BusEvent.TxByte (Single.AD779X_SetExCurrentDirection d w).dev.IOReg.DATA,
        BusEvent.CSControl cssDisable,
        BusEvent.CSControl cssEnable, BusEvent.TxByte 0x28,
        BusEvent.TxByte (Single.AD779X_SetExCurrent v d w).dev.IOReg.DATA,
        BusEvent.CSControl cssDisable] := by
  rw [Single_SetExCurrentDirection_eq d (Single.AD779X_SetExCurrentValue v w),
    Single_SetExCurrentValue_eq v (Single.AD779X_SetExCurrentDirection d w),
    Single_SetExCurrent_eq, Single_SetExCurrentValue_eq, Single_SetExCurrentDirection_eq]
  refine ⟨rfl, rfl, rfl, rfl, rfl, ?_, ?_⟩
  · simp only [List.append_assoc, List.cons_append, List.nil_append]
  · simp only [List.append_assoc, List.cons_append, List.nil_append]
    rfl

/-! ## C21 -/

theorem emitted_append (w w2 : World) (ev : List BusEvent) (h : w2.trace = w.trace ++ ev) :
    emitted w w2 = ev := by
  unfold emitted
  rw [h, List.drop_left]

/-- Bracketing of the events of a step whose trace equation is known. -/
theorem bracketed_of_trace (w w2 : World) (ev : List BusEvent)
    (h : w2.trace = w.trace ++ ev) (hb : csBracketed false ev = true) (hne : ev ≠ []) :
    w2.trace = w.trace ++ emitted w w2 ∧ csBracketed false (emitted w w2) = true ∧
      emitted w w2 ≠ [] := by
  rw [emitted_append w w2 ev h]
  exact ⟨h, hb, hne⟩

theorem bracketed_of_exists (w w2 : World)
    (h : ∃ ev, w2.trace = w.trace ++ ev ∧ csBracketed false ev = true ∧ ev ≠ []) :
    w2.trace = w.trace ++ emitted w w2 ∧ csBracketed false (emitted w w2) = true ∧
      emitted w w2 ≠ [] := by
  obtain ⟨ev, h1, h2, h3⟩ := h
  exact bracketed_of_trace w w2 ev h1 h2 h3

theorem gModeReg_payload : (16394 &&& 255) % 256 = 10 ∧ (16394 >>> 8) % 256 = 64 := by
  decide

theorem Single_Init_bracketed (w : World) :
    (Single.AD779X_Init w).trace = w.trace ++ emitted w (Single.AD779X_Init w) ∧
    csBracketed false (emitted w (Single.AD779X_Init w)) = true ∧
    emitted w (Single.AD779X_Init w) ≠ [] := by
  by_cases hA : (w.rx 0 % 256 % 65536) &&& 0xF = 0x0A
  · apply bracketed_of_trace w _
      [BusEvent.CSControl 1, BusEvent.TxByte 0x60, BusEvent.RxByte (w.rx 0 % 256),
        BusEvent.CSControl 0, BusEvent.CSControl 1, BusEvent.TxByte 0x08, BusEvent.TxByte 0x40,
        BusEvent.TxByte 0x0A, BusEvent.CSControl 0, BusEvent.CSControl 1, BusEvent.TxByte 0x28,
        BusEvent.TxByte 0x00, BusEvent.CSControl 0]
    · simp [Single.AD779X_Init, Single.AD779X_HWDetect, Single.AD779X_WriteModeRegister,
        Single.AD779X_WriteIORegister, RxByte, TxByte, CSControl, hA, tAD779X_Model.toNat,
        AD7792_PARTID, AD7793_PARTID, RDR_ID_val, WRR_MODE_val, WRR_IO_val, gModeReg_DATA,
        gIOReg_DATA, cssEnable, cssDisable, gModeReg_payload]
    · simp [csBracketed, cssEnable, cssDisable]
    · simp
  · by_cases hB : (w.rx 0 % 256 % 65536) &&& 0xF = 0x0B
    · apply bracketed_of_trace w _
        [BusEvent.CSControl 1, BusEvent.TxByte 0x60, BusEvent.RxByte (w.rx 0 % 256),
          BusEvent.CSControl 0, BusEvent.CSControl 1, BusEvent.TxByte 0x08,
          BusEvent.TxByte 0x40, BusEvent.TxByte 0x0A, BusEvent.CSControl 0,
          BusEvent.CSControl 1, BusEvent.TxByte 0x28, BusEvent.TxByte 0x00,
          BusEvent.CSControl 0]
      · simp [Single.AD779X_Init, Single.AD779X_HWDetect, Single.AD779X_WriteModeRegister,
          Single.AD779X_WriteIORegister, RxByte, TxByte, CSControl, hA, hB,
          tAD779X_Model.toNat, AD7792_PARTID, AD7793_PARTID, RDR_ID_val, WRR_MODE_val,
          WRR_IO_val, gModeReg_DATA, gIOReg_DATA, cssEnable, cssDisable, gModeReg_payload]
      · simp [csBracketed, cssEnable, cssDisable]
      · simp
    · apply bracketed_of_trace w _
        [BusEvent.CSControl 1, BusEvent.TxByte 0x60, BusEvent.RxByte (w.rx 0 % 256),
          BusEvent.CSControl 0]
      · simp [Single.AD779X_Init, Single.AD779X_HWDetect, RxByte, TxByte, CSControl, hA, hB,
          tAD779X_Model.toNat, AD7792_PARTID, AD7793_PARTID, RDR_ID_val, cssEnable,
          cssDisable]
      · simp [csBracketed, cssEnable, cssDisable]
      · simp

theorem Single_HWDetect_trace (w : World) :
    (Single.AD779X_HWDetect w).2.trace =
      w.trace ++ [BusEvent.CSControl 1, BusEvent.TxByte 0x60, BusEvent.RxByte (w.rx 0 % 256),
        BusEvent.CSControl 0] := by
  simp only [Single.AD779X_HWDetect, RxByte, TxByte, CSControl, RDR_ID_val, cssEnable,
    cssDisable]
  split <;> [skip; split] <;> simp

theorem Single_ReadDataSample16_bracketed (w : World) :
    (Single.AD779X_ReadDataSample16 w).2.trace =
      w.trace ++ emitted w (Single.AD779X_ReadDataSample16 w).2 ∧
    csBracketed false (emitted w (Single.AD779X_ReadDataSample16 w).2) = true ∧
    emitted w (Single.AD779X_ReadDataSample16 w).2 ≠ [] := by
  by_cases hm : w.dev.Model = tAD779X_Model.ad7793
  · apply bracketed_of_trace w _
      [BusEvent.CSControl 1, BusEvent.TxByte 0x58, BusEvent.RxByte (w.rx 0 % 256),
        BusEvent.RxByte (w.rx 1 % 256), BusEvent.RxByte (w.rx 2 % 256), BusEvent.CSControl 0]
    · simp [Single.AD779X_ReadDataSample16, RxByte, TxByte, CSControl, hm, RDR_DATA_val,
        cssEnable, cssDisable]
    · simp [csBracketed, cssEnable, cssDisable]
    · simp
  · apply bracketed_of_trace w _
      [BusEvent.CSControl 1, BusEvent.TxByte 0x58, BusEvent.RxByte (w.rx 0 % 256),
        BusEvent.RxByte (w.rx 1 % 256), BusEvent.CSControl 0]
    · simp [Single.AD779X_ReadDataSample16, RxByte, TxByte, CSControl, hm, RDR_DATA_val,
        cssEnable, cssDisable]
    · simp [csBracketed, cssEnable, cssDisable]
    · simp

theorem Single_ReadDataSample24_bracketed (w : World) :
    (Single.AD779X_ReadDataSample24 w).2.trace =
      w.trace ++ emitted w (Single.AD779X_ReadDataSample24 w).2 ∧
    csBracketed false (emitted w (Single.AD779X_ReadDataSample24 w).2) = true ∧
    emitted w (Single.AD779X_ReadDataSample24 w).2 ≠ [] := by
  by_cases hm : w.dev.Model = tAD779X_Model.ad7793
  · apply bracketed_of_trace w _
      [BusEvent.CSControl 1, BusEvent.TxByte 0x58, BusEvent.RxByte (w.rx 0 % 256),
        BusEvent.RxByte (w.rx 1 % 256), BusEvent.RxByte (w.rx 2 % 256), BusEvent.CSControl 0]
    · simp [Single.AD779X_ReadDataSample24, RxByte, TxByte, CSControl, hm, RDR_DATA_val,
        cssEnable, cssDisable]
    · simp [csBracketed, cssEnable, cssDisable]
    · simp
  · apply bracketed_of_trace w _
      [BusEvent.CSControl 1, BusEvent.TxByte 0x58, BusEvent.RxByte (w.rx 0 % 256),
        BusEvent.RxByte (w.rx 1 % 256), BusEvent.CSControl 0]
    · simp [Single.AD779X_ReadDataSample24, RxByte, TxByte, CSControl, hm, RDR_DATA_val,
        cssEnable, cssDisable]
    · simp [csBracketed, cssEnable, cssDisable]
    · simp

/-- Bracketing for the single-device operations other than `AD779X_Init` and
`AD779X_HWDetect`. -/
theorem Single_operations_bracketed (a b : Nat) (w : World) (op : World → World)
    (hop : op ∈ Single.operations a b) :
    (op w).trace = w.trace ++ emitted w (op w) ∧
    csBracketed false (emitted w (op w)) = true ∧ emitted w (op w) ≠ [] := by
  simp only [Single.operations, List.mem_cons, List.mem_singleton, List.not_mem_nil,
    or_false] at hop
  rcases hop with h | h | h | h | h | h | h | h | h | h | h | h | h | h | h | h | h | h | h |
    h | h | h | h
  all_goals subst h
  case inr.inr.inr.inr.inr.inr.inr.inr.inr.inr.inr.inr.inr.inr.inr.inr.inr.inr.inr.inr.inr.inl =>
    exact Single_ReadDataSample16_bracketed w
  case inr.inr.inr.inr.inr.inr.inr.inr.inr.inr.inr.inr.inr.inr.inr.inr.inr.inr.inr.inr.inr.inr =>
    exact Single_ReadDataSample24_bracketed w
  all_goals
    apply bracketed_of_exists
    simp [Single.AD779X_Reset, Single.AD779X_WriteModeRegister,
      Single.AD779X_WriteConfigRegister, Single.AD779X_WriteIORegister,
      Single.AD779X_GetStatus, Single.AD779X_CheckReadySW, Single.AD779X_CheckReadyHW,
      Single.AD779X_SetMode, Single.AD779X_SetClkSource, Single.AD779X_SetUpdateRate,
      Single.AD779X_SetExCurrentValue, Single.AD779X_SetExCurrentDirection,
      Single.AD779X_SetExCurrent, Single.AD779X_StartZSCalibration,
      Single.AD779X_StartFSCalibration, Single.AD779X_ReadOffsetRegister16,
      Single.AD779X_ReadOffsetRegister24, Single.AD779X_ReadFScaleRegister16,
      Single.AD779X_ReadFScaleRegister24, Single.AD779X_ReadDataRegister16,
      Single.AD779X_ReadDataRegister24, RxByte, TxByte, CSControl, RDYState, cssEnable,
      cssDisable, csBracketed]

theorem Multiple_Init_bracketed (w : World) :
    (Multiple.AD779X_Init w).trace = w.trace ++ emitted w (Multiple.AD779X_Init w) ∧
    csBracketed false (emitted w (Multiple.AD779X_Init w)) = true ∧
    emitted w (Multiple.AD779X_Init w) ≠ [] := by
  obtain ⟨h1, h2, h3⟩ := Single_Init_bracketed w
  have ht := (Init_implementations_agree w).1
  have he : emitted w (Multiple.AD779X_Init w) = emitted w (Single.AD779X_Init w) := by
    unfold emitted
    rw [ht]
  rw [he, ht]
  exact ⟨h1, h2, h3⟩

theorem HWDetect_bracketed (w : World) :
    (Single.AD779X_HWDetect w).2.trace = w.trace ++ emitted w (Single.AD779X_HWDetect w).2 ∧
    csBracketed false (emitted w (Single.AD779X_HWDetect w).2) = true ∧
    emitted w (Single.AD779X_HWDetect w).2 ≠ [] := by
  apply bracketed_of_trace w _ _ (Single_HWDetect_trace w)
  · simp [csBracketed, cssEnable, cssDisable]
  · simp

theorem Multiple_ReadDataSample_bracketed (w : World) :
    (Multiple.AD779X_ReadDataSample w).2.trace =
      w.trace ++ emitted w (Multiple.AD779X_ReadDataSample w).2 ∧
    csBracketed false (emitted w (Multiple.AD779X_ReadDataSample w).2) = true ∧
    (w.dev.Model ≠ tAD779X_Model.adNone →
      emitted w (Multiple.AD779X_ReadDataSample w).2 ≠ []) := by
  cases hm : w.dev.Model with
  | adNone =>
    have ht : (Multiple.AD779X_ReadDataSample w).2.trace = w.trace ++ [] := by
      simp [Multiple.AD779X_ReadDataSample, hm]
    rw [emitted_append w _ [] ht]
    exact ⟨ht, rfl, fun h => absurd rfl h⟩
  | ad7792 =>
    have h := bracketed_of_exists w (Multiple.AD779X_ReadDataSample w).2 (by
      simp [Multiple.AD779X_ReadDataSample, Multiple.AD779X_ReadDataRegister16, RxByte,
        TxByte, CSControl, hm, cssEnable, cssDisable, csBracketed])
    exact ⟨h.1, h.2.1, fun _ => h.2.2⟩
  | ad7793 =>
    have h := bracketed_of_exists w (Multiple.AD779X_ReadDataSample w).2 (by
      simp [Multiple.AD779X_ReadDataSample, Multiple.AD779X_ReadDataRegister24, RxByte,
        TxByte, CSControl, hm, cssEnable, cssDisable, csBracketed])
    exact ⟨h.1, h.2.1, fun _ => h.2.2⟩

/-- Bracketing for the multi-device operations other than `AD779X_Init` and
`AD779X_HWDetect`. -/
theorem Multiple_operations_bracketed (a : Nat) (w : World) (op : World → World)
    (hop : op ∈ Multiple.operations a) :
    (op w).trace = w.trace ++ emitted w (op w) ∧
    csBracketed false (emitted w (op w)) = true ∧
    (w.dev.Model ≠ tAD779X_Model.adNone → emitted w (op w) ≠ []) := by
  simp only [Multiple.operations, List.mem_cons, List.mem_singleton, List.not_mem_nil,
    or_false] at hop
  rcases hop with h | h | h | h | h | h | h | h | h | h | h | h | h | h | h | h | h | h
  all_goals subst h
  case inr.inr.inr.inr.inr.inr.inr.inr.inr.inr.inr.inr.inr.inr.inr.inr.inl =>
    exact Multiple_ReadDataSample_bracketed w
  case inr.inr.inr.inr.inr.inr.inr.inr.inr.inr.inr.inr.inr.inr.inr.inr.inr =>
    have h := Single_ReadDataSample16_bracketed w
    exact ⟨h.1, h.2.1, fun _ => h.2.2⟩
  all_goals
    refine (fun h => ⟨h.1, h.2.1, fun _ => h.2.2⟩) (bracketed_of_exists w _ ?_)
    simp [Multiple.AD779X_Reset, Multiple.AD779X_WriteModeRegister,
      Multiple.AD779X_WriteConfigRegister, Multiple.AD779X_WriteIORegister,
      Multiple.AD779X_GetStatus, Multiple.AD779X_CheckReadySW, Multiple.AD779X_CheckReadyHW,
      Multiple.AD779X_SetMode, Multiple.AD779X_SetClkSource, Multiple.AD779X_SetUpdateRate,
      Multiple.AD779X_SetExCurrentValue, Multiple.AD779X_SetExCurrentDirection,
      Multiple.AD779X_StartZSCalibration, Multiple.AD779X_StartFSCalibration,
      Multiple.AD779X_ReadDataRegister16, Multiple.AD779X_ReadDataRegister24, RxByte, TxByte,
      CSControl, RDYState, cssEnable, cssDisable, csBracketed]

/-- A bracketed, non-empty event sequence starts with a chip-select assert. -/
theorem csBracketed_head (ev : List BusEvent) (h : csBracketed false ev = true)
    (hne : ev ≠ []) : ev.head? = some (BusEvent.CSControl cssEnable) := by
  cases ev with
  | nil => exact absurd rfl hne
  | cons e t =>
    cases e with
    | CSControl s =>
      simp only [csBracketed, Bool.and_eq_true, beq_iff_eq] at h
      simp [h.1]
    | TxByte d => simp [csBracketed] at h
    | RxByte d => simp [csBracketed] at h
    | RDYState d => simp [csBracketed] at h

/-- A bracketed, non-empty event sequence ends with a chip-select deassert. -/
theorem csBracketed_last (ev : List BusEvent) :
    ∀ sel : Bool, csBracketed sel ev = true → ev ≠ [] →
      ev.getLast? = some (BusEvent.CSControl cssDisable) := by
  induction ev with
  | nil => intro sel _ hne; exact absurd rfl hne
  | cons e t ih =>
    intro sel h _
    cases t with
    | nil =>
      cases sel <;> cases e <;> simp [csBracketed] at h ⊢
      exact h
    | cons e2 t2 =>
      have hne2 : e2 :: t2 ≠ [] := by simp
      rw [List.getLast?_cons_cons]
      cases sel <;> cases e <;> simp only [csBracketed, Bool.and_eq_true] at h
      · exact ih true h.2 hne2
      · exact absurd h (by simp)
      · exact absurd h (by simp)
      · exact absurd h (by simp)
      · exact ih false h.2 hne2
      · exact ih true h hne2
      · exact ih true h hne2
      · exact ih true h hne2

/-- C21: for every function of either implementation, every state, every argument
and every input stream, the events the call appends to the bus trace are
chip-select bracketed: asserts and deasserts alternate, beginning with an assert and
ending with a deassert, and every transmit, receive and ready read lies between an
assert and the following deassert. Every call emits at least one bracket, except the
multi-device `AD779X_ReadDataSample` with no model detected, which emits nothing. -/
theorem Chip_select_bracketing (a b : Nat) (w : World) (op : World → World)
    (hop : op ∈ Single.allOperations a b ∨ op ∈ Multiple.allOperations a) :
    (op w).trace = w.trace ++ emitted w (op w) ∧
    csBracketed false (emitted w (op w)) = true ∧
    (emitted w (op w) ≠ [] →
      (emitted w (op w)).head? = some (BusEvent.CSControl cssEnable) ∧
      (emitted w (op w)).getLast? = some (BusEvent.CSControl cssDisable)) ∧
    (op ∈ Single.allOperations a b → emitted w (op w) ≠ []) ∧
    (w.dev.Model ≠ tAD779X_Model.adNone → emitted w (op w) ≠ []) := by
  have key : (op w).trace = w.trace ++ emitted w (op w) ∧
      csBracketed false (emitted w (op w)) = true ∧
      (op ∈ Single.allOperations a b → emitted w (op w) ≠ []) ∧
      (w.dev.Model ≠ tAD779X_Model.adNone → emitted w (op w) ≠ []) := by
    rcases hop with hs | hm
    · have h : (op w).trace = w.trace ++ emitted w (op w) ∧
          csBracketed false (emitted w (op w)) = true ∧ emitted w (op w) ≠ [] := by
        simp only [Single.allOperations, List.mem_cons] at hs
        rcases hs with h | h | h
        · subst h; exact Single_Init_bracketed w
        · subst h; exact HWDetect_bracketed w
        · exact Single_operations_bracketed a b w op h
      exact ⟨h.1, h.2.1, fun _ => h.2.2, fun _ => h.2.2⟩
    · have h : (op w).trace = w.trace ++ emitted w (op w) ∧
          csBracketed false (emitted w (op w)) = true ∧
          (w.dev.Model ≠ tAD779X_Model.adNone → emitted w (op w) ≠ []) := by
        simp only [Multiple.allOperations, List.mem_cons] at hm
        rcases hm with h | h | h
        · subst h
          have h := Multiple_Init_bracketed w
          exact ⟨h.1, h.2.1, fun _ => h.2.2⟩
        · subst h
          have h := HWDetect_bracketed w
          exact ⟨h.1, h.2.1, fun _ => h.2.2⟩
        · exact Multiple_operations_bracketed a w op h
      refine ⟨h.1, h.2.1, ?_, h.2.2⟩
      intro hs
      have h' : (op w).trace = w.trace ++ emitted w (op w) ∧
          csBracketed false (emitted w (op w)) = true ∧ emitted w (op w) ≠ [] := by
        simp only [Single.allOperations, List.mem_cons] at hs
        rcases hs with h | h | h
        · subst h; exact Single_Init_bracketed w
        · subst h; exact HWDetect_bracketed w
        · exact Single_operations_bracketed a b w op h
      exact h'.2.2
  exact ⟨key.1, key.2.1,
    fun hne => ⟨csBracketed_head _ key.2.1 hne, csBracketed_last _ false key.2.1 hne⟩,
    key.2.2.1, key.2.2.2⟩

/-- Instance of C21: the single-device `AD779X_Init` on a zero-initialised device with
identity byte 0x0B emits three brackets (probe, Mode write, IO write). -/
theorem Chip_select_bracketing_witness :
    csBracketed false
      (emitted (worldOf zeroDevice [0x0B]) (Single.AD779X_Init (worldOf zeroDevice [0x0B])))
      = true :=
  (Chip_select_bracketing 0 0 (worldOf zeroDevice [0x0B]) Single.AD779X_Init
    (Or.inl (List.mem_cons_self _ _))).2.1

/-! ## C22 -/

theorem Single_operations_frame (a b : Nat) (w : World) (op : World → World)
    (hop : op ∈ Single.operations a b) :
    (op w).dev.Model = w.dev.Model ∧ (op w).dev.SuState = w.dev.SuState := by
  simp only [Single.operations, List.mem_cons, List.mem_singleton, List.not_mem_nil,
    or_false] at hop
  rcases hop with h | h | h | h | h | h | h | h | h | h | h | h | h | h | h | h | h | h | h |
    h | h | h | h
  all_goals subst h
  all_goals
    by_cases hm : w.dev.Model = tAD779X_Model.ad7793 <;>
    simp [Single.AD779X_Reset, Single.AD779X_WriteModeRegister,
      Single.AD779X_WriteConfigRegister, Single.AD779X_WriteIORegister,
      Single.AD779X_GetStatus, Single.AD779X_CheckReadySW, Single.AD779X_CheckReadyHW,
      Single.AD779X_SetMode, Single.AD779X_SetClkSource, Single.AD779X_SetUpdateRate,
      Single.AD779X_SetExCurrentValue, Single.AD779X_SetExCurrentDirection,
      Single.AD779X_SetExCurrent, Single.AD779X_StartZSCalibration,
      Single.AD779X_StartFSCalibration, Single.AD779X_ReadOffsetRegister16,
      Single.AD779X_ReadOffsetRegister24, Single.AD779X_ReadFScaleRegister16,
      Single.AD779X_ReadFScaleRegister24, Single.AD779X_ReadDataRegister16,
      Single.AD779X_ReadDataRegister24, Single.AD779X_ReadDataSample16,
      Single.AD779X_ReadDataSample24, RxByte, TxByte, CSControl, RDYState, hm]

theorem Multiple_operations_frame (a : Nat) (w : World) (op : World → World)
    (hop : op ∈ Multiple.operations a) :
    (op w).dev.Model = w.dev.Model ∧ (op w).dev.SuState = w.dev.SuState := by
  simp only [Multiple.operations, List.mem_cons, List.mem_singleton, List.not_mem_nil,
    or_false] at hop
  rcases hop with h | h | h | h | h | h | h | h | h | h | h | h | h | h | h | h | h | h
  all_goals subst h
  all_goals
    cases hm : w.dev.Model <;>
    simp [Multiple.AD779X_Reset, Multiple.AD779X_WriteModeRegister,
      Multiple.AD779X_WriteConfigRegister, Multiple.AD779X_WriteIORegister,
      Multiple.AD779X_GetStatus, Multiple.AD779X_CheckReadySW, Multiple.AD779X_CheckReadyHW,
      Multiple.AD779X_SetMode, Multiple.AD779X_SetClkSource, Multiple.AD779X_SetUpdateRate,
      Multiple.AD779X_SetExCurrentValue, Multiple.AD779X_SetExCurrentDirection,
      Multiple.AD779X_StartZSCalibration, Multiple.AD779X_StartFSCalibration,
      Multiple.AD779X_ReadDataRegister16, Multiple.AD779X_ReadDataRegister24,
      Multiple.AD779X_ReadDataSample, Multiple.AD779X_ReadDataSample16, RxByte, TxByte,
      CSControl, RDYState, hm]

/-- C22: for every function of either implementation other than `AD779X_HWDetect` and
`AD779X_Init` (reset, the `Write*` and `Set*` functions, the calibration wrappers,
status, both ready checks and every register and sample read), every state, every
argument and every input stream, the model and the start-up state after the call are
those before it. -/
theorem Model_frame (a b : Nat) (w : World) (op : World → World)
    (hop : op ∈ Single.operations a b ∨ op ∈ Multiple.operations a) :
    (op w).dev.Model = w.dev.Model ∧ (op w).dev.SuState = w.dev.SuState := by
  rcases hop with h | h
  · exact Single_operations_frame a b w op h
  · exact Multiple_operations_frame a w op h

/-- Instance of C22: a data sample read on an active ad7793 leaves model and start-up
state in place. -/
theorem Model_frame_witness :
    ((Single.AD779X_ReadDataSample24
      (worldOf (deviceOf tAD779X_Model.ad7793 tAD779X_StartUpState.susActivate)
        [1, 2, 3])).2.dev.Model = tAD779X_Model.ad7793) ∧
    ((Single.AD779X_ReadDataSample24
      (worldOf (deviceOf tAD779X_Model.ad7793 tAD779X_StartUpState.susActivate)
        [1, 2, 3])).2.dev.SuState = tAD779X_StartUpState.susActivate) :=
  Model_frame 0 0
    (worldOf (deviceOf tAD779X_Model.ad7793 tAD779X_StartUpState.susActivate) [1, 2, 3])
    (fun w => (Single.AD779X_ReadDataSample24 w).2)
    (Or.inl (by simp [Single.operations]))

/-! ## C29 -/

theorem reserved_fields_zero :
    ∀ (u0 : Fin 32) (u1 : Fin 4),
      ((u0.val * 256) ||| (u1.val * 16) = 0 ↔ u0 = 0 ∧ u1 = 0) := by
  decide

/-- The Mode register has no bit outside `AD779X_MODE_COM` exactly when both reserved
fields are zero. -/
theorem Mode_reserved_iff (r : tAD779X_ModeRegister) :
    r.DATA &&& (0xFFFF ^^^ AD779X_MODE_COM) = 0 ↔ r.UNUSED0 = 0 ∧ r.UNUSED1 = 0 := by
  have e : (0xFFFF ^^^ AD779X_MODE_COM) = ((2 ^ 5 - 1) <<< 8) ||| ((2 ^ 2 - 1) <<< 4) := by
    decide
  have hd := ModeRegister_DATA_eq r
  have h1 := r.FS.isLt
  have h2 := r.UNUSED1.isLt
  have h3 := r.CLKS.isLt
  have h4 := r.UNUSED0.isLt
  have h5 := r.MODE.isLt
  have a1 : ((r.DATA >>> 8) % 2 ^ 5) <<< 8 = r.UNUSED0.val * 256 := by
    rw [Nat.shiftLeft_eq, Nat.shiftRight_eq_div_pow]; omega
  have a2 : ((r.DATA >>> 4) % 2 ^ 2) <<< 4 = r.UNUSED1.val * 16 := by
    rw [Nat.shiftLeft_eq, Nat.shiftRight_eq_div_pow]; omega
  rw [e, Nat.and_or_distrib_left, and_shifted_mask, and_shifted_mask, a1, a2]
  exact reserved_fields_zero r.UNUSED0 r.UNUSED1

/-- The IO register has no bit outside `AD779X_IO_COM` exactly when the reserved field
is zero. -/
theorem IO_reserved_iff (r : tAD779X_IORegister) :
    r.DATA &&& (0xFF ^^^ AD779X_IO_COM) = 0 ↔ r.UNUSED = 0 := by
  have e : (0xFF ^^^ AD779X_IO_COM) = 0xF0 := by decide
  have hd := IORegister_DATA_eq r
  have h1 := r.IEXCEN.isLt
  have h2 := r.IEXCDIR.isLt
  have h3 := r.UNUSED.isLt
  rw [e, and_F0, Fin.ext_iff]
  constructor
  · intro h
    show r.UNUSED.val = 0
    omega
  · intro h
    have h' : r.UNUSED.val = 0 := h
    omega

theorem reservedClear_mode (D : Nat) (hD : D < 65536)
    (h : D &&& (0xFFFF ^^^ AD779X_MODE_COM) = 0) (t : List BusEvent) :
    reservedClear ([BusEvent.CSControl cssEnable, BusEvent.TxByte 0x08,
      BusEvent.TxByte (D >>> 8), BusEvent.TxByte (D &&& 0xFF),
      BusEvent.CSControl cssDisable] ++ t) = reservedClear t := by
  have hp := (payload_bytes D hD).1
  simp [reservedClear, cssEnable, cssDisable, hp, h]

theorem reservedClear_io (d : Nat) (h : d &&& (0xFF ^^^ AD779X_IO_COM) = 0)
    (t : List BusEvent) :
    reservedClear ([BusEvent.CSControl cssEnable, BusEvent.TxByte 0x28, BusEvent.TxByte d,
      BusEvent.CSControl cssDisable] ++ t) = reservedClear t := by
  simp [reservedClear, cssEnable, cssDisable, h]

theorem mode_write_step (w w2 : World) (r : tAD779X_ModeRegister)
    (hr : r.UNUSED0 = 0 ∧ r.UNUSED1 = 0) (hI : w.dev.IOReg.UNUSED = 0)
    (h : w2 = { w with
      dev := { w.dev with ModeReg := r },
      trace := w.trace ++ [BusEvent.CSControl cssEnable, BusEvent.TxByte 0x08,
        BusEvent.TxByte (r.DATA >>> 8), BusEvent.TxByte (r.DATA &&& 0xFF),
        BusEvent.CSControl cssDisable] }) :
    (w2.dev.ModeReg.UNUSED0 = 0 ∧ w2.dev.ModeReg.UNUSED1 = 0) ∧
    w2.dev.IOReg.UNUSED = 0 ∧
    ∃ e1 : List BusEvent, w2.trace = w.trace ++ e1 ∧
      ∀ t : List BusEvent, reservedClear (e1 ++ t) = reservedClear t := by
  subst h
  exact ⟨hr, hI, _, rfl, fun t =>
    reservedClear_mode _ (ModeRegister_DATA_lt r) ((Mode_reserved_iff r).mpr hr) t⟩

theorem io_write_step (w w2 : World) (r : tAD779X_IORegister)
    (hr : r.UNUSED = 0) (hM : w.dev.ModeReg.UNUSED0 = 0 ∧ w.dev.ModeReg.UNUSED1 = 0)
    (h : w2 = { w with
      dev := { w.dev with IOReg := r },
      trace := w.trace ++ [BusEvent.CSControl cssEnable, BusEvent.TxByte 0x28,
        BusEvent.TxByte r.DATA, BusEvent.CSControl cssDisable] }) :
    (w2.dev.ModeReg.UNUSED0 = 0 ∧ w2.dev.ModeReg.UNUSED1 = 0) ∧
    w2.dev.IOReg.UNUSED = 0 ∧
    ∃ e1 : List BusEvent, w2.trace = w.trace ++ e1 ∧
      ∀ t : List BusEvent, reservedClear (e1 ++ t) = reservedClear t := by
  subst h
  exact ⟨hM, hr, _, rfl, fun t => reservedClear_io _ ((IO_reserved_iff r).mpr hr) t⟩

/-- One `Set*` call keeps the reserved fields zero and emits one write whose payload
has its reserved bits clear. -/
theorem call_reserved (c : SetCall) (w : World)
    (hM : w.dev.ModeReg.UNUSED0 = 0 ∧ w.dev.ModeReg.UNUSED1 = 0)
    (hI : w.dev.IOReg.UNUSED = 0) :
    ((Single.call c w).dev.ModeReg.UNUSED0 = 0 ∧ (Single.call c w).dev.ModeReg.UNUSED1 = 0) ∧
    (Single.call c w).dev.IOReg.UNUSED = 0 ∧
    ∃ e1 : List BusEvent, (Single.call c w).trace = w.trace ++ e1 ∧
      ∀ t : List BusEvent, reservedClear (e1 ++ t) = reservedClear t := by
  cases c with
  | SetMode a =>
    exact mode_write_step w _ (w.dev.ModeReg.set_MODE a) hM hI (Single_SetMode_eq a w)
  | SetClkSource a =>
    exact mode_write_step w _ (w.dev.ModeReg.set_CLKS a) hM hI (Single_SetClkSource_eq a w)
  | SetUpdateRate a =>
    exact mode_write_step w _ (w.dev.ModeReg.set_FS a) hM hI (Single_SetUpdateRate_eq a w)
  | SetExCurrentValue a =>
    exact io_write_step w _ (w.dev.IOReg.set_IEXCEN a) hI hM (Single_SetExCurrentValue_eq a w)
  | SetExCurrentDirection a =>
    exact io_write_step w _ (w.dev.IOReg.set_IEXCDIR a) hI hM
      (Single_SetExCurrentDirection_eq a w)
  | SetExCurrent a b =>
    exact io_write_step w _ ((w.dev.IOReg.set_IEXCEN a).set_IEXCDIR b) hI hM
      (Single_SetExCurrent_eq a b w)

theorem run_reserved (calls : List SetCall) :
    ∀ w : World, (w.dev.ModeReg.UNUSED0 = 0 ∧ w.dev.ModeReg.UNUSED1 = 0) →
      w.dev.IOReg.UNUSED = 0 →
      ((Single.run calls w).dev.ModeReg.UNUSED0 = 0 ∧
        (Single.run calls w).dev.ModeReg.UNUSED1 = 0) ∧
      (Single.run calls w).dev.IOReg.UNUSED = 0 ∧
      ∃ ev : List BusEvent, (Single.run calls w).trace = w.trace ++ ev ∧
        reservedClear ev = true := by
  induction calls with
  | nil =>
    intro w hM hI
    exact ⟨hM, hI, [], by simp [Single.run], rfl⟩
  | cons c cs ih =>
    intro w hM hI
    obtain ⟨hM1, hI1, e1, ht1, hr1⟩ := call_reserved c w hM hI
    obtain ⟨hM2, hI2, ev, ht2, hr2⟩ := ih (Single.call c w) hM1 hI1
    refine ⟨hM2, hI2, e1 ++ ev, ?_, ?_⟩
    · show (Single.run cs (Single.call c w)).trace = _
      rw [ht2, ht1, List.append_assoc]
    · rw [hr1 ev, hr2]

/-- C29: if the cached Mode register has no bit set outside 0xE0CF and the cached IO
register has no bit set outside 0x0F, then after any sequence of calls of
`AD779X_SetMode`, `AD779X_SetClkSource`, `AD779X_SetUpdateRate`,
`AD779X_SetExCurrentValue`, `AD779X_SetExCurrentDirection` and `AD779X_SetExCurrent`
with any arguments both properties still hold, and the events emitted by the sequence
are Mode- and IO-register writes whose payloads all have their reserved bits zero. -/
theorem Reserved_bits_stay_zero (w : World) (calls : List SetCall)
    (hM : w.dev.ModeReg.DATA &&& (0xFFFF ^^^ AD779X_MODE_COM) = 0)
    (hI : w.dev.IOReg.DATA &&& (0xFF ^^^ AD779X_IO_COM) = 0) :
    (Single.run calls w).dev.ModeReg.DATA &&& (0xFFFF ^^^ AD779X_MODE_COM) = 0 ∧
    (Single.run calls w).dev.IOReg.DATA &&& (0xFF ^^^ AD779X_IO_COM) = 0 ∧
    (Single.run calls w).trace = w.trace ++ emitted w (Single.run calls w) ∧
    reservedClear (emitted w (Single.run calls w)) = true := by
  obtain ⟨hM2, hI2, ev, ht, hr⟩ :=
    run_reserved calls w ((Mode_reserved_iff _).mp hM) ((IO_reserved_iff _).mp hI)
  rw [emitted_append w _ ev ht]
  exact ⟨(Mode_reserved_iff _).mpr hM2, (IO_reserved_iff _).mpr hI2, ht, hr⟩

/-- Instance of C29: on a device holding the reset values, a sequence with
out-of-range arguments (mode 9, rate 0xFF, current value 7, direction 5) leaves no
reserved bit set in the cached Mode register. -/
theorem Reserved_bits_stay_zero_witness :
    (Single.run
      [SetCall.SetMode 9, SetCall.SetUpdateRate 0xFF, SetCall.SetExCurrent 7 5,
        SetCall.SetClkSource 6]
      (worldOf { zeroDevice with ModeReg := gModeReg } [])).dev.ModeReg.DATA
      &&& (0xFFFF ^^^ AD779X_MODE_COM) = 0 :=
  (Reserved_bits_stay_zero (worldOf { zeroDevice with ModeReg := gModeReg } [])
    [SetCall.SetMode 9, SetCall.SetUpdateRate 0xFF, SetCall.SetExCurrent 7 5,
      SetCall.SetClkSource 6] (by decide) (by decide)).1

end AD779X
